import Mathlib

/-!
# Chain parameters of NewEPM (`src/chainparams.cpp`)

A shallow embedding of the consensus configuration registry: the genesis
builders, the devnet genesis miner, the quorum descriptors, the four network
profiles and the process-wide selection of the active profile.

Conventions of the embedding
* unsigned machine integers are `Nat` (reduced `% 2 ^ 32` where the source can
  wrap), signed ones are `Int`;
* a `uint256` is the natural number it denotes (`UintToArith256`);
* `assert` failures and thrown exceptions are values of `Failure`;
* the hashing backend (`CBlock::GetHash`, the Merkle tree over the
  transactions) and the process arguments (`GetDevNetName`) live outside
  `chainparams.cpp`; they are the fields of `Backend`, and every statement
  quantifies over them.
-/

namespace NewEPM

/-! ## Primitive types -/

abbrev uint256 := Nat

abbrev CAmount := Int

/-- Modelled from the spec: the amount unit `COIN` of `amount.h`, which is not
part of the sources at hand: 10 ^ 8 base units (the block documented at line 81
prints a reward of 50 coins as `50.00000000`). -/
def COIN : CAmount := 100000000

def UINT32_MAX : Nat := 4294967295

/-- Line 25: `const int32_t NEVER32 = 400000U`. -/
def NEVER32 : Int := 400000

/-- Line 26: `const int64_t NEVER64 = 4070908800ULL`. -/
def NEVER64 : Int := 4070908800

/-- The two opcodes `chainparams.cpp` pushes on a script. -/
inductive opcodetype
  | OP_RETURN
  | OP_CHECKSIG
  deriving DecidableEq, Repr

/-- One `operator<<` applied to a `CScript`: the script is kept as the sequence
of pushes the source performs, in source order. -/
inductive ScriptElem
  | pushInt (n : Int)
  | pushScriptNum (n : Int)
  | pushData (bytes : List Nat)
  | pushOp (op : opcodetype)
  deriving DecidableEq, Repr

abbrev CScript := List ScriptElem

/-- The bytes of a C string (`const unsigned char*` range over its characters). -/
def strBytes (s : String) : List Nat := s.data.map Char.toNat

/-- The conversion `std::string(s.c_str())`: a C string ends at its first NUL. -/
def c_str (s : String) : String := String.mk (s.data.takeWhile (fun c => c.toNat != 0))

/-- Value of one hexadecimal digit (`HexDigit` of `utilstrencodings`). -/
def HexDigit (c : Char) : Option Nat :=
  if 48 ≤ c.toNat ∧ c.toNat ≤ 57 then some (c.toNat - 48)
  else if 97 ≤ c.toNat ∧ c.toNat ≤ 102 then some (c.toNat - 87)
  else if 65 ≤ c.toNat ∧ c.toNat ≤ 70 then some (c.toNat - 55)
  else none

/-- Pairs of hexadecimal digits to bytes, stopping at the first non-digit. -/
def ParseHexChars : List Char → List Nat
  | a :: b :: rest =>
    match HexDigit a, HexDigit b with
    | some x, some y => (x * 16 + y) :: ParseHexChars rest
    | _, _ => []
  | _ => []

/-- The helper `ParseHex` of `utilstrencodings` on a string without blanks. -/
def ParseHex (s : String) : List Nat := ParseHexChars s.data

/-- A previous-output reference; the default one is null. -/
structure COutPoint where
  hash : uint256 := 0
  n : Nat := 4294967295
  deriving DecidableEq, Repr

structure CTxIn where
  prevout : COutPoint := {}
  scriptSig : CScript := []
  nSequence : Nat := 4294967295
  deriving DecidableEq, Repr

structure CTxOut where
  nValue : CAmount := -1
  scriptPubKey : CScript := []
  deriving DecidableEq, Repr

/-- A transaction (`CMutableTransaction`, frozen by `MakeTransactionRef`). -/
structure CTransaction where
  nVersion : Int
  vin : List CTxIn
  vout : List CTxOut
  nLockTime : Nat := 0
  deriving DecidableEq, Repr

/-- A block: the six header fields and the transactions. The default block is
the null block of `CBlock::SetNull`. -/
structure CBlock where
  nVersion : Int := 0
  hashPrevBlock : uint256 := 0
  hashMerkleRoot : uint256 := 0
  nTime : Nat := 0
  nBits : Nat := 0
  nNonce : Nat := 0
  vtx : List CTransaction := []
  deriving DecidableEq, Repr

/-! ## Failures -/

/-- The `assert` statements of `chainparams.cpp`, by place. -/
inductive AssertSite
  | devNetNameNotEmpty
  | devnetGenesisNotFound
  | genesisHashMatches
  | genesisMerkleRootMatches
  | currentParamsSet
  | devNetParamsSet
  deriving DecidableEq, Repr

/-- How a call can end other than by returning: a failed `assert` aborts the
process, a `std::runtime_error` is thrown to the caller, and a loop may never
end. -/
inductive Failure
  | assertion (site : AssertSite)
  | runtime_error (what : String)
  | nontermination
  deriving DecidableEq, Repr

/-! ## External collaborators -/

/-- What `chainparams.cpp` uses and does not define: the block hash, the Merkle
root over a list of transactions, and the devnet name of the process. -/
structure Backend where
  GetHash : CBlock → uint256
  ComputeMerkleRoot : List CTransaction → uint256
  GetDevNetName : String

/-- Modelled from the spec: `BlockMerkleRoot` of `consensus/merkle.h`, which is
not part of the sources at hand; the spec has the Merkle root computed from the
block's transactions only ("the root of a tree containing only the coinbase
transaction"). -/
def BlockMerkleRoot (env : Backend) (block : CBlock) : uint256 :=
  env.ComputeMerkleRoot block.vtx

/-- Modelled from the spec: `arith_uint256::SetCompact` of `arith_uint256.h`,
which is not part of the sources at hand. The compact form holds a size byte
and a 23-bit mantissa; the target is the mantissa shifted to that size and kept
to 256 bits, the hash being compared with it as a 256-bit integer. -/
def SetCompact (nCompact : Nat) : uint256 :=
  let nSize := nCompact / 2 ^ 24
  let nWord := nCompact % 2 ^ 23
  if nSize ≤ 3 then nWord / 2 ^ (8 * (3 - nSize))
  else (nWord * 2 ^ (8 * (nSize - 3))) % 2 ^ 256

/-! ## Genesis builders (lines 28-93) -/

/-- Lines 28-47: the genesis builder over an explicit message and output
script. -/
def CreateGenesisBlock_script (env : Backend) (pszTimestamp : String)
    (genesisOutputScript : CScript) (nTime nNonce nBits : Nat) (nVersion : Int)
    (genesisReward : CAmount) : CBlock :=
  let txNew : CTransaction :=
    { nVersion := 1
      vin := [{ scriptSig := [ScriptElem.pushInt 486604799, ScriptElem.pushScriptNum 4,
                              ScriptElem.pushData (strBytes pszTimestamp)] }]
      vout := [{ nValue := genesisReward, scriptPubKey := genesisOutputScript }] }
  let genesis : CBlock :=
    { nTime := nTime, nBits := nBits, nNonce := nNonce, nVersion := nVersion,
      vtx := [txNew], hashPrevBlock := 0 }
  { genesis with hashMerkleRoot := BlockMerkleRoot env genesis }

/-- Lines 49-71: the devnet genesis builder; it asserts a non-empty name. -/
def CreateDevNetGenesisBlock (env : Backend) (prevBlockHash : uint256) (devNetName : String)
    (nTime nNonce nBits : Nat) (genesisReward : CAmount) : Except Failure CBlock :=
  if devNetName.data = [] then Except.error (Failure.assertion AssertSite.devNetNameNotEmpty)
  else
    let txNew : CTransaction :=
      { nVersion := 1
        vin := [{ scriptSig := [ScriptElem.pushInt 1, ScriptElem.pushData (strBytes devNetName)] }]
        vout := [{ nValue := genesisReward,
                   scriptPubKey := [ScriptElem.pushOp opcodetype.OP_RETURN] }] }
    let genesis : CBlock :=
      { nTime := nTime, nBits := nBits, nNonce := nNonce, nVersion := 4,
        vtx := [txNew], hashPrevBlock := prevBlockHash }
    Except.ok { genesis with hashMerkleRoot := BlockMerkleRoot env genesis }

/-- Lines 86-88: the coinbase message chosen by `fTestnet`. -/
def pszTimestamp (fTestnet : Bool) : String :=
  if fTestnet then
    "Wired 09/Jan/2014 The Grand Experiment Goes Live: Overstock.com Is Now Accepting Bitcoins"
  else "Study reveals lights on fishnets save turtles,dolphins"

/-- Lines 89-91: the output script chosen by `fTestnet`. -/
def genesisOutputScript (fTestnet : Bool) : CScript :=
  if fTestnet then
    [ScriptElem.pushData (ParseHex "040184710fa689ad5023690c80f3a49c8f13f8d45b8c857fbcbc8bc4a8e4d3eb4b10f4d4604fa08dce601aaf0f470216fe1b51850b4acf21b179c45070ac7b03a9"),
     ScriptElem.pushOp opcodetype.OP_CHECKSIG]
  else
    [ScriptElem.pushData (ParseHex "0411345e927d2d3aba81541e23b271f5a9013f2c240fb9bd4b1c14234993639293846cfc74152d293a3bf7ba74592f5f358127cb062a621d3b153089d0b5bb84e5"),
     ScriptElem.pushOp opcodetype.OP_CHECKSIG]

/-- Lines 84-93: the genesis builder of the networks. -/
def CreateGenesisBlock (env : Backend) (nTime nNonce nBits : Nat) (nVersion : Int)
    (genesisReward : CAmount) (fTestnet : Bool) : CBlock :=
  CreateGenesisBlock_script env (pszTimestamp fTestnet) (genesisOutputScript fTestnet)
    nTime nNonce nBits nVersion genesisReward

/-! ## Devnet genesis miner (lines 95-117) -/

/-- Lines 105-111: the nonce loop, entered with the loop variable at `nNonce`.
It returns the first block whose hash meets the target, `none` when the loop
condition `nNonce < UINT32_MAX` fails first. -/
def FindDevNetGenesisBlock_loop (env : Backend) (bnTarget : uint256) (block : CBlock)
    (nNonce : Nat) : Option CBlock :=
  if nNonce < UINT32_MAX then
    let block : CBlock := { block with nNonce := nNonce }
    if env.GetHash block ≤ bnTarget then some block
    else FindDevNetGenesisBlock_loop env bnTarget block (nNonce + 1)
  else none
termination_by UINT32_MAX - nNonce
decreasing_by omega

/-- Lines 95-117. The `params` argument of the source is not read by the body
and is left out. -/
def FindDevNetGenesisBlock (env : Backend) (prevBlock : CBlock) (reward : CAmount) :
    Except Failure CBlock :=
  let devNetName := env.GetDevNetName
  if devNetName.data = [] then Except.error (Failure.assertion AssertSite.devNetNameNotEmpty)
  else
    match CreateDevNetGenesisBlock env (env.GetHash prevBlock) (c_str devNetName)
        ((prevBlock.nTime + 1) % 2 ^ 32) 0 prevBlock.nBits reward with
    | Except.error e => Except.error e
    | Except.ok block =>
      let bnTarget := SetCompact block.nBits
      match FindDevNetGenesisBlock_loop env bnTarget block 0 with
      | some found => Except.ok found
      | none => Except.error (Failure.assertion AssertSite.devnetGenesisNotFound)

/-! ## Consensus parameters (`consensus/params.h`, as far as `chainparams.cpp` assigns them) -/

namespace Consensus

/-- The deployment identifiers indexing `vDeployments`. -/
inductive DeploymentPos
  | DEPLOYMENT_TESTDUMMY
  | DEPLOYMENT_CSV
  | DEPLOYMENT_DIP0001
  | DEPLOYMENT_BIP147
  | DEPLOYMENT_DIP0003
  | DEPLOYMENT_DIP0008
  deriving DecidableEq, Repr

/-- One BIP9 deployment descriptor. A field a constructor does not assign keeps
the zero the object is initialised with. -/
structure BIP9Deployment where
  bit : Int := 0
  nStartTime : Int := 0
  nTimeout : Int := 0
  nWindowSize : Int := 0
  nThreshold : Int := 0
  deriving DecidableEq, Repr

/-- Modelled from the spec: the sentinel timeout "never times out" of
`BIP9Deployment`, declared outside the sources at hand (the largest `int64_t`). -/
def BIP9Deployment.NO_TIMEOUT : Int := 9223372036854775807

/-- Modelled from the spec: the sentinel start time "always active" of
`BIP9Deployment`, declared outside the sources at hand. -/
def BIP9Deployment.ALWAYS_ACTIVE : Int := -1

/-- The quorum types. -/
inductive LLMQType
  | LLMQ_NONE
  | LLMQ_50_60
  | LLMQ_400_60
  | LLMQ_400_85
  | LLMQ_5_60
  deriving DecidableEq, Repr

/-- One quorum descriptor. -/
structure LLMQParams where
  type : LLMQType
  name : String
  size : Int
  minSize : Int
  threshold : Int
  dkgInterval : Int
  dkgPhaseBlocks : Int
  dkgMiningWindowStart : Int
  dkgMiningWindowEnd : Int
  dkgBadVotesThreshold : Int
  signingActiveQuorumCount : Int
  keepOldConnections : Int
  deriving DecidableEq, Repr

/-- The map `std::map<LLMQType, LLMQParams>`: a key is present when it has a value. -/
abbrev LLMQMap := LLMQType → Option LLMQParams

/-- The empty map. -/
def LLMQMap.empty : LLMQMap := fun _ => none

/-- The assignment `llmqs[k] = v`. -/
def LLMQMap.set (m : LLMQMap) (k : LLMQType) (v : LLMQParams) : LLMQMap :=
  fun t => if t = k then some v else m t

/-- The test `llmqs.count(k) != 0`. -/
def LLMQMap.contains (m : LLMQMap) (k : LLMQType) : Bool := (m k).isSome

/-- The consensus parameters. Every field starts from zero (static storage for
main, test and regtest, `memset` for dev) and holds what the constructor of the
network assigns. -/
structure Params where
  hashGenesisBlock : uint256 := 0
  hashDevnetGenesisBlock : uint256 := 0
  nSubsidyHalvingInterval : Int := 0
  nMasternodePaymentsStartBlock : Int := 0
  nMasternodePaymentsIncreaseBlock : Int := 0
  nMasternodePaymentsIncreasePeriod : Int := 0
  nInstantSendConfirmationsRequired : Int := 0
  nInstantSendKeepLock : Int := 0
  nInstantSendSigsRequired : Int := 0
  nInstantSendSigsTotal : Int := 0
  nBudgetPaymentsStartBlock : Int := 0
  nBudgetPaymentsCycleBlocks : Int := 0
  nBudgetPaymentsWindowBlocks : Int := 0
  nSuperblockStartBlock : Int := 0
  nSuperblockStartHash : uint256 := 0
  nSuperblockCycle : Int := 0
  nGovernanceMinQuorum : Int := 0
  nGovernanceFilterElements : Int := 0
  nGenerationAmount : CAmount := 0
  nGenerationHeight : Int := 0
  nMasternodeMinimumConfirmations : Int := 0
  nMasternodeCollateral : CAmount := 0
  BIP34Height : Int := 0
  BIP34Hash : uint256 := 0
  BIP65Height : Int := 0
  BIP66Height : Int := 0
  DIP0001Height : Int := 0
  DIP0003Height : Int := 0
  DIP0003EnforcementHeight : Int := 0
  DIP0003EnforcementHash : uint256 := 0
  powLimit : uint256 := 0
  posLimit : uint256 := 0
  nLastPoWBlock : Int := 0
  nPowTargetTimespan : Int := 0
  nPowTargetSpacing : Int := 0
  nPosTargetSpacing : Int := 0
  nPosTargetTimespan : Int := 0
  nMinimumStakeValue : CAmount := 0
  nStakeMinAge : Int := 0
  nStakeMaxAge : Int := 0
  nModifierInterval : Int := 0
  fPowAllowMinDifficultyBlocks : Bool := false
  fPowNoRetargeting : Bool := false
  nPowKGWHeight : Int := 0
  nPowDGWHeight : Int := 0
  nRuleChangeActivationThreshold : Int := 0
  nMinerConfirmationWindow : Int := 0
  vDeployments : DeploymentPos → BIP9Deployment := fun _ => {}
  nMinimumChainWork : uint256 := 0
  defaultAssumeValid : uint256 := 0
  nMinimumDifficultyBlocks : Int := 0
  nHighSubsidyBlocks : Int := 0
  nHighSubsidyFactor : Int := 0
  llmqs : LLMQMap := LLMQMap.empty
  llmqChainLocks : LLMQType := LLMQType.LLMQ_NONE
  llmqForInstaEPM : LLMQType := LLMQType.LLMQ_NONE

end Consensus

/-! ## Chain parameters (`chainparams.h`, as far as `chainparams.cpp` assigns them) -/

/-- The address and key prefixes of `base58Prefixes`. -/
structure Base58Prefixes where
  PUBKEY_ADDRESS : List Nat := []
  SCRIPT_ADDRESS : List Nat := []
  SECRET_KEY : List Nat := []
  EXT_PUBLIC_KEY : List Nat := []
  EXT_SECRET_KEY : List Nat := []
  deriving DecidableEq, Repr

/-- The fixed seed tables of `chainparamsseeds.h`, by name. -/
inductive FixedSeeds
  | empty
  | pnSeed6_main
  | pnSeed6_test
  deriving DecidableEq, Repr

/-- The chain transaction data; the estimated rate, a floating-point number
used for progress display only, is not kept. -/
structure ChainTxData where
  nTime : Int := 0
  nTxCount : Int := 0
  deriving DecidableEq, Repr

/-- One network profile (`CChainParams`). -/
structure CChainParams where
  strNetworkID : String := ""
  consensus : Consensus.Params := {}
  pchMessageStart : List Nat := [0, 0, 0, 0]
  vAlertPubKey : List Nat := []
  nDefaultPort : Int := 0
  nPruneAfterHeight : Int := 0
  genesis : CBlock := {}
  devnetGenesis : CBlock := {}
  vSeeds : List (String × String) := []
  vFixedSeeds : FixedSeeds := FixedSeeds.empty
  base58Prefixes : Base58Prefixes := {}
  nExtCoinType : Int := 0
  fMiningRequiresPeers : Bool := false
  fDefaultConsistencyChecks : Bool := false
  fRequireStandard : Bool := false
  fRequireRoutableExternalIP : Bool := false
  fMineBlocksOnDemand : Bool := false
  fAllowMultipleAddressesFromGroup : Bool := false
  fAllowMultiplePorts : Bool := false
  nPoolMinParticipants : Int := 0
  nPoolMaxParticipants : Int := 0
  nFulfilledRequestExpireTime : Int := 0
  vSporkAddresses : List String := []
  nMinSporkKeys : Int := 0
  fBIP9CheckMasternodesUpgraded : Bool := false
  checkpointData : List (Int × uint256) := []
  chainTxData : ChainTxData := {}

/-! ## Quorum descriptors (lines 119-191) -/

/-- Lines 120-136. -/
def llmq5_60 : Consensus.LLMQParams :=
  { type := Consensus.LLMQType.LLMQ_5_60
    name := "llmq_5_60"
    size := 3
    minSize := 3
    threshold := 3
    dkgInterval := 24
    dkgPhaseBlocks := 2
    dkgMiningWindowStart := 10
    dkgMiningWindowEnd := 18
    dkgBadVotesThreshold := 8
    signingActiveQuorumCount := 2
    keepOldConnections := 3 }

/-- Lines 138-154. -/
def llmq50_60 : Consensus.LLMQParams :=
  { type := Consensus.LLMQType.LLMQ_50_60
    name := "llmq_50_60"
    size := 50
    minSize := 40
    threshold := 30
    dkgInterval := 24
    dkgPhaseBlocks := 2
    dkgMiningWindowStart := 10
    dkgMiningWindowEnd := 18
    dkgBadVotesThreshold := 40
    signingActiveQuorumCount := 24
    keepOldConnections := 25 }

/-- Lines 156-172. -/
def llmq400_60 : Consensus.LLMQParams :=
  { type := Consensus.LLMQType.LLMQ_400_60
    name := "llmq_400_60"
    size := 400
    minSize := 300
    threshold := 240
    dkgInterval := 24 * 12
    dkgPhaseBlocks := 4
    dkgMiningWindowStart := 20
    dkgMiningWindowEnd := 28
    dkgBadVotesThreshold := 300
    signingActiveQuorumCount := 4
    keepOldConnections := 5 }

/-- Lines 175-191. -/
def llmq400_85 : Consensus.LLMQParams :=
  { type := Consensus.LLMQType.LLMQ_400_85
    name := "llmq_400_85"
    size := 400
    minSize := 350
    threshold := 340
    dkgInterval := 24 * 24
    dkgPhaseBlocks := 4
    dkgMiningWindowStart := 20
    dkgMiningWindowEnd := 48
    dkgBadVotesThreshold := 300
    signingActiveQuorumCount := 4
    keepOldConnections := 5 }

/-! ## Network profiles (lines 206-913) -/

/-- The deployments assigned at lines 260-295. -/
def CMainParams_vDeployments : Consensus.DeploymentPos → Consensus.BIP9Deployment
  | .DEPLOYMENT_TESTDUMMY => { bit := 28, nStartTime := 1575370800, nTimeout := NEVER64 }
  | .DEPLOYMENT_CSV => { bit := 0, nStartTime := 1575370800, nTimeout := NEVER64 }
  | .DEPLOYMENT_DIP0001 =>
    { bit := 1, nStartTime := 1575370800, nTimeout := NEVER64, nWindowSize := 100,
      nThreshold := 50 }
  | .DEPLOYMENT_BIP147 =>
    { bit := 2, nStartTime := 1575370800, nTimeout := NEVER64, nWindowSize := 100,
      nThreshold := 50 }
  | .DEPLOYMENT_DIP0003 =>
    { bit := 3, nStartTime := 1575370810, nTimeout := Consensus.BIP9Deployment.NO_TIMEOUT,
      nWindowSize := 2000, nThreshold := 1000 }
  | .DEPLOYMENT_DIP0008 =>
    { bit := 4, nStartTime := 1575370810, nTimeout := Consensus.BIP9Deployment.NO_TIMEOUT,
      nWindowSize := 3000, nThreshold := 1500 }

/-- Lines 209-392: the assignments of the main constructor, in source order of
the fields; the two `assert`s of lines 318-319 are in `CMainParams`. -/
def CMainParams_assign (env : Backend) : CChainParams :=
  let genesis := CreateGenesisBlock env 1575878400 427681 0x1e0ffff0 1 (50 * COIN) false
  { strNetworkID := "main"
    consensus :=
      { nSubsidyHalvingInterval := NEVER32
        nMasternodePaymentsStartBlock := 500
        nMasternodePaymentsIncreaseBlock := NEVER32
        nMasternodePaymentsIncreasePeriod := NEVER32
        nInstantSendConfirmationsRequired := 6
        nInstantSendKeepLock := 24
        nInstantSendSigsRequired := 6
        nInstantSendSigsTotal := 10
        nBudgetPaymentsStartBlock := NEVER32
        nBudgetPaymentsCycleBlocks := NEVER32
        nBudgetPaymentsWindowBlocks := NEVER32
        nSuperblockStartBlock := NEVER32
        nSuperblockStartHash := 0
        nSuperblockCycle := NEVER32
        nGovernanceMinQuorum := 10
        nGovernanceFilterElements := 20000
        nGenerationAmount := 50 * COIN
        nGenerationHeight := 250
        nMasternodeMinimumConfirmations := 15
        nMasternodeCollateral := 1300 * COIN
        BIP34Height := 1
        BIP34Hash := 0
        BIP65Height := 619382
        BIP66Height := 3
        DIP0001Height := 2
        DIP0003Height := 201
        DIP0003EnforcementHeight := 250 + 50
        DIP0003EnforcementHash := 0
        powLimit := 0x00000fffffffffffffffffffffffffffffffffffffffffffffffffffffffffff
        posLimit := 0x0007ffff00000000000000000000000000000000000000000000000000000000
        nLastPoWBlock := 201 - 1
        nPowTargetTimespan := 24 * 60 * 60
        nPowTargetSpacing := 1 * 60
        nPosTargetSpacing := 1 * 60
        nPosTargetTimespan := 24 * 60 * 60
        nMinimumStakeValue := 100 * COIN
        nStakeMinAge := 60 * 60
        nStakeMaxAge := 60 * 60 * 24 * 30
        nModifierInterval := 60 * 20
        fPowAllowMinDifficultyBlocks := false
        fPowNoRetargeting := false
        nPowKGWHeight := 20
        nPowDGWHeight := 60
        nRuleChangeActivationThreshold := 1916
        nMinerConfirmationWindow := 2016
        vDeployments := CMainParams_vDeployments
        nMinimumChainWork := 0
        defaultAssumeValid := 0
        hashGenesisBlock := env.GetHash genesis
        llmqs :=
          Consensus.LLMQMap.set
            (Consensus.LLMQMap.set
              (Consensus.LLMQMap.set Consensus.LLMQMap.empty .LLMQ_50_60 llmq50_60)
              .LLMQ_400_60 llmq400_60)
            .LLMQ_400_85 llmq400_85
        llmqChainLocks := .LLMQ_400_60
        llmqForInstaEPM := .LLMQ_50_60 }
    pchMessageStart := [0xba, 0xc3, 0xe9, 0x7d]
    vAlertPubKey := ParseHex "048403aa4b7052cfca5740f8a11c7390880f2ea482c9119e5a0c3fcd9ec176a295502acd665709f8abd00963667317ba5b6dd47f16a507011649922d99af1647eb"
    nDefaultPort := 1505
    nPruneAfterHeight := 2000000
    genesis := genesis
    vSeeds :=
      [("178.63.174.59", "178.63.174.59"), ("62.210.188.7", "62.210.188.7"),
       ("95.216.19.167", "95.216.19.167"), ("144.76.2.67", "144.76.2.67"),
       ("5.9.40.169", "5.9.40.169  "), ("95.216.17.97", "95.216.17.97"),
       ("85.10.193.18", "85.10.193.18"), ("95.216.0.167", "95.216.0.167"),
       ("38.103.128.98", "38.103.128.98"), ("148.251.245.229", "148.251.245.229"),
       ("5.9.110.248", "5.9.110.248")]
    base58Prefixes :=
      { PUBKEY_ADDRESS := [55], SCRIPT_ADDRESS := [10], SECRET_KEY := [204],
        EXT_PUBLIC_KEY := [0x04, 0x88, 0xB2, 0x1E], EXT_SECRET_KEY := [0x04, 0x88, 0xAD, 0xE4] }
    nExtCoinType := 5
    vFixedSeeds := FixedSeeds.pnSeed6_main
    fMiningRequiresPeers := true
    fDefaultConsistencyChecks := false
    fRequireStandard := true
    fRequireRoutableExternalIP := true
    fMineBlocksOnDemand := false
    fAllowMultipleAddressesFromGroup := false
    fAllowMultiplePorts := false
    nPoolMinParticipants := 3
    nPoolMaxParticipants := 5
    nFulfilledRequestExpireTime := 60 * 60
    vSporkAddresses := ["PBNaM8CXc6agNpXPw5KFmxf3sCEFVx1o44"]
    nMinSporkKeys := 1
    fBIP9CheckMasternodesUpgraded := true
    checkpointData :=
      [(0, 0x0000052da0bf041f23e726a1e2a2e18970b6e92ec87318d15ca61935c340be45),
       (1, 0x000000c47f69e764c87202daafcadacf341e378dda22768f0d8b231c7ba4b86f),
       (77, 0x00000417612d76cc7f2f43d75f9f00f5a81be8c8e0ad39f9d6dcb2f92a6588bb),
       (1451, 0x631ae9dbe12a5da57b680aa5ad95221d1598d2b7f0d78cc0ab8fe87b67cc9611),
       (2134, 0xe64f1850596d911edf22086ee7e3eaf492e89dcd097ec1e8fa86598f70a578ee),
       (2979, 0x1eac497e868577e99279d1681edcdef34889277c9a2d3674f11cf5092ff50d74),
       (3663, 0xefa73709611d28ccab18213fd8bac31a678ad434afa49b825243c32636754845),
       (4305, 0x9a7d39f8b07734e7005147f77b4f80b06c4c0cc1a28c925e99c5865badbcf51d),
       (5019, 0x625a57347143d422a9bd762aa55a6efaa7a6b181278625281ebbbe04d9195cf5)]
    chainTxData := { nTime := 1576214371, nTxCount := 16813 } }

/-- The genesis hash recorded for main (line 318). -/
def mainGenesisHash : uint256 :=
  0x0000052da0bf041f23e726a1e2a2e18970b6e92ec87318d15ca61935c340be45

/-- The genesis Merkle root recorded for main (line 319). -/
def mainGenesisMerkleRoot : uint256 :=
  0xa84706ecbb981aae7a4f701cb0fb93c4536971a13ee9fcea9c2e6a3ba89b32f8

/-- Lines 208-393: the main constructor, with its two `assert`s. -/
def CMainParams (env : Backend) : Except Failure CChainParams :=
  let p := CMainParams_assign env
  if p.consensus.hashGenesisBlock ≠ mainGenesisHash then
    Except.error (Failure.assertion AssertSite.genesisHashMatches)
  else if p.genesis.hashMerkleRoot ≠ mainGenesisMerkleRoot then
    Except.error (Failure.assertion AssertSite.genesisMerkleRootMatches)
  else Except.ok p

/-- The deployments assigned at lines 452-487. -/
def CTestNetParams_vDeployments : Consensus.DeploymentPos → Consensus.BIP9Deployment
  | .DEPLOYMENT_TESTDUMMY => { bit := 28, nStartTime := 1573325000, nTimeout := NEVER64 }
  | .DEPLOYMENT_CSV => { bit := 0, nStartTime := 1573325000, nTimeout := NEVER64 }
  | .DEPLOYMENT_DIP0001 =>
    { bit := 1, nStartTime := 1573325000, nTimeout := NEVER64, nWindowSize := 100,
      nThreshold := 50 }
  | .DEPLOYMENT_BIP147 =>
    { bit := 2, nStartTime := 1573325000, nTimeout := NEVER64, nWindowSize := 100,
      nThreshold := 50 }
  | .DEPLOYMENT_DIP0003 =>
    { bit := 3, nStartTime := Consensus.BIP9Deployment.ALWAYS_ACTIVE,
      nTimeout := Consensus.BIP9Deployment.NO_TIMEOUT, nWindowSize := 1000, nThreshold := 250 }
  | .DEPLOYMENT_DIP0008 =>
    { bit := 4, nStartTime := Consensus.BIP9Deployment.ALWAYS_ACTIVE,
      nTimeout := Consensus.BIP9Deployment.NO_TIMEOUT, nWindowSize := 1000, nThreshold := 250 }

/-- The proof-of-work limit of the test network (line 434). -/
def testPowLimit : uint256 :=
  0x0000fffff0000000000000000000000000000000000000000000000000000000

/-- Lines 507-513: the mining loop of the test constructor, run for at most
`fuel` tests of its condition from the state `(genesis, nNonce)`; `none` when
the condition still holds after `fuel` tests. The message printed every 128
nonces is not modelled. -/
def CTestNetParams_loop (env : Backend) : Nat → CBlock → Nat → Option (CBlock × Nat)
  | 0, _, _ => none
  | fuel + 1, genesis, nNonce =>
    if env.GetHash genesis > testPowLimit then
      let nNonce := (nNonce + 1) % 2 ^ 32
      CTestNetParams_loop env fuel
        (CreateGenesisBlock env 1573325000 nNonce 0x1f00ffff 1 (0 * COIN) true) nNonce
    else some (genesis, nNonce)

/-- Lines 403-569 without the mining loop: the assignments of the test
constructor, given the nonce the loop ends with. -/
def CTestNetParams_assign (env : Backend) (nNonce : Nat) : CChainParams :=
  let genesis := CreateGenesisBlock env 1573325000 nNonce 0x1f00ffff 1 (0 * COIN) true
  { strNetworkID := "test"
    consensus :=
      { nSubsidyHalvingInterval := NEVER32
        nMasternodePaymentsStartBlock := 50
        nMasternodePaymentsIncreaseBlock := NEVER32
        nMasternodePaymentsIncreasePeriod := NEVER32
        nInstantSendConfirmationsRequired := 2
        nInstantSendKeepLock := 6
        nInstantSendSigsRequired := 2
        nInstantSendSigsTotal := 4
        nBudgetPaymentsStartBlock := 50
        nBudgetPaymentsCycleBlocks := 50
        nBudgetPaymentsWindowBlocks := 100
        nSuperblockStartBlock := 100
        nSuperblockStartHash := 0
        nSuperblockCycle := 24
        nGovernanceMinQuorum := 1
        nGovernanceFilterElements := 500
        nGenerationAmount := 700000000 * COIN
        nGenerationHeight := 80
        nMasternodeMinimumConfirmations := 15
        nMasternodeCollateral := 1000 * COIN
        BIP34Height := 1
        BIP34Hash := 0
        BIP65Height := 0
        BIP66Height := 0
        DIP0001Height := 1
        DIP0003Height := 75
        DIP0003EnforcementHeight := 80 + 50
        DIP0003EnforcementHash := 0
        powLimit := testPowLimit
        posLimit := 0x007ffff000000000000000000000000000000000000000000000000000000000
        nLastPoWBlock := 75
        nPowTargetTimespan := 60
        nPowTargetSpacing := 60
        nPosTargetSpacing := 60
        nPosTargetTimespan := 60
        nMinimumStakeValue := 100 * COIN
        nStakeMinAge := 10 * 60
        nStakeMaxAge := 60 * 60 * 24 * 30
        nModifierInterval := 60 * 20
        fPowAllowMinDifficultyBlocks := false
        fPowNoRetargeting := false
        nPowKGWHeight := NEVER32
        nPowDGWHeight := NEVER32
        nRuleChangeActivationThreshold := 1512
        nMinerConfirmationWindow := 2016
        vDeployments := CTestNetParams_vDeployments
        nMinimumChainWork := 0
        defaultAssumeValid := 0
        hashGenesisBlock := env.GetHash genesis
        llmqs := Consensus.LLMQMap.set Consensus.LLMQMap.empty .LLMQ_5_60 llmq5_60
        llmqChainLocks := .LLMQ_5_60
        llmqForInstaEPM := .LLMQ_5_60 }
    pchMessageStart := [0x22, 0x44, 0x66, 0x88]
    vAlertPubKey := ParseHex "04517d8a699cb43d3938d7b24faaff7cda448ca4ea267723ba614784de661949bf632d6304316b244646dea079735b9a6fc4af804efb4752075b9fe2245e14e412"
    nDefaultPort := 29999
    nPruneAfterHeight := 1000
    genesis := genesis
    vFixedSeeds := FixedSeeds.pnSeed6_test
    vSeeds := []
    base58Prefixes :=
      { PUBKEY_ADDRESS := [140], SCRIPT_ADDRESS := [19], SECRET_KEY := [239],
        EXT_PUBLIC_KEY := [0x04, 0x35, 0x87, 0xCF], EXT_SECRET_KEY := [0x04, 0x35, 0x83, 0x94] }
    nExtCoinType := 1
    fMiningRequiresPeers := true
    fDefaultConsistencyChecks := false
    fRequireStandard := true
    fRequireRoutableExternalIP := false
    fMineBlocksOnDemand := false
    fAllowMultipleAddressesFromGroup := true
    fAllowMultiplePorts := true
    nPoolMinParticipants := 3
    nPoolMaxParticipants := 5
    nFulfilledRequestExpireTime := 5 * 60
    vSporkAddresses := ["yTpFjxs3Rtwe7MXfC1i5XACz2K5UYi2GpL"]
    nMinSporkKeys := 1
    fBIP9CheckMasternodesUpgraded := true
    checkpointData := [(0, env.GetHash genesis)]
    chainTxData := { nTime := 1567342000, nTxCount := 1 } }

/-- Lines 402-571: the test constructor. The loop starts from the null block the
member `genesis` is constructed as and from nonce 0. Past its first test the
loop state is a function of the 32-bit nonce alone, so a loop that has not
ended within `2 ^ 32 + 1` tests repeats its states and never ends. -/
def CTestNetParams (env : Backend) : Except Failure CChainParams :=
  match CTestNetParams_loop env (2 ^ 32 + 1) {} 0 with
  | none => Except.error Failure.nontermination
  | some (_, nNonce) => Except.ok (CTestNetParams_assign env nNonce)

/-- The deployments assigned at lines 624-659. -/
def CDevNetParams_vDeployments : Consensus.DeploymentPos → Consensus.BIP9Deployment
  | .DEPLOYMENT_TESTDUMMY => { bit := 28, nStartTime := 1199145601, nTimeout := 1230767999 }
  | .DEPLOYMENT_CSV => { bit := 0, nStartTime := 1506556800, nTimeout := 1538092800 }
  | .DEPLOYMENT_DIP0001 =>
    { bit := 1, nStartTime := 1505692800, nTimeout := 1537228800, nWindowSize := 100,
      nThreshold := 50 }
  | .DEPLOYMENT_BIP147 =>
    { bit := 2, nStartTime := 1517792400, nTimeout := 1549328400, nWindowSize := 100,
      nThreshold := 50 }
  | .DEPLOYMENT_DIP0003 =>
    { bit := 3, nStartTime := 1535752800, nTimeout := 1567288800, nWindowSize := 100,
      nThreshold := 50 }
  | .DEPLOYMENT_DIP0008 =>
    { bit := 4, nStartTime := 1553126400, nTimeout := 1584748800, nWindowSize := 100,
      nThreshold := 50 }

/-- The genesis hash recorded for dev (line 677) and as checkpoint 0 of dev and
regtest (lines 726 and 858). -/
def devGenesisHash : uint256 :=
  0x000008ca1832a4baf228eb1553c03d3a2c8e02399550dd6ea8d65cec3ef23d2e

/-- The genesis Merkle root recorded for dev (line 678). -/
def devGenesisMerkleRoot : uint256 :=
  0xe0028eb9648db56b1ac77cf090b99048a8007e2bb64b68f092c03c7f56a662c7

/-- Line 675 (and line 832 for regtest): the base genesis of dev. -/
def devBaseGenesis (env : Backend) : CBlock :=
  CreateGenesisBlock env 1417713337 1096447 0x207fffff 1 (50 * COIN) false

/-- Lines 581-734 without the `assert`s and the mining: the assignments of the
dev constructor, given the mined devnet genesis. -/
def CDevNetParams_assign (env : Backend) (devnetGenesis : CBlock) : CChainParams :=
  let genesis := devBaseGenesis env
  { strNetworkID := "dev"
    consensus :=
      { nSubsidyHalvingInterval := 210240
        nMasternodePaymentsStartBlock := 4010
        nMasternodePaymentsIncreaseBlock := 4030
        nMasternodePaymentsIncreasePeriod := 10
        nInstantSendConfirmationsRequired := 2
        nInstantSendKeepLock := 6
        nInstantSendSigsRequired := 6
        nInstantSendSigsTotal := 10
        nBudgetPaymentsStartBlock := 4100
        nBudgetPaymentsCycleBlocks := 50
        nBudgetPaymentsWindowBlocks := 10
        nSuperblockStartBlock := 4200
        nSuperblockStartHash := 0
        nSuperblockCycle := 24
        nGovernanceMinQuorum := 1
        nGovernanceFilterElements := 500
        nMasternodeMinimumConfirmations := 1
        nMasternodeCollateral := 500000 * COIN
        BIP34Height := 1
        BIP65Height := 1
        BIP66Height := 1
        DIP0001Height := 2
        DIP0003Height := 2
        DIP0003EnforcementHeight := 2
        DIP0003EnforcementHash := 0
        powLimit := 0x7fffffffffffffffffffffffffffffffffffffffffffffffffffffffffffffff
        posLimit := 0x007ffff000000000000000000000000000000000000000000000000000000000
        nLastPoWBlock := 100
        nPowTargetTimespan := 24 * 60 * 60
        nPowTargetSpacing := 150
        nPosTargetSpacing := 150
        nPosTargetTimespan := 24 * 60 * 60
        nMinimumStakeValue := 10000 * COIN
        nStakeMinAge := 10 * 60
        nStakeMaxAge := 60 * 60 * 24 * 30
        nModifierInterval := 60 * 20
        fPowAllowMinDifficultyBlocks := true
        fPowNoRetargeting := false
        nPowKGWHeight := 4001
        nPowDGWHeight := 4001
        nRuleChangeActivationThreshold := 1512
        nMinerConfirmationWindow := 2016
        vDeployments := CDevNetParams_vDeployments
        nMinimumChainWork := 0
        defaultAssumeValid := 0
        hashGenesisBlock := env.GetHash genesis
        hashDevnetGenesisBlock := env.GetHash devnetGenesis
        llmqs :=
          Consensus.LLMQMap.set
            (Consensus.LLMQMap.set
              (Consensus.LLMQMap.set Consensus.LLMQMap.empty .LLMQ_50_60 llmq50_60)
              .LLMQ_400_60 llmq400_60)
            .LLMQ_400_85 llmq400_85
        llmqChainLocks := .LLMQ_50_60
        llmqForInstaEPM := .LLMQ_50_60 }
    pchMessageStart := [0xe2, 0xca, 0xff, 0xce]
    vAlertPubKey := ParseHex "04517d8a699cb43d3938d7b24faaff7cda448ca4ea267723ba614784de661949bf632d6304316b244646dea079735b9a6fc4af804efb4752075b9fe2245e14e412"
    nDefaultPort := 19999
    nPruneAfterHeight := 1000
    genesis := genesis
    devnetGenesis := devnetGenesis
    vFixedSeeds := FixedSeeds.empty
    vSeeds := []
    base58Prefixes :=
      { PUBKEY_ADDRESS := [140], SCRIPT_ADDRESS := [19], SECRET_KEY := [239],
        EXT_PUBLIC_KEY := [0x04, 0x35, 0x87, 0xCF], EXT_SECRET_KEY := [0x04, 0x35, 0x83, 0x94] }
    nExtCoinType := 1
    fMiningRequiresPeers := true
    fDefaultConsistencyChecks := false
    fRequireStandard := false
    fMineBlocksOnDemand := false
    fAllowMultipleAddressesFromGroup := true
    fAllowMultiplePorts := true
    nPoolMinParticipants := 3
    nPoolMaxParticipants := 5
    nFulfilledRequestExpireTime := 5 * 60
    vSporkAddresses := ["yjPtiKh2uwk3bDutTEA2q9mCtXyiZRWn55"]
    nMinSporkKeys := 1
    fBIP9CheckMasternodesUpgraded := false
    checkpointData := [(0, devGenesisHash), (1, env.GetHash devnetGenesis)]
    chainTxData := { nTime := devnetGenesis.nTime, nTxCount := 2 } }

/-- Lines 580-735: the dev constructor: the base genesis, its two `assert`s, the
mining of the devnet genesis, and the assignments. The quantity `2.5 * 60` of
line 611 is the integer 150. -/
def CDevNetParams (env : Backend) : Except Failure CChainParams :=
  let genesis := devBaseGenesis env
  if env.GetHash genesis ≠ devGenesisHash then
    Except.error (Failure.assertion AssertSite.genesisHashMatches)
  else if genesis.hashMerkleRoot ≠ devGenesisMerkleRoot then
    Except.error (Failure.assertion AssertSite.genesisMerkleRootMatches)
  else
    match FindDevNetGenesisBlock env genesis (50 * COIN) with
    | Except.error e => Except.error e
    | Except.ok devnetGenesis => Except.ok (CDevNetParams_assign env devnetGenesis)

/-- The deployments assigned at lines 800-817. -/
def CRegTestParams_vDeployments : Consensus.DeploymentPos → Consensus.BIP9Deployment
  | .DEPLOYMENT_TESTDUMMY => { bit := 28, nStartTime := 0, nTimeout := 999999999999 }
  | .DEPLOYMENT_CSV => { bit := 0, nStartTime := 0, nTimeout := 999999999999 }
  | .DEPLOYMENT_DIP0001 => { bit := 1, nStartTime := 0, nTimeout := 999999999999 }
  | .DEPLOYMENT_BIP147 => { bit := 2, nStartTime := 0, nTimeout := 999999999999 }
  | .DEPLOYMENT_DIP0003 => { bit := 3, nStartTime := 0, nTimeout := 999999999999 }
  | .DEPLOYMENT_DIP0008 => { bit := 4, nStartTime := 0, nTimeout := 999999999999 }

/-- Lines 756-886: the regtest constructor; its two `assert`s are commented out
in the source (lines 834-835), so it always returns. -/
def CRegTestParams (env : Backend) : CChainParams :=
  let genesis := CreateGenesisBlock env 1417713337 1096447 0x207fffff 1 (50 * COIN) false
  { strNetworkID := "regtest"
    consensus :=
      { nSubsidyHalvingInterval := 150
        nMasternodePaymentsStartBlock := 240
        nMasternodePaymentsIncreaseBlock := 350
        nMasternodePaymentsIncreasePeriod := 10
        nInstantSendConfirmationsRequired := 2
        nInstantSendKeepLock := 6
        nInstantSendSigsRequired := 3
        nInstantSendSigsTotal := 5
        nBudgetPaymentsStartBlock := 1000
        nBudgetPaymentsCycleBlocks := 50
        nBudgetPaymentsWindowBlocks := 10
        nSuperblockStartBlock := 1500
        nSuperblockStartHash := 0
        nSuperblockCycle := 10
        nGovernanceMinQuorum := 1
        nGovernanceFilterElements := 100
        nMasternodeMinimumConfirmations := 1
        nMasternodeCollateral := 500000 * COIN
        BIP34Height := 100000000
        BIP34Hash := 0
        BIP65Height := 1351
        BIP66Height := 1251
        DIP0001Height := 2000
        DIP0003Height := 432
        DIP0003EnforcementHeight := 500
        DIP0003EnforcementHash := 0
        powLimit := 0x7fffffffffffffffffffffffffffffffffffffffffffffffffffffffffffffff
        posLimit := 0x007ffff000000000000000000000000000000000000000000000000000000000
        nLastPoWBlock := 100
        nPowTargetTimespan := 24 * 60 * 60
        nPowTargetSpacing := 150
        nPosTargetSpacing := 150
        nPosTargetTimespan := 24 * 60 * 60
        nStakeMinAge := 10 * 60
        nStakeMaxAge := 60 * 60 * 24 * 30
        nModifierInterval := 60 * 20
        fPowAllowMinDifficultyBlocks := true
        fPowNoRetargeting := true
        nPowKGWHeight := 15200
        nPowDGWHeight := 34140
        nRuleChangeActivationThreshold := 108
        nMinerConfirmationWindow := 144
        vDeployments := CRegTestParams_vDeployments
        nMinimumChainWork := 0
        defaultAssumeValid := 0
        hashGenesisBlock := env.GetHash genesis
        llmqs :=
          Consensus.LLMQMap.set
            (Consensus.LLMQMap.set Consensus.LLMQMap.empty .LLMQ_5_60 llmq5_60)
            .LLMQ_50_60 llmq50_60
        llmqChainLocks := .LLMQ_5_60
        llmqForInstaEPM := .LLMQ_5_60 }
    pchMessageStart := [0xfc, 0xc1, 0xb7, 0xdc]
    nDefaultPort := 19994
    nPruneAfterHeight := 1000
    genesis := genesis
    vFixedSeeds := FixedSeeds.empty
    vSeeds := []
    fMiningRequiresPeers := false
    fDefaultConsistencyChecks := true
    fRequireStandard := false
    fRequireRoutableExternalIP := false
    fMineBlocksOnDemand := true
    fAllowMultipleAddressesFromGroup := true
    fAllowMultiplePorts := true
    nFulfilledRequestExpireTime := 5 * 60
    vSporkAddresses := ["yj949n1UH6fDhw6HtVE5VMj2iSTaSWBMcW"]
    nMinSporkKeys := 1
    fBIP9CheckMasternodesUpgraded := false
    checkpointData := [(0, devGenesisHash)]
    chainTxData := { nTime := 0, nTxCount := 0 }
    base58Prefixes :=
      { PUBKEY_ADDRESS := [140], SCRIPT_ADDRESS := [19], SECRET_KEY := [239],
        EXT_PUBLIC_KEY := [0x04, 0x35, 0x87, 0xCF], EXT_SECRET_KEY := [0x04, 0x35, 0x83, 0x94] }
    nExtCoinType := 1 }

/-! ## The registry (lines 915-975) -/

/-- Modelled from the spec: the network identifiers `CBaseChainParams::MAIN`,
`TESTNET`, `DEVNET` and `REGTEST` of `chainparamsbase.h`, which is not part of
the sources at hand; the spec gives the closed set main / test / dev / regtest. -/
def CBaseChainParams.MAIN : String := "main"

/-- Modelled from the spec: see `CBaseChainParams.MAIN`. -/
def CBaseChainParams.TESTNET : String := "test"

/-- Modelled from the spec: see `CBaseChainParams.MAIN`. -/
def CBaseChainParams.DEVNET : String := "dev"

/-- Modelled from the spec: see `CBaseChainParams.MAIN`. -/
def CBaseChainParams.REGTEST : String := "regtest"

/-- The four objects a `CChainParams*` of this file can point at: the statics
`mainParams`, `testNetParams`, `regTestParams`, and the object `devNetParams`
points at. -/
inductive ChainRef
  | mainParams
  | testNetParams
  | devNetParams
  | regTestParams
  deriving DecidableEq, Repr

/-- The file-level state: the three static profiles, the pointer `devNetParams`
(line 748, null until a dev profile is built) and the pointer `pCurrentParams`
(line 915, null until a selection succeeds). -/
structure Registry where
  mainParams : CChainParams
  testNetParams : CChainParams
  devNetParams : Option CChainParams := none
  regTestParams : CChainParams
  pCurrentParams : Option ChainRef := none

/-- The profile a reference points at. -/
def Registry.deref (s : Registry) : ChainRef → Option CChainParams
  | ChainRef.mainParams => some s.mainParams
  | ChainRef.testNetParams => some s.testNetParams
  | ChainRef.devNetParams => s.devNetParams
  | ChainRef.regTestParams => some s.regTestParams

/-- The state the static initialisers leave (lines 395, 573, 748, 913, 915),
when the constructors of main and test return. -/
def StaticInit (env : Backend) : Except Failure Registry :=
  match CMainParams env with
  | Except.error e => Except.error e
  | Except.ok m =>
    match CTestNetParams env with
    | Except.error e => Except.error e
    | Except.ok t =>
      Except.ok
        { mainParams := m, testNetParams := t, devNetParams := none,
          regTestParams := CRegTestParams env, pCurrentParams := none }

/-- Lines 917-920: `Params()`, the reference to the active profile. -/
def Params (s : Registry) : Except Failure ChainRef :=
  match s.pCurrentParams with
  | none => Except.error (Failure.assertion AssertSite.currentParamsSet)
  | some r => Except.ok r

/-- Lines 922-936: `Params(chain)`, the reference to the profile of a network. -/
def Params_chain (s : Registry) (chain : String) : Except Failure ChainRef :=
  if chain = CBaseChainParams.MAIN then Except.ok ChainRef.mainParams
  else if chain = CBaseChainParams.TESTNET then Except.ok ChainRef.testNetParams
  else if chain = CBaseChainParams.DEVNET then
    match s.devNetParams with
    | none => Except.error (Failure.assertion AssertSite.devNetParamsSet)
    | some _ => Except.ok ChainRef.devNetParams
  else if chain = CBaseChainParams.REGTEST then Except.ok ChainRef.regTestParams
  else Except.error (Failure.runtime_error ("Params: Unknown chain " ++ chain ++ "."))

/-- Modelled from the spec: `SelectBaseParams` of `chainparamsbase.h`, which is
not part of the sources at hand. It selects the base parameters, a state this
file does not read, and by the spec "unknown identifiers fail with a descriptive
error at selection time". -/
def SelectBaseParams (network : String) : Except Failure Unit :=
  if network = CBaseChainParams.MAIN ∨ network = CBaseChainParams.TESTNET ∨
      network = CBaseChainParams.DEVNET ∨ network = CBaseChainParams.REGTEST then
    Except.ok ()
  else Except.error (Failure.runtime_error ("BaseParams: Unknown chain " ++ network ++ "."))

/-- Lines 938-948: `SelectParams`. The result pairs the way the call ends with
the state it leaves; after a failed `assert` the process is gone and the state
is the one before the call. -/
def SelectParams (env : Backend) (network : String) (s : Registry) :
    Except Failure Unit × Registry :=
  let built : Except Failure Registry :=
    if network = CBaseChainParams.DEVNET then
      match CDevNetParams env with
      | Except.error e => Except.error e
      | Except.ok d => Except.ok { s with devNetParams := some d }
    else Except.ok s
  match built with
  | Except.error e => (Except.error e, s)
  | Except.ok s1 =>
    match SelectBaseParams network with
    | Except.error e => (Except.error e, s1)
    | Except.ok _ =>
      match Params_chain s1 network with
      | Except.error e => (Except.error e, s1)
      | Except.ok r => (Except.ok (), { s1 with pCurrentParams := some r })

/-- Lines 888-898: `CRegTestParams::UpdateBIP9Parameters`. -/
def CRegTestParams_UpdateBIP9Parameters (p : CChainParams) (d : Consensus.DeploymentPos)
    (nStartTime nTimeout nWindowSize nThreshold : Int) : CChainParams :=
  let dep := p.consensus.vDeployments d
  let dep := { dep with nStartTime := nStartTime, nTimeout := nTimeout }
  let dep := if nWindowSize ≠ -1 then { dep with nWindowSize := nWindowSize } else dep
  let dep := if nThreshold ≠ -1 then { dep with nThreshold := nThreshold } else dep
  { p with consensus := { p.consensus with
      vDeployments := Function.update p.consensus.vDeployments d dep } }

/-- Lines 900-904: `CRegTestParams::UpdateDIP3Parameters`. -/
def CRegTestParams_UpdateDIP3Parameters (p : CChainParams)
    (nActivationHeight nEnforcementHeight : Int) : CChainParams :=
  { p with consensus := { p.consensus with
      DIP0003Height := nActivationHeight, DIP0003EnforcementHeight := nEnforcementHeight } }

/-- Lines 906-911: `CRegTestParams::UpdateBudgetParameters`. -/
def CRegTestParams_UpdateBudgetParameters (p : CChainParams)
    (nMasternodePaymentsStartBlock nBudgetPaymentsStartBlock nSuperblockStartBlock : Int) :
    CChainParams :=
  { p with consensus := { p.consensus with
      nMasternodePaymentsStartBlock := nMasternodePaymentsStartBlock,
      nBudgetPaymentsStartBlock := nBudgetPaymentsStartBlock,
      nSuperblockStartBlock := nSuperblockStartBlock } }

/-- Lines 737-742: `CDevNetParams::UpdateSubsidyAndDiffParams`. -/
def CDevNetParams_UpdateSubsidyAndDiffParams (p : CChainParams)
    (nMinimumDifficultyBlocks nHighSubsidyBlocks nHighSubsidyFactor : Int) : CChainParams :=
  { p with consensus := { p.consensus with
      nMinimumDifficultyBlocks := nMinimumDifficultyBlocks,
      nHighSubsidyBlocks := nHighSubsidyBlocks,
      nHighSubsidyFactor := nHighSubsidyFactor } }

/-- Lines 744-746: `CDevNetParams::UpdateLLMQChainLocks`. -/
def CDevNetParams_UpdateLLMQChainLocks (p : CChainParams) (llmqType : Consensus.LLMQType) :
    CChainParams :=
  { p with consensus := { p.consensus with llmqChainLocks := llmqType } }

/-- Lines 950-953. -/
def UpdateRegtestBIP9Parameters (d : Consensus.DeploymentPos)
    (nStartTime nTimeout nWindowSize nThreshold : Int) (s : Registry) :
    Except Failure Unit × Registry :=
  let p := CRegTestParams_UpdateBIP9Parameters s.regTestParams d nStartTime nTimeout
    nWindowSize nThreshold
  (Except.ok (), { s with regTestParams := p })

/-- Lines 955-958. -/
def UpdateRegtestDIP3Parameters (nActivationHeight nEnforcementHeight : Int) (s : Registry) :
    Except Failure Unit × Registry :=
  let p := CRegTestParams_UpdateDIP3Parameters s.regTestParams nActivationHeight
    nEnforcementHeight
  (Except.ok (), { s with regTestParams := p })

/-- Lines 960-963. -/
def UpdateRegtestBudgetParameters
    (nMasternodePaymentsStartBlock nBudgetPaymentsStartBlock nSuperblockStartBlock : Int)
    (s : Registry) : Except Failure Unit × Registry :=
  let p := CRegTestParams_UpdateBudgetParameters s.regTestParams
    nMasternodePaymentsStartBlock nBudgetPaymentsStartBlock nSuperblockStartBlock
  (Except.ok (), { s with regTestParams := p })

/-- Lines 965-969. -/
def UpdateDevnetSubsidyAndDiffParams
    (nMinimumDifficultyBlocks nHighSubsidyBlocks nHighSubsidyFactor : Int) (s : Registry) :
    Except Failure Unit × Registry :=
  match s.devNetParams with
  | none => (Except.error (Failure.assertion AssertSite.devNetParamsSet), s)
  | some d =>
    let p := CDevNetParams_UpdateSubsidyAndDiffParams d nMinimumDifficultyBlocks
      nHighSubsidyBlocks nHighSubsidyFactor
    (Except.ok (), { s with devNetParams := some p })

/-- Lines 971-975. -/
def UpdateDevnetLLMQChainLocks (llmqType : Consensus.LLMQType) (s : Registry) :
    Except Failure Unit × Registry :=
  match s.devNetParams with
  | none => (Except.error (Failure.assertion AssertSite.devNetParamsSet), s)
  | some d =>
    let p := CDevNetParams_UpdateLLMQChainLocks d llmqType
    (Except.ok (), { s with devNetParams := some p })

/-! ## Histories of calls -/

/-- One call of a state-changing entry point of the file. -/
inductive Call
  | SelectParams (network : String)
  | UpdateRegtestBIP9Parameters (d : Consensus.DeploymentPos)
      (nStartTime nTimeout nWindowSize nThreshold : Int)
  | UpdateRegtestDIP3Parameters (nActivationHeight nEnforcementHeight : Int)
  | UpdateRegtestBudgetParameters
      (nMasternodePaymentsStartBlock nBudgetPaymentsStartBlock nSuperblockStartBlock : Int)
  | UpdateDevnetSubsidyAndDiffParams
      (nMinimumDifficultyBlocks nHighSubsidyBlocks nHighSubsidyFactor : Int)
  | UpdateDevnetLLMQChainLocks (llmqType : Consensus.LLMQType)

/-- The effect of one call. -/
def Call.run (env : Backend) : Call → Registry → Except Failure Unit × Registry
  | Call.SelectParams network, s => NewEPM.SelectParams env network s
  | Call.UpdateRegtestBIP9Parameters d a b c e, s =>
    NewEPM.UpdateRegtestBIP9Parameters d a b c e s
  | Call.UpdateRegtestDIP3Parameters a b, s => NewEPM.UpdateRegtestDIP3Parameters a b s
  | Call.UpdateRegtestBudgetParameters a b c, s =>
    NewEPM.UpdateRegtestBudgetParameters a b c s
  | Call.UpdateDevnetSubsidyAndDiffParams a b c, s =>
    NewEPM.UpdateDevnetSubsidyAndDiffParams a b c s
  | Call.UpdateDevnetLLMQChainLocks t, s => NewEPM.UpdateDevnetLLMQChainLocks t s

/-- Whether a call is a `SelectParams` call that returned. -/
def Call.selected : Call → Except Failure Unit → Bool
  | Call.SelectParams _, Except.ok _ => true
  | _, _ => false

/-- A history: the calls run in order from a state. A thrown exception leaves
the process running and the next call runs; a failed `assert` (or a loop that
never ends) ends the history. The result is the last state and, for every call
that ran, whether it was a `SelectParams` that returned. -/
def runCalls (env : Backend) : Registry → List Call → Registry × List Bool
  | s, [] => (s, [])
  | s, c :: cs =>
    match c.run env s with
    | (Except.ok u, s1) =>
      ((runCalls env s1 cs).1, c.selected (Except.ok u) :: (runCalls env s1 cs).2)
    | (Except.error (Failure.runtime_error _), s1) =>
      ((runCalls env s1 cs).1, false :: (runCalls env s1 cs).2)
    | (Except.error _, s1) => (s1, [false])

/-! ## Properties stated of descriptors and profiles -/

/-- The size and timing relations of one quorum descriptor. -/
def LLMQParamsConsistent (q : Consensus.LLMQParams) : Prop :=
  q.minSize ≤ q.size ∧ q.threshold ≤ q.minSize ∧
    q.dkgPhaseBlocks * 5 ≤ q.dkgMiningWindowStart ∧
    q.dkgMiningWindowStart < q.dkgMiningWindowEnd ∧ q.dkgMiningWindowEnd ≤ q.dkgInterval

/-- Both quorum selections of a profile are keys of its own quorum map. -/
def QuorumSelectionsResolve (p : CChainParams) : Prop :=
  p.consensus.llmqs.contains p.consensus.llmqChainLocks = true ∧
    p.consensus.llmqs.contains p.consensus.llmqForInstaEPM = true

/-- The closed set of network identifiers. -/
def networkIDs : List String :=
  [CBaseChainParams.MAIN, CBaseChainParams.TESTNET, CBaseChainParams.DEVNET,
   CBaseChainParams.REGTEST]

/-- Every profile of the state carries the identifier of its network. -/
def NetworkIDsIntact (s : Registry) : Prop :=
  s.mainParams.strNetworkID = CBaseChainParams.MAIN ∧
    s.testNetParams.strNetworkID = CBaseChainParams.TESTNET ∧
    s.regTestParams.strNetworkID = CBaseChainParams.REGTEST ∧
    ∀ d, s.devNetParams = some d → d.strNetworkID = CBaseChainParams.DEVNET

/-- Every deployment of a profile has its threshold within its window. -/
def DeploymentThresholdsWithinWindow (p : CChainParams) : Prop :=
  ∀ d, (p.consensus.vDeployments d).nThreshold ≤ (p.consensus.vDeployments d).nWindowSize

/-- The signaling intervals `[nStartTime, nTimeout)` of two deployments overlap. -/
def DeploymentsOverlap (a b : Consensus.BIP9Deployment) : Prop :=
  a.nStartTime < b.nTimeout ∧ b.nStartTime < a.nTimeout

/-- Every signaling bit of a profile is in the range 0..28 and no two distinct
deployments share a bit. -/
def DeploymentBitsDistinct (p : CChainParams) : Prop :=
  (∀ d, 0 ≤ (p.consensus.vDeployments d).bit ∧ (p.consensus.vDeployments d).bit ≤ 28) ∧
    ∀ d1 d2, d1 ≠ d2 → (p.consensus.vDeployments d1).bit ≠ (p.consensus.vDeployments d2).bit

/-- The checkpoint heights of a profile, in the order of the list, are strictly
increasing. -/
def CheckpointHeightsIncreasing (p : CChainParams) : Prop :=
  List.Pairwise (fun a b => a < b) (p.checkpointData.map Prod.fst)

/-- The checkpoint at height 0 of a profile is its `consensus.hashGenesisBlock`. -/
def CheckpointZeroIsGenesis (p : CChainParams) : Prop :=
  p.checkpointData.lookup 0 = some p.consensus.hashGenesisBlock

/-- The arguments of one `UpdateRegtestBIP9Parameters` call. -/
structure BIP9Update where
  d : Consensus.DeploymentPos
  nStartTime : Int
  nTimeout : Int
  nWindowSize : Int
  nThreshold : Int

/-- A sequence of `UpdateRegtestBIP9Parameters` calls, run in order. -/
def applyBIP9Updates (s : Registry) : List BIP9Update → Registry
  | [] => s
  | u :: us =>
    applyBIP9Updates
      (UpdateRegtestBIP9Parameters u.d u.nStartTime u.nTimeout u.nWindowSize u.nThreshold s).2 us

/-- A call that cannot break `nThreshold <= nWindowSize`: it passes -1 for both
the window and the threshold, or passes both with the threshold within the
window. -/
def BIP9Update.keepsThreshold (u : BIP9Update) : Prop :=
  (u.nWindowSize = -1 ∧ u.nThreshold = -1) ∨
    (u.nWindowSize ≠ -1 ∧ u.nThreshold ≠ -1 ∧ u.nThreshold ≤ u.nWindowSize)

/-- Every entry of the quorum map of a profile is stored under its own type. -/
def QuorumsUnderOwnType (p : CChainParams) : Prop :=
  ∀ k q, p.consensus.llmqs k = some q → q.type = k

/-- Every descriptor `llmq5_60` or `llmq50_60` a profile registers runs one DKG
per hour at the block spacing of the profile. -/
def HourlyQuorumsRunHourly (p : CChainParams) : Prop :=
  ∀ k q, p.consensus.llmqs k = some q → (q = llmq5_60 ∨ q = llmq50_60) →
    q.dkgInterval * p.consensus.nPowTargetSpacing = 3600

/-- The rule-change activation threshold of a profile is 75% of its miner
confirmation window. -/
def RuleChangeThresholdThreeQuarters (p : CChainParams) : Prop :=
  p.consensus.nRuleChangeActivationThreshold * 4 = p.consensus.nMinerConfirmationWindow * 3

/-- The target decoded from the compact bits of the genesis block of a profile
is at most the powLimit of the profile. -/
def GenesisTargetWithinPowLimit (p : CChainParams) : Prop :=
  SetCompact p.genesis.nBits ≤ p.consensus.powLimit

/-! ## Sample backends, for evaluating the definitions on concrete inputs -/

/-- A backend whose block hash and Merkle root are constant. -/
def constBackend (hash root : uint256) (devNetName : String) : Backend :=
  { GetHash := fun _ => hash, ComputeMerkleRoot := fun _ => root, GetDevNetName := devNetName }

/-- A backend under which the two `assert`s of the dev constructor hold (a block
without a predecessor hashes to the recorded dev genesis hash, every Merkle root
is the recorded dev root) and a block with a predecessor hashes to 0 at nonce
`0xFFFFFFFF` and to the largest 256-bit number at every other nonce. -/
def lastNonceDevBackend : Backend :=
  { GetHash := fun block =>
      if block.hashPrevBlock = 0 then devGenesisHash
      else if block.nNonce = 4294967295 then 0 else 2 ^ 256 - 1
    ComputeMerkleRoot := fun _ => devGenesisMerkleRoot
    GetDevNetName := "devnet" }

/-- A previous block with the difficulty bits of the dev base genesis. -/
def samplePrevBlock : CBlock := { nVersion := 1, nTime := 1417713337, nBits := 0x207fffff }

/-- A backend whose block hash misses every target at nonces 0 and 1 and is 0
from nonce 2 on. -/
def thirdNonceBackend : Backend :=
  { GetHash := fun block => if block.nNonce < 2 then 2 ^ 256 - 1 else 0
    ComputeMerkleRoot := fun _ => 0
    GetDevNetName := "devnet" }

/-- The devnet candidate over `samplePrevBlock` for the name "devnet" and the
reward of 50 coins, with previous hash `prevHash`, at nonce `nNonce`. -/
def sampleDevnetBlock (prevHash : uint256) (nNonce : Nat) : CBlock :=
  { nVersion := 4
    hashPrevBlock := prevHash
    hashMerkleRoot := 0
    nTime := 1417713338
    nBits := 0x207fffff
    nNonce := nNonce
    vtx :=
      [{ nVersion := 1
         vin := [{ scriptSig := [ScriptElem.pushInt 1,
                                 ScriptElem.pushData [100, 101, 118, 110, 101, 116]] }]
         vout := [{ nValue := 5000000000,
                    scriptPubKey := [ScriptElem.pushOp opcodetype.OP_RETURN] }] }] }

/-- A backend under which the two `assert`s of the main constructor hold. -/
def sampleMainBackend : Backend := constBackend mainGenesisHash mainGenesisMerkleRoot "devnet"

/-- A backend under which the two `assert`s of the dev constructor hold. -/
def sampleDevBackend : Backend := constBackend devGenesisHash devGenesisMerkleRoot "devnet"

/-- The devnet genesis mined under `sampleDevBackend`. -/
def sampleDevnetGenesis : CBlock :=
  { sampleDevnetBlock devGenesisHash 0 with hashMerkleRoot := devGenesisMerkleRoot }

/-- The state the static initialisers leave under `sampleMainBackend`. -/
def sampleRegistry : Registry :=
  { mainParams := CMainParams_assign sampleMainBackend
    testNetParams := CTestNetParams_assign sampleMainBackend 0
    devNetParams := none
    regTestParams := CRegTestParams sampleMainBackend
    pCurrentParams := none }

/-- A backend whose block hash is the largest 256-bit number on a block without
transactions (the null block) and, on every other block, a number between the
compact target of `0x1f00ffff` and the powLimit of the test network. -/
def gapBackend : Backend :=
  { GetHash := fun block =>
      if block.vtx = [] then 2 ^ 256 - 1
      else 0x0000ffff80000000000000000000000000000000000000000000000000000000
    ComputeMerkleRoot := fun _ => 0
    GetDevNetName := "devnet" }

/-- The state after `SelectParams("dev")` from `sampleRegistry` under
`sampleDevBackend`. -/
def sampleDevRegistry : Registry :=
  { sampleRegistry with
    devNetParams := some (CDevNetParams_assign sampleDevBackend sampleDevnetGenesis)
    pCurrentParams := some ChainRef.devNetParams }

/-- A backend whose block hash is 0 on a block without transactions (the null
block) and the largest 256-bit number on every other block. -/
def nullPassBackend : Backend :=
  { GetHash := fun block => if block.vtx = [] then 0 else 2 ^ 256 - 1
    ComputeMerkleRoot := fun _ => 0
    GetDevNetName := "devnet" }

/-! ## The devnet genesis miner: the nonce loop -/

/-- One unfolding of the nonce loop. -/
theorem FindDevNetGenesisBlock_loop_unfold (env : Backend) (bnTarget : uint256) (block : CBlock)
    (nNonce : Nat) :
    FindDevNetGenesisBlock_loop env bnTarget block nNonce =
      if nNonce < UINT32_MAX then
        if env.GetHash { block with nNonce := nNonce } ≤ bnTarget then
          some { block with nNonce := nNonce }
        else FindDevNetGenesisBlock_loop env bnTarget { block with nNonce := nNonce } (nNonce + 1)
      else none := by
  rw [FindDevNetGenesisBlock_loop]

/-- What the nonce loop computes, from any starting nonce: a returned block is
the candidate at the first nonce from the start, below `UINT32_MAX`, whose hash
meets the target; and the loop gives up only when no nonce from the start and
below `UINT32_MAX` meets it. -/
theorem FindDevNetGenesisBlock_loop_spec (env : Backend) (bnTarget : uint256) :
    ∀ (k : Nat) (block : CBlock) (nNonce : Nat), UINT32_MAX - nNonce = k →
      match FindDevNetGenesisBlock_loop env bnTarget block nNonce with
      | some found =>
        ∃ m, nNonce ≤ m ∧ m < UINT32_MAX ∧ found = { block with nNonce := m } ∧
          env.GetHash found ≤ bnTarget ∧
          ∀ j, nNonce ≤ j → j < m → bnTarget < env.GetHash { block with nNonce := j }
      | none =>
        ∀ j, nNonce ≤ j → j < UINT32_MAX → bnTarget < env.GetHash { block with nNonce := j } := by
  intro k
  induction k with
  | zero =>
    intro block nNonce hk
    have hge : ¬ nNonce < UINT32_MAX := by omega
    rw [FindDevNetGenesisBlock_loop_unfold, if_neg hge]
    intro j h1 h2
    omega
  | succ k ih =>
    intro block nNonce hk
    have hlt : nNonce < UINT32_MAX := by omega
    rw [FindDevNetGenesisBlock_loop_unfold, if_pos hlt]
    by_cases hh : env.GetHash { block with nNonce := nNonce } ≤ bnTarget
    · rw [if_pos hh]
      exact ⟨nNonce, le_refl _, hlt, rfl, hh, fun j h1 h2 => by omega⟩
    · rw [if_neg hh]
      have hrec := ih { block with nNonce := nNonce } (nNonce + 1) (by omega)
      have hfail : bnTarget < env.GetHash { block with nNonce := nNonce } := Nat.lt_of_not_le hh
      cases hres : FindDevNetGenesisBlock_loop env bnTarget { block with nNonce := nNonce }
          (nNonce + 1) with
      | none =>
        rw [hres] at hrec
        intro j h1 h2
        rcases Nat.eq_or_lt_of_le h1 with heq | hgt
        · subst heq
          exact hfail
        · exact hrec j hgt h2
      | some found =>
        rw [hres] at hrec
        obtain ⟨m, hm1, hm2, hm3, hm4, hm5⟩ := hrec
        refine ⟨m, by omega, hm2, hm3, hm4, ?_⟩
        intro j h1 h2
        rcases Nat.eq_or_lt_of_le h1 with heq | hgt
        · subst heq
          exact hfail
        · exact hm5 j hgt h2

/-- The miner is the devnet builder followed by the nonce loop from nonce 0: the
emptiness test of line 98 fails exactly when that of line 51 does. -/
theorem FindDevNetGenesisBlock_eq (env : Backend) (prevBlock : CBlock) (reward : CAmount) :
    FindDevNetGenesisBlock env prevBlock reward =
      match CreateDevNetGenesisBlock env (env.GetHash prevBlock) (c_str env.GetDevNetName)
          ((prevBlock.nTime + 1) % 2 ^ 32) 0 prevBlock.nBits reward with
      | Except.error e => Except.error e
      | Except.ok block =>
        match FindDevNetGenesisBlock_loop env (SetCompact block.nBits) block 0 with
        | some found => Except.ok found
        | none => Except.error (Failure.assertion AssertSite.devnetGenesisNotFound) := by
  unfold FindDevNetGenesisBlock
  by_cases hname : env.GetDevNetName.data = []
  · have hc : (c_str env.GetDevNetName).data = [] := by simp [c_str, hname]
    simp [hname, CreateDevNetGenesisBlock, hc]
  · simp [hname]

/-- A name without a NUL character passes through `c_str` unchanged. -/
theorem c_str_of_no_nul (name : String) (h : ∀ ch ∈ name.data, ch.toNat ≠ 0) :
    c_str name = name := by
  have hall : name.data.takeWhile (fun c => c.toNat != 0) = name.data := by
    rw [List.takeWhile_eq_self_iff]
    intro ch hch
    simpa using h ch hch
  unfold c_str
  rw [hall]

/-- The builder keeps the difficulty bits it is given. -/
theorem CreateDevNetGenesisBlock_nBits (env : Backend) (prevBlockHash : uint256)
    (devNetName : String) (nTime nNonce nBits : Nat) (reward : CAmount) (block : CBlock)
    (h : CreateDevNetGenesisBlock env prevBlockHash devNetName nTime nNonce nBits reward =
      Except.ok block) : block.nBits = nBits := by
  unfold CreateDevNetGenesisBlock at h
  split at h
  · cases h
  · cases h
    rfl

/-- When the miner returns, the builder had returned a candidate and the nonce
loop from 0 found the returned block. -/
theorem FindDevNetGenesisBlock_ok (env : Backend) (prevBlock : CBlock) (reward : CAmount)
    (found : CBlock) (h : FindDevNetGenesisBlock env prevBlock reward = Except.ok found) :
    ∃ candidate,
      CreateDevNetGenesisBlock env (env.GetHash prevBlock) (c_str env.GetDevNetName)
        ((prevBlock.nTime + 1) % 2 ^ 32) 0 prevBlock.nBits reward = Except.ok candidate ∧
      FindDevNetGenesisBlock_loop env (SetCompact candidate.nBits) candidate 0 = some found := by
  rw [FindDevNetGenesisBlock_eq] at h
  cases hc : CreateDevNetGenesisBlock env (env.GetHash prevBlock) (c_str env.GetDevNetName)
      ((prevBlock.nTime + 1) % 2 ^ 32) 0 prevBlock.nBits reward with
  | error e => rw [hc] at h; cases h
  | ok candidate =>
    rw [hc] at h
    simp only at h
    refine ⟨candidate, rfl, ?_⟩
    cases hl : FindDevNetGenesisBlock_loop env (SetCompact candidate.nBits) candidate 0 with
    | none => rw [hl] at h; cases h
    | some b =>
      rw [hl] at h
      cases h
      rfl

/-- When the candidate at nonce 0 already meets the target, the miner returns it. -/
theorem FindDevNetGenesisBlock_first_nonce (env : Backend) (prevBlock : CBlock)
    (reward : CAmount) (candidate : CBlock)
    (hc : CreateDevNetGenesisBlock env (env.GetHash prevBlock) (c_str env.GetDevNetName)
      ((prevBlock.nTime + 1) % 2 ^ 32) 0 prevBlock.nBits reward = Except.ok candidate)
    (hh : env.GetHash { candidate with nNonce := 0 } ≤ SetCompact candidate.nBits) :
    FindDevNetGenesisBlock env prevBlock reward = Except.ok { candidate with nNonce := 0 } := by
  rw [FindDevNetGenesisBlock_eq, hc]
  simp only
  rw [FindDevNetGenesisBlock_loop_unfold, if_pos (by decide), if_pos hh]

/-! ## Claims on the devnet genesis miner -/

/-- The compact target of the dev difficulty bits. -/
theorem SetCompact_dev :
    SetCompact 0x207fffff =
      0x7fffff0000000000000000000000000000000000000000000000000000000000 := by
  decide

/-- C2: whenever `FindDevNetGenesisBlock` returns a block, the hash of that block
is at most the target `SetCompact` decodes from the block's difficulty bits, and
the block is the initial candidate
`CreateDevNetGenesisBlock(hash(prev), name, prev.nTime + 1, 0, prev.nBits, reward)`
with only the nonce replaced; `name` is the devnet name as line 100 passes it
(through `c_str()`), which is the devnet name itself when it holds no NUL. -/
theorem FindDevNetGenesisBlock_meets_target (env : Backend) (prevBlock : CBlock)
    (reward : CAmount) (found : CBlock)
    (h : FindDevNetGenesisBlock env prevBlock reward = Except.ok found) :
    env.GetHash found ≤ SetCompact found.nBits ∧
    ∃ candidate,
      CreateDevNetGenesisBlock env (env.GetHash prevBlock) (c_str env.GetDevNetName)
        ((prevBlock.nTime + 1) % 2 ^ 32) 0 prevBlock.nBits reward = Except.ok candidate ∧
      ((∀ ch ∈ env.GetDevNetName.data, ch.toNat ≠ 0) →
        CreateDevNetGenesisBlock env (env.GetHash prevBlock) env.GetDevNetName
          ((prevBlock.nTime + 1) % 2 ^ 32) 0 prevBlock.nBits reward = Except.ok candidate) ∧
      found = { candidate with nNonce := found.nNonce } := by
  obtain ⟨candidate, hc, hl⟩ := FindDevNetGenesisBlock_ok env prevBlock reward found h
  have hspec := FindDevNetGenesisBlock_loop_spec env (SetCompact candidate.nBits)
    (UINT32_MAX - 0) candidate 0 rfl
  rw [hl] at hspec
  obtain ⟨m, _, _, hm3, hm4, _⟩ := hspec
  have hbits : found.nBits = candidate.nBits := by rw [hm3]
  have hnonce : found.nNonce = m := by rw [hm3]
  refine ⟨by rw [hbits]; exact hm4, candidate, hc, ?_, by rw [hnonce]; exact hm3⟩
  intro hnul
  rw [c_str_of_no_nul _ hnul] at hc
  exact hc

/-- Witness of C2: with a hash that is 0 everywhere the miner returns the
candidate at nonce 0, and the conclusion of C2 holds of it. -/
theorem FindDevNetGenesisBlock_meets_target_witness :
    FindDevNetGenesisBlock (constBackend 0 0 "devnet") samplePrevBlock (50 * COIN) =
        Except.ok (sampleDevnetBlock 0 0) ∧
      (constBackend 0 0 "devnet").GetHash (sampleDevnetBlock 0 0) ≤
        SetCompact (sampleDevnetBlock 0 0).nBits :=
  have h : FindDevNetGenesisBlock (constBackend 0 0 "devnet") samplePrevBlock (50 * COIN) =
      Except.ok (sampleDevnetBlock 0 0) :=
    FindDevNetGenesisBlock_first_nonce (constBackend 0 0 "devnet") samplePrevBlock (50 * COIN)
      (sampleDevnetBlock 0 0) (by rfl) (by decide)
  ⟨h, (FindDevNetGenesisBlock_meets_target (constBackend 0 0 "devnet") samplePrevBlock
    (50 * COIN) (sampleDevnetBlock 0 0) h).1⟩

/-- The builder of the networks keeps the difficulty bits it is given. -/
theorem CreateGenesisBlock_nBits (env : Backend) (nTime nNonce nBits : Nat) (nVersion : Int)
    (reward : CAmount) (fTestnet : Bool) :
    (CreateGenesisBlock env nTime nNonce nBits nVersion reward fTestnet).nBits = nBits := rfl

/-- C3: for every hash function, the hash of the devnet genesis block mined over
the dev base genesis (difficulty bits `0x207fffff`) is at most the powLimit of
the dev profile: the block carries the bits `0x207fffff`, the miner compares
with the compact target of these bits, and that target is at most powLimit. -/
theorem FindDevNetGenesisBlock_dev_within_powLimit (env : Backend) (found : CBlock)
    (h : FindDevNetGenesisBlock env (devBaseGenesis env) (50 * COIN) = Except.ok found) :
    env.GetHash found ≤ (CDevNetParams_assign env found).consensus.powLimit ∧
    found.nBits = 0x207fffff ∧
    SetCompact 0x207fffff ≤ (CDevNetParams_assign env found).consensus.powLimit := by
  obtain ⟨candidate, hc, hl⟩ := FindDevNetGenesisBlock_ok env (devBaseGenesis env) _ found h
  have hspec := FindDevNetGenesisBlock_loop_spec env (SetCompact candidate.nBits)
    (UINT32_MAX - 0) candidate 0 rfl
  rw [hl] at hspec
  obtain ⟨m, _, _, hm3, hm4, _⟩ := hspec
  have hcb : candidate.nBits = 0x207fffff := by
    rw [CreateDevNetGenesisBlock_nBits env _ _ _ _ _ _ candidate hc]
    rfl
  have hbits : found.nBits = 0x207fffff := by rw [hm3]; exact hcb
  have hpow : (CDevNetParams_assign env found).consensus.powLimit =
      0x7fffffffffffffffffffffffffffffffffffffffffffffffffffffffffffffff := rfl
  have htarget : SetCompact 0x207fffff ≤
      0x7fffffffffffffffffffffffffffffffffffffffffffffffffffffffffffffff := by decide
  rw [hcb] at hm4
  rw [hpow]
  exact ⟨le_trans hm4 htarget, hbits, htarget⟩

/-- Witness of C3: with the constant hash `devGenesisHash` the miner returns at
nonce 0 over the dev base genesis, and the returned hash is within powLimit. -/
theorem FindDevNetGenesisBlock_dev_within_powLimit_witness :
    FindDevNetGenesisBlock (constBackend devGenesisHash devGenesisMerkleRoot "devnet")
        (devBaseGenesis (constBackend devGenesisHash devGenesisMerkleRoot "devnet"))
        (50 * COIN) =
      Except.ok { sampleDevnetBlock devGenesisHash 0 with hashMerkleRoot := devGenesisMerkleRoot } ∧
    devGenesisHash ≤ 0x7fffffffffffffffffffffffffffffffffffffffffffffffffffffffffffffff :=
  have h : FindDevNetGenesisBlock (constBackend devGenesisHash devGenesisMerkleRoot "devnet")
      (devBaseGenesis (constBackend devGenesisHash devGenesisMerkleRoot "devnet"))
      (50 * COIN) =
      Except.ok { sampleDevnetBlock devGenesisHash 0 with hashMerkleRoot := devGenesisMerkleRoot } :=
    FindDevNetGenesisBlock_first_nonce _ _ _
      { sampleDevnetBlock devGenesisHash 0 with hashMerkleRoot := devGenesisMerkleRoot }
      (by rfl) (by decide)
  ⟨h, (FindDevNetGenesisBlock_dev_within_powLimit _ _ h).1⟩

/-- The miner ends in `assert(false)` when the candidate misses the target at
every nonce below `UINT32_MAX`. -/
theorem FindDevNetGenesisBlock_aborts_of_no_nonce (env : Backend) (prevBlock : CBlock)
    (reward : CAmount) (candidate : CBlock)
    (hc : CreateDevNetGenesisBlock env (env.GetHash prevBlock) (c_str env.GetDevNetName)
      ((prevBlock.nTime + 1) % 2 ^ 32) 0 prevBlock.nBits reward = Except.ok candidate)
    (hmiss : ∀ j, j < UINT32_MAX →
      SetCompact candidate.nBits < env.GetHash { candidate with nNonce := j }) :
    FindDevNetGenesisBlock env prevBlock reward =
      Except.error (Failure.assertion AssertSite.devnetGenesisNotFound) := by
  have hspec := FindDevNetGenesisBlock_loop_spec env (SetCompact candidate.nBits)
    (UINT32_MAX - 0) candidate 0 rfl
  have hnone : FindDevNetGenesisBlock_loop env (SetCompact candidate.nBits) candidate 0 =
      none := by
    cases hl : FindDevNetGenesisBlock_loop env (SetCompact candidate.nBits) candidate 0 with
    | none => rfl
    | some found =>
      exfalso
      rw [hl] at hspec
      obtain ⟨m, _, hm2, hm3, hm4, _⟩ := hspec
      have hlt := hmiss m hm2
      rw [← hm3] at hlt
      exact absurd hm4 (Nat.not_le.mpr hlt)
  rw [FindDevNetGenesisBlock_eq, hc]
  simp only [hnone]

/-- The miner returns a block when the candidate meets the target at some nonce
below `UINT32_MAX`. -/
theorem FindDevNetGenesisBlock_returns_of_nonce (env : Backend) (prevBlock : CBlock)
    (reward : CAmount) (candidate : CBlock)
    (hc : CreateDevNetGenesisBlock env (env.GetHash prevBlock) (c_str env.GetDevNetName)
      ((prevBlock.nTime + 1) % 2 ^ 32) 0 prevBlock.nBits reward = Except.ok candidate)
    (n : Nat) (hn : n < UINT32_MAX)
    (hhit : env.GetHash { candidate with nNonce := n } ≤ SetCompact candidate.nBits) :
    ∃ found, FindDevNetGenesisBlock env prevBlock reward = Except.ok found := by
  have hspec := FindDevNetGenesisBlock_loop_spec env (SetCompact candidate.nBits)
    (UINT32_MAX - 0) candidate 0 rfl
  rw [FindDevNetGenesisBlock_eq, hc]
  cases hl : FindDevNetGenesisBlock_loop env (SetCompact candidate.nBits) candidate 0 with
  | none =>
    exfalso
    rw [hl] at hspec
    exact absurd hhit (Nat.not_le.mpr (hspec n (Nat.zero_le n) hn))
  | some found =>
    refine ⟨found, ?_⟩
    simp only [hl]

/-- C4, as stated, fails: in the dev constructor run under `lastNonceDevBackend`
both `assert`s of lines 677-678 hold, the miner is called at line 680 with the
base genesis and 50 coins, the candidate at the nonce `0xFFFFFFFF` has a hash
within the target, and still the miner returns no block: it ends in
`assert(false)`, and so does the constructor. The loop condition
`nNonce < UINT32_MAX` of line 105 leaves the loop before that nonce is tried. -/
theorem FindDevNetGenesisBlock_skips_last_nonce :
    lastNonceDevBackend.GetHash (devBaseGenesis lastNonceDevBackend) = devGenesisHash ∧
    (devBaseGenesis lastNonceDevBackend).hashMerkleRoot = devGenesisMerkleRoot ∧
    CreateDevNetGenesisBlock lastNonceDevBackend
        (lastNonceDevBackend.GetHash (devBaseGenesis lastNonceDevBackend))
        (c_str lastNonceDevBackend.GetDevNetName)
        (((devBaseGenesis lastNonceDevBackend).nTime + 1) % 2 ^ 32) 0
        (devBaseGenesis lastNonceDevBackend).nBits (50 * COIN) = Except.ok sampleDevnetGenesis ∧
    (0xFFFFFFFF ≤ 0xFFFFFFFF ∧
      lastNonceDevBackend.GetHash { sampleDevnetGenesis with nNonce := 0xFFFFFFFF } ≤
        SetCompact sampleDevnetGenesis.nBits) ∧
    FindDevNetGenesisBlock lastNonceDevBackend (devBaseGenesis lastNonceDevBackend) (50 * COIN) =
      Except.error (Failure.assertion AssertSite.devnetGenesisNotFound) ∧
    (¬ ∃ found, FindDevNetGenesisBlock lastNonceDevBackend (devBaseGenesis lastNonceDevBackend)
      (50 * COIN) = Except.ok found) ∧
    CDevNetParams lastNonceDevBackend =
      Except.error (Failure.assertion AssertSite.devnetGenesisNotFound) := by
  have hc : CreateDevNetGenesisBlock lastNonceDevBackend
      (lastNonceDevBackend.GetHash (devBaseGenesis lastNonceDevBackend))
      (c_str lastNonceDevBackend.GetDevNetName)
      (((devBaseGenesis lastNonceDevBackend).nTime + 1) % 2 ^ 32) 0
      (devBaseGenesis lastNonceDevBackend).nBits (50 * COIN) = Except.ok sampleDevnetGenesis := by
    rfl
  have habort : FindDevNetGenesisBlock lastNonceDevBackend (devBaseGenesis lastNonceDevBackend)
      (50 * COIN) = Except.error (Failure.assertion AssertSite.devnetGenesisNotFound) := by
    apply FindDevNetGenesisBlock_aborts_of_no_nonce lastNonceDevBackend
      (devBaseGenesis lastNonceDevBackend) (50 * COIN) sampleDevnetGenesis hc
    intro j hj
    have hne : j ≠ 4294967295 := by
      have : UINT32_MAX = 4294967295 := rfl
      omega
    have hprev : ({ sampleDevnetGenesis with nNonce := j } : CBlock).hashPrevBlock ≠ 0 := by
      show devGenesisHash ≠ 0
      decide
    have hhash : lastNonceDevBackend.GetHash { sampleDevnetGenesis with nNonce := j } =
        2 ^ 256 - 1 := by
      show (if ({ sampleDevnetGenesis with nNonce := j } : CBlock).hashPrevBlock = 0 then
        devGenesisHash else if j = 4294967295 then 0 else 2 ^ 256 - 1) = 2 ^ 256 - 1
      rw [if_neg hprev, if_neg hne]
    rw [hhash]
    decide
  refine ⟨rfl, rfl, hc, ⟨Nat.le_refl _, by decide⟩, habort, ?_, ?_⟩
  · rintro ⟨found, hfound⟩
    rw [habort] at hfound
    cases hfound
  · have h1 : lastNonceDevBackend.GetHash (devBaseGenesis lastNonceDevBackend) =
        devGenesisHash := rfl
    have h2 : (devBaseGenesis lastNonceDevBackend).hashMerkleRoot = devGenesisMerkleRoot := rfl
    unfold CDevNetParams
    simp only
    rw [if_neg (not_not.mpr h1), if_neg (not_not.mpr h2), habort]

/-- C4, amended: with the candidate built (the devnet name is not empty), the
miner ends in `assert(false)` exactly when no nonce below `UINT32_MAX`, that is
no nonce `n` with `0 <= n <= 0xFFFFFFFE`, makes the candidate's hash at most the
target: when some such nonce does, the miner returns a block instead of
aborting, and when none does it aborts instead of returning a block. The nonce
`0xFFFFFFFF` is not among the nonces the loop tries. -/
theorem FindDevNetGenesisBlock_aborts_iff (env : Backend) (prevBlock : CBlock)
    (reward : CAmount) (candidate : CBlock)
    (hc : CreateDevNetGenesisBlock env (env.GetHash prevBlock) (c_str env.GetDevNetName)
      ((prevBlock.nTime + 1) % 2 ^ 32) 0 prevBlock.nBits reward = Except.ok candidate) :
    ((∃ n, n < UINT32_MAX ∧
        env.GetHash { candidate with nNonce := n } ≤ SetCompact candidate.nBits) →
      ∃ found, FindDevNetGenesisBlock env prevBlock reward = Except.ok found) ∧
    ((∀ n, n < UINT32_MAX →
        SetCompact candidate.nBits < env.GetHash { candidate with nNonce := n }) →
      FindDevNetGenesisBlock env prevBlock reward =
        Except.error (Failure.assertion AssertSite.devnetGenesisNotFound)) ∧
    (FindDevNetGenesisBlock env prevBlock reward =
        Except.error (Failure.assertion AssertSite.devnetGenesisNotFound) →
      ∀ n, n < UINT32_MAX →
        SetCompact candidate.nBits < env.GetHash { candidate with nNonce := n }) ∧
    ((∃ found, FindDevNetGenesisBlock env prevBlock reward = Except.ok found) →
      ∃ n, n < UINT32_MAX ∧
        env.GetHash { candidate with nNonce := n } ≤ SetCompact candidate.nBits) := by
  refine ⟨?_, ?_, ?_, ?_⟩
  · rintro ⟨n, hn, hhit⟩
    exact FindDevNetGenesisBlock_returns_of_nonce env prevBlock reward candidate hc n hn hhit
  · intro hmiss
    exact FindDevNetGenesisBlock_aborts_of_no_nonce env prevBlock reward candidate hc hmiss
  · intro habort n hn
    by_contra hnot
    obtain ⟨found, hfound⟩ := FindDevNetGenesisBlock_returns_of_nonce env prevBlock reward
      candidate hc n hn (Nat.not_lt.mp hnot)
    rw [habort] at hfound
    cases hfound
  · rintro ⟨found, hfound⟩
    obtain ⟨candidate2, hc2, hl⟩ := FindDevNetGenesisBlock_ok env prevBlock reward found hfound
    rw [hc] at hc2
    cases hc2
    have hspec := FindDevNetGenesisBlock_loop_spec env (SetCompact candidate.nBits)
      (UINT32_MAX - 0) candidate 0 rfl
    rw [hl] at hspec
    obtain ⟨m, _, hm2, hm3, hm4, _⟩ := hspec
    refine ⟨m, hm2, ?_⟩
    rw [← hm3]
    exact hm4

/-- Witness of C4, amended: with a hash that misses at nonces 0 and 1 and hits
from nonce 2 on, a nonce below `UINT32_MAX` meets the target and the miner
returns a block. -/
theorem FindDevNetGenesisBlock_aborts_iff_witness :
    (∃ n, n < UINT32_MAX ∧
      thirdNonceBackend.GetHash { sampleDevnetBlock (2 ^ 256 - 1) 0 with nNonce := n } ≤
        SetCompact (sampleDevnetBlock (2 ^ 256 - 1) 0).nBits) ∧
    ∃ found, FindDevNetGenesisBlock thirdNonceBackend samplePrevBlock (50 * COIN) =
      Except.ok found :=
  have hhit : ∃ n, n < UINT32_MAX ∧
      thirdNonceBackend.GetHash { sampleDevnetBlock (2 ^ 256 - 1) 0 with nNonce := n } ≤
        SetCompact (sampleDevnetBlock (2 ^ 256 - 1) 0).nBits := ⟨2, by decide, by decide⟩
  ⟨hhit, (FindDevNetGenesisBlock_aborts_iff thirdNonceBackend samplePrevBlock (50 * COIN)
    (sampleDevnetBlock (2 ^ 256 - 1) 0) (by rfl)).1 hhit⟩

/-- The miner returns the candidate at the least nonce that meets the target,
when that nonce is below `UINT32_MAX`. -/
theorem FindDevNetGenesisBlock_eq_of_least (env : Backend) (prevBlock : CBlock)
    (reward : CAmount) (candidate : CBlock)
    (hc : CreateDevNetGenesisBlock env (env.GetHash prevBlock) (c_str env.GetDevNetName)
      ((prevBlock.nTime + 1) % 2 ^ 32) 0 prevBlock.nBits reward = Except.ok candidate)
    (n : Nat) (hn : n < UINT32_MAX)
    (hhit : env.GetHash { candidate with nNonce := n } ≤ SetCompact candidate.nBits)
    (hmiss : ∀ j, j < n →
      SetCompact candidate.nBits < env.GetHash { candidate with nNonce := j }) :
    FindDevNetGenesisBlock env prevBlock reward = Except.ok { candidate with nNonce := n } := by
  have hspec := FindDevNetGenesisBlock_loop_spec env (SetCompact candidate.nBits)
    (UINT32_MAX - 0) candidate 0 rfl
  rw [FindDevNetGenesisBlock_eq, hc]
  cases hl : FindDevNetGenesisBlock_loop env (SetCompact candidate.nBits) candidate 0 with
  | none =>
    exfalso
    rw [hl] at hspec
    exact absurd hhit (Nat.not_le.mpr (hspec n (Nat.zero_le n) hn))
  | some found =>
    rw [hl] at hspec
    obtain ⟨m, _, _, hm3, hm4, hm5⟩ := hspec
    have hmn : m = n := by
      rcases Nat.lt_trichotomy m n with hlt | heq | hgt
      · have := hmiss m hlt
        rw [← hm3] at this
        exact absurd hm4 (Nat.not_le.mpr this)
      · exact heq
      · exact absurd hhit (Nat.not_le.mpr (hm5 n (Nat.zero_le n) hgt))
    simp only [hl]
    rw [hm3, hmn]

/-- C5: the miner tries the nonces in increasing order from 0: the block it
returns meets the target and no smaller nonce does, so its nonce is the least
nonce whose candidate hash is at most the target; and any two results for the
same previous block, devnet name and reward have the same nonce and hash. -/
theorem FindDevNetGenesisBlock_least_nonce (env : Backend) (prevBlock : CBlock)
    (reward : CAmount) (found : CBlock)
    (h : FindDevNetGenesisBlock env prevBlock reward = Except.ok found) :
    env.GetHash found ≤ SetCompact found.nBits ∧
    (∀ m, m < found.nNonce →
      SetCompact found.nBits < env.GetHash { found with nNonce := m }) ∧
    (∀ other, FindDevNetGenesisBlock env prevBlock reward = Except.ok other →
      other.nNonce = found.nNonce ∧ env.GetHash other = env.GetHash found) := by
  obtain ⟨candidate, hc, hl⟩ := FindDevNetGenesisBlock_ok env prevBlock reward found h
  have hspec := FindDevNetGenesisBlock_loop_spec env (SetCompact candidate.nBits)
    (UINT32_MAX - 0) candidate 0 rfl
  rw [hl] at hspec
  obtain ⟨m, _, _, hm3, hm4, hm5⟩ := hspec
  subst hm3
  refine ⟨hm4, fun j hj => hm5 j (Nat.zero_le j) hj, ?_⟩
  · intro other hother
    rw [h] at hother
    cases hother
    exact ⟨rfl, rfl⟩

/-- Witness of C5: with a hash that misses at nonces 0 and 1 and hits from
nonce 2 on, the miner returns the candidate at nonce 2, and nonces 0 and 1 miss
the target. -/
theorem FindDevNetGenesisBlock_least_nonce_witness :
    FindDevNetGenesisBlock thirdNonceBackend samplePrevBlock (50 * COIN) =
        Except.ok (sampleDevnetBlock (2 ^ 256 - 1) 2) ∧
      (∀ m, m < 2 → SetCompact 0x207fffff <
        thirdNonceBackend.GetHash (sampleDevnetBlock (2 ^ 256 - 1) m)) :=
  have h : FindDevNetGenesisBlock thirdNonceBackend samplePrevBlock (50 * COIN) =
      Except.ok (sampleDevnetBlock (2 ^ 256 - 1) 2) :=
    FindDevNetGenesisBlock_eq_of_least thirdNonceBackend samplePrevBlock (50 * COIN)
      (sampleDevnetBlock (2 ^ 256 - 1) 0) (by rfl) 2 (by decide) (by decide)
      (fun j hj => by
        have hj2 : j = 0 ∨ j = 1 := by omega
        rcases hj2 with rfl | rfl <;> decide)
  ⟨h, (FindDevNetGenesisBlock_least_nonce thirdNonceBackend samplePrevBlock (50 * COIN)
    (sampleDevnetBlock (2 ^ 256 - 1) 2) h).2.1⟩

/-! ## The constructors of the profiles -/

/-- When the main constructor returns, its result is its assignments and both
`assert`s held. -/
theorem CMainParams_ok (env : Backend) (p : CChainParams) (h : CMainParams env = Except.ok p) :
    p = CMainParams_assign env ∧
      env.GetHash (CreateGenesisBlock env 1575878400 427681 0x1e0ffff0 1 (50 * COIN) false) =
        mainGenesisHash ∧
      (CreateGenesisBlock env 1575878400 427681 0x1e0ffff0 1 (50 * COIN) false).hashMerkleRoot =
        mainGenesisMerkleRoot := by
  unfold CMainParams at h
  simp only at h
  split at h
  · cases h
  · split at h
    · cases h
    · rename_i h1 h2
      cases h
      exact ⟨rfl, not_not.mp h1, not_not.mp h2⟩

/-- When the test constructor returns, its result is its assignments at the
nonce the mining loop ended with. -/
theorem CTestNetParams_ok (env : Backend) (p : CChainParams)
    (h : CTestNetParams env = Except.ok p) :
    ∃ genesis nNonce, CTestNetParams_loop env (2 ^ 32 + 1) {} 0 = some (genesis, nNonce) ∧
      p = CTestNetParams_assign env nNonce := by
  unfold CTestNetParams at h
  cases hl : CTestNetParams_loop env (2 ^ 32 + 1) {} 0 with
  | none => rw [hl] at h; cases h
  | some r =>
    obtain ⟨genesis, nNonce⟩ := r
    rw [hl] at h
    cases h
    exact ⟨genesis, nNonce, rfl, rfl⟩

/-- When the dev constructor returns, both `assert`s on the base genesis held,
the miner returned, and the result is the assignments at the mined block. -/
theorem CDevNetParams_ok (env : Backend) (p : CChainParams)
    (h : CDevNetParams env = Except.ok p) :
    env.GetHash (devBaseGenesis env) = devGenesisHash ∧
      (devBaseGenesis env).hashMerkleRoot = devGenesisMerkleRoot ∧
      ∃ devnetGenesis,
        FindDevNetGenesisBlock env (devBaseGenesis env) (50 * COIN) = Except.ok devnetGenesis ∧
        p = CDevNetParams_assign env devnetGenesis := by
  unfold CDevNetParams at h
  simp only at h
  split at h
  · cases h
  · split at h
    · cases h
    · rename_i h1 h2
      cases hf : FindDevNetGenesisBlock env (devBaseGenesis env) (50 * COIN) with
      | error e => rw [hf] at h; cases h
      | ok devnetGenesis =>
        rw [hf] at h
        cases h
        exact ⟨not_not.mp h1, not_not.mp h2, devnetGenesis, rfl, rfl⟩

/-! ## Claims on the genesis constants -/

/-- The Merkle roots recorded for main and for dev differ. -/
theorem recorded_merkle_roots_differ : mainGenesisMerkleRoot ≠ devGenesisMerkleRoot := by
  decide

/-- The Merkle root the builder of the networks stores depends on `fTestnet` and
the reward only. -/
theorem CreateGenesisBlock_hashMerkleRoot (env : Backend) (nTime nNonce nBits : Nat)
    (nVersion : Int) (nTime2 nNonce2 nBits2 : Nat) (nVersion2 : Int) (reward : CAmount)
    (fTestnet : Bool) :
    (CreateGenesisBlock env nTime nNonce nBits nVersion reward fTestnet).hashMerkleRoot =
      (CreateGenesisBlock env nTime2 nNonce2 nBits2 nVersion2 reward fTestnet).hashMerkleRoot :=
  rfl

/-- The block documented at lines 78-82 beside the Merkle root `e0028e` has a
coinbase script whose data push (the bytes after the prefix `04ffff001d01044c59`)
is the message of `fTestnet = true`. -/
theorem documented_coinbase_message :
    ParseHex "57697265642030392f4a616e2f3230313420546865204772616e64204578706572696d656e7420476f6573204c6976653a204f76657273746f636b2e636f6d204973204e6f7720416363657074696e6720426974636f696e73" =
      strBytes (pszTimestamp true) := by
  decide

/-- C1, at the failing input: for every hash backend, the block
`CreateGenesisBlock(1417713337, 1096447, 0x207fffff, 1, 50 COIN, false)` of dev
holds the same sole transaction and so the same Merkle root as the block
`CreateGenesisBlock(1575878400, 427681, 0x1e0ffff0, 1, 50 COIN, false)` of main,
while the roots recorded for the two networks differ: the two blocks never both
have their recorded Merkle roots. -/
theorem CreateGenesisBlock_recorded_roots_conflict (env : Backend) :
    (CreateGenesisBlock env 1417713337 1096447 0x207fffff 1 (50 * COIN) false).vtx =
      (CreateGenesisBlock env 1575878400 427681 0x1e0ffff0 1 (50 * COIN) false).vtx ∧
    (CreateGenesisBlock env 1417713337 1096447 0x207fffff 1 (50 * COIN) false).hashMerkleRoot =
      (CreateGenesisBlock env 1575878400 427681 0x1e0ffff0 1 (50 * COIN) false).hashMerkleRoot ∧
    ¬ ((CreateGenesisBlock env 1575878400 427681 0x1e0ffff0 1 (50 * COIN)
          false).hashMerkleRoot = mainGenesisMerkleRoot ∧
        (CreateGenesisBlock env 1417713337 1096447 0x207fffff 1 (50 * COIN)
          false).hashMerkleRoot = devGenesisMerkleRoot) := by
  refine ⟨rfl, rfl, ?_⟩
  rintro ⟨hmain, hdev⟩
  rw [CreateGenesisBlock_hashMerkleRoot env 1417713337 1096447 0x207fffff 1 1575878400 427681
    0x1e0ffff0 1, hmain] at hdev
  exact recorded_merkle_roots_differ hdev

/-- The dev constructor returns the assignments at the mined block when both
`assert`s hold and the miner returns. -/
theorem CDevNetParams_eq_of_mined (env : Backend) (devnetGenesis : CBlock)
    (h1 : env.GetHash (devBaseGenesis env) = devGenesisHash)
    (h2 : (devBaseGenesis env).hashMerkleRoot = devGenesisMerkleRoot)
    (hf : FindDevNetGenesisBlock env (devBaseGenesis env) (50 * COIN) = Except.ok devnetGenesis) :
    CDevNetParams env = Except.ok (CDevNetParams_assign env devnetGenesis) := by
  unfold CDevNetParams
  simp only
  rw [if_neg (not_not.mpr h1), if_neg (not_not.mpr h2), hf]

/-- Under `sampleDevBackend` the miner over the dev base genesis returns at
nonce 0. -/
theorem FindDevNetGenesisBlock_sampleDevBackend :
    FindDevNetGenesisBlock sampleDevBackend (devBaseGenesis sampleDevBackend) (50 * COIN) =
      Except.ok sampleDevnetGenesis :=
  FindDevNetGenesisBlock_first_nonce sampleDevBackend (devBaseGenesis sampleDevBackend)
    (50 * COIN) sampleDevnetGenesis (by rfl) (by decide)

/-- Under `sampleDevBackend` the dev constructor returns. -/
theorem CDevNetParams_sampleDevBackend :
    CDevNetParams sampleDevBackend =
      Except.ok (CDevNetParams_assign sampleDevBackend sampleDevnetGenesis) :=
  CDevNetParams_eq_of_mined sampleDevBackend sampleDevnetGenesis (by rfl) (by rfl)
    FindDevNetGenesisBlock_sampleDevBackend

/-- Under `sampleMainBackend` the main constructor returns. -/
theorem CMainParams_sampleMainBackend :
    CMainParams sampleMainBackend = Except.ok (CMainParams_assign sampleMainBackend) := by
  rfl

/-- Under `sampleMainBackend` the mining loop of the test constructor ends at its
first test, and the constructor returns. -/
theorem CTestNetParams_sampleMainBackend :
    CTestNetParams sampleMainBackend = Except.ok (CTestNetParams_assign sampleMainBackend 0) := by
  rfl

/-- C9: each of the four quorum descriptors `llmq5_60`, `llmq50_60`, `llmq400_60`
and `llmq400_85` has `minSize <= size`, `threshold <= minSize`,
`dkgPhaseBlocks * 5 <= dkgMiningWindowStart`,
`dkgMiningWindowStart < dkgMiningWindowEnd` and `dkgMiningWindowEnd <= dkgInterval`. -/
theorem llmq_descriptors_consistent :
    LLMQParamsConsistent llmq5_60 ∧ LLMQParamsConsistent llmq50_60 ∧
      LLMQParamsConsistent llmq400_60 ∧ LLMQParamsConsistent llmq400_85 := by
  refine ⟨?_, ?_, ?_, ?_⟩ <;> unfold LLMQParamsConsistent <;> decide

/-- C10: in each of the four profiles as constructed, `llmqChainLocks` and
`llmqForInstaEPM` are keys of the profile's own `llmqs` map. -/
theorem profiles_quorum_selections_resolve (env : Backend) (p : CChainParams)
    (h : CMainParams env = Except.ok p ∨ CTestNetParams env = Except.ok p ∨
      CDevNetParams env = Except.ok p ∨ CRegTestParams env = p) :
    QuorumSelectionsResolve p := by
  rcases h with h | h | h | h
  · obtain ⟨hp, _, _⟩ := CMainParams_ok env p h
    subst hp
    exact ⟨rfl, rfl⟩
  · obtain ⟨_, nNonce, _, hp⟩ := CTestNetParams_ok env p h
    subst hp
    exact ⟨rfl, rfl⟩
  · obtain ⟨_, _, devnetGenesis, _, hp⟩ := CDevNetParams_ok env p h
    subst hp
    exact ⟨rfl, rfl⟩
  · subst h
    exact ⟨rfl, rfl⟩

/-- Witness of C10: each of the four constructors returns under a sample
backend, and the selections of the profile it returns resolve. -/
theorem profiles_quorum_selections_resolve_witness :
    QuorumSelectionsResolve (CMainParams_assign sampleMainBackend) ∧
      QuorumSelectionsResolve (CTestNetParams_assign sampleMainBackend 0) ∧
      QuorumSelectionsResolve (CDevNetParams_assign sampleDevBackend sampleDevnetGenesis) ∧
      QuorumSelectionsResolve (CRegTestParams sampleMainBackend) :=
  ⟨profiles_quorum_selections_resolve sampleMainBackend _ (Or.inl CMainParams_sampleMainBackend),
   profiles_quorum_selections_resolve sampleMainBackend _
     (Or.inr (Or.inl CTestNetParams_sampleMainBackend)),
   profiles_quorum_selections_resolve sampleDevBackend _
     (Or.inr (Or.inr (Or.inl CDevNetParams_sampleDevBackend))),
   profiles_quorum_selections_resolve sampleMainBackend _ (Or.inr (Or.inr (Or.inr rfl)))⟩

/-! ## The registry -/

/-- A string outside the closed set differs from each of the four identifiers. -/
theorem not_mem_networkIDs (network : String) (h : network ∉ networkIDs) :
    network ≠ CBaseChainParams.MAIN ∧ network ≠ CBaseChainParams.TESTNET ∧
      network ≠ CBaseChainParams.DEVNET ∧ network ≠ CBaseChainParams.REGTEST := by
  unfold networkIDs at h
  simp only [List.mem_cons, List.mem_singleton, not_or, List.mem_nil_iff, or_false] at h
  exact ⟨h.1, h.2.1, h.2.2.1, h.2.2.2⟩

/-- `Params(chain)` throws for a string outside the closed set. -/
theorem Params_chain_unknown (s : Registry) (network : String) (h : network ∉ networkIDs) :
    Params_chain s network =
      Except.error (Failure.runtime_error ("Params: Unknown chain " ++ network ++ ".")) := by
  obtain ⟨h1, h2, h3, h4⟩ := not_mem_networkIDs network h
  unfold Params_chain
  rw [if_neg h1, if_neg h2, if_neg h3, if_neg h4]

/-- `SelectParams` throws for a string outside the closed set and leaves the
state as it was. -/
theorem SelectParams_unknown (env : Backend) (s : Registry) (network : String)
    (h : network ∉ networkIDs) :
    SelectParams env network s =
      (Except.error (Failure.runtime_error ("BaseParams: Unknown chain " ++ network ++ ".")),
        s) := by
  obtain ⟨h1, h2, h3, h4⟩ := not_mem_networkIDs network h
  have hbase : SelectBaseParams network =
      Except.error (Failure.runtime_error ("BaseParams: Unknown chain " ++ network ++ ".")) := by
    unfold SelectBaseParams
    rw [if_neg]
    simp only [not_or]
    exact ⟨h1, h2, h3, h4⟩
  unfold SelectParams
  simp only [if_neg h3, hbase]

/-- `Params(chain)` returns for an identifier of the closed set, unless it is
"dev" with `devNetParams` still null, where `assert(devNetParams)` fails. -/
theorem Params_chain_known (s : Registry) (network : String) (h : network ∈ networkIDs) :
    (network = CBaseChainParams.MAIN ∧ Params_chain s network = Except.ok ChainRef.mainParams) ∨
    (network = CBaseChainParams.TESTNET ∧
      Params_chain s network = Except.ok ChainRef.testNetParams) ∨
    (network = CBaseChainParams.REGTEST ∧
      Params_chain s network = Except.ok ChainRef.regTestParams) ∨
    (network = CBaseChainParams.DEVNET ∧ s.devNetParams ≠ none ∧
      Params_chain s network = Except.ok ChainRef.devNetParams) ∨
    (network = CBaseChainParams.DEVNET ∧ s.devNetParams = none ∧
      Params_chain s network = Except.error (Failure.assertion AssertSite.devNetParamsSet)) := by
  unfold networkIDs at h
  simp only [List.mem_cons, List.mem_singleton, List.mem_nil_iff, or_false] at h
  rcases h with h | h | h | h
  · left
    exact ⟨h, by subst h; rfl⟩
  · right; left
    exact ⟨h, by subst h; rfl⟩
  · right; right; right
    subst h
    cases hd : s.devNetParams with
    | none =>
      right
      refine ⟨rfl, rfl, ?_⟩
      unfold Params_chain
      rw [if_neg (by decide), if_neg (by decide), if_pos rfl, hd]
    | some d =>
      left
      refine ⟨rfl, by simp, ?_⟩
      unfold Params_chain
      rw [if_neg (by decide), if_neg (by decide), if_pos rfl, hd]
  · right; right; left
    exact ⟨h, by subst h; rfl⟩

/-- `SelectBaseParams` returns for an identifier of the closed set. -/
theorem SelectBaseParams_known (network : String) (h : network ∈ networkIDs) :
    SelectBaseParams network = Except.ok () := by
  unfold networkIDs at h
  simp only [List.mem_cons, List.mem_singleton, List.mem_nil_iff, or_false] at h
  unfold SelectBaseParams
  rw [if_pos h]

/-- `SelectParams("dev")`: the dev constructor runs; when it aborts the state is
as before, when it returns the new profile is stored and made active. -/
theorem SelectParams_dev (env : Backend) (s : Registry) :
    SelectParams env CBaseChainParams.DEVNET s =
      match CDevNetParams env with
      | Except.error e => (Except.error e, s)
      | Except.ok d =>
        (Except.ok (),
          { s with devNetParams := some d, pCurrentParams := some ChainRef.devNetParams }) := by
  unfold SelectParams
  simp only [if_pos]
  cases CDevNetParams env with
  | error e => rfl
  | ok d => rfl

/-- `SelectParams` for an identifier other than "dev": the state changes in
`pCurrentParams` only, and only when `Params(network)` returns. -/
theorem SelectParams_not_dev (env : Backend) (s : Registry) (network : String)
    (h : network ≠ CBaseChainParams.DEVNET) :
    SelectParams env network s =
      match SelectBaseParams network with
      | Except.error e => (Except.error e, s)
      | Except.ok _ =>
        match Params_chain s network with
        | Except.error e => (Except.error e, s)
        | Except.ok r => (Except.ok (), { s with pCurrentParams := some r }) := by
  unfold SelectParams
  simp only [if_neg h]

/-- A `SelectParams` that returns has stored the reference `Params(network)`
gives in the new state, which differs from the old one in `pCurrentParams` and,
for "dev", in `devNetParams` only. -/
theorem SelectParams_ok (env : Backend) (s : Registry) (network : String)
    (h : (SelectParams env network s).1 = Except.ok ()) :
    network ∈ networkIDs ∧
    ∃ r, Params_chain (SelectParams env network s).2 network = Except.ok r ∧
      (SelectParams env network s).2.pCurrentParams = some r ∧
      (SelectParams env network s).2.mainParams = s.mainParams ∧
      (SelectParams env network s).2.testNetParams = s.testNetParams ∧
      (SelectParams env network s).2.regTestParams = s.regTestParams ∧
      (network ≠ CBaseChainParams.DEVNET →
        (SelectParams env network s).2.devNetParams = s.devNetParams) ∧
      (network = CBaseChainParams.DEVNET →
        ∃ d, CDevNetParams env = Except.ok d ∧
          (SelectParams env network s).2.devNetParams = some d) := by
  by_cases hdev : network = CBaseChainParams.DEVNET
  · subst hdev
    rw [SelectParams_dev] at h ⊢
    cases hd : CDevNetParams env with
    | error e => rw [hd] at h; cases h
    | ok d =>
      refine ⟨by decide, ChainRef.devNetParams, ?_, rfl, rfl, rfl, rfl, ?_, ?_⟩
      · rfl
      · intro hne
        exact absurd rfl hne
      · intro _
        exact ⟨d, rfl, rfl⟩
  · by_cases hmem : network ∈ networkIDs
    · have hsel := SelectParams_not_dev env s network hdev
      rw [SelectBaseParams_known network hmem] at hsel
      simp only at hsel
      cases hp : Params_chain s network with
      | error e =>
        rw [hp] at hsel
        rw [hsel] at h
        cases h
      | ok r =>
        rw [hp] at hsel
        rw [hsel]
        have hsame : Params_chain { s with pCurrentParams := some r } network =
            Params_chain s network := rfl
        exact ⟨hmem, r, by rw [hsame, hp], rfl, rfl, rfl, rfl, fun _ => rfl,
          fun hd => absurd hd hdev⟩
    · exfalso
      rw [SelectParams_unknown env s network hmem] at h
      cases h

/-- A `SelectParams` that does not return leaves the state as it was. -/
theorem SelectParams_failed (env : Backend) (s : Registry) (network : String) (e : Failure)
    (h : (SelectParams env network s).1 = Except.error e) :
    (SelectParams env network s).2 = s := by
  by_cases hdev : network = CBaseChainParams.DEVNET
  · subst hdev
    rw [SelectParams_dev] at h ⊢
    cases hd : CDevNetParams env with
    | error e => rfl
    | ok d => rw [hd] at h; cases h
  · rw [SelectParams_not_dev env s network hdev] at h ⊢
    cases hb : SelectBaseParams network with
    | error e => rfl
    | ok u =>
      rw [hb] at h
      simp only at h ⊢
      cases hp : Params_chain s network with
      | error e => rfl
      | ok r => rw [hp] at h; cases h

/-- `Params()` fails its `assert` exactly when `pCurrentParams` is null. -/
theorem Params_fails_iff (s : Registry) :
    Params s = Except.error (Failure.assertion AssertSite.currentParamsSet) ↔
      s.pCurrentParams = none := by
  unfold Params
  cases s.pCurrentParams with
  | none => simp
  | some r => simp

/-- A call that did not return is not a `SelectParams` that returned. -/
theorem Call.selected_error (c : Call) (e : Failure) : c.selected (Except.error e) = false := by
  cases c <;> rfl

/-- One call and `pCurrentParams`: a `SelectParams` that returns sets it, and
every other call, and a `SelectParams` that fails, leaves it as it was. -/
theorem Call.run_pCurrentParams (env : Backend) (c : Call) (s : Registry) :
    (c.selected (c.run env s).1 = true → ∃ r, (c.run env s).2.pCurrentParams = some r) ∧
    (c.selected (c.run env s).1 = false →
      (c.run env s).2.pCurrentParams = s.pCurrentParams) := by
  cases c with
  | SelectParams network =>
    show (Call.selected (Call.SelectParams network) (NewEPM.SelectParams env network s).1 = true →
        ∃ r, (NewEPM.SelectParams env network s).2.pCurrentParams = some r) ∧
      (Call.selected (Call.SelectParams network) (NewEPM.SelectParams env network s).1 = false →
        (NewEPM.SelectParams env network s).2.pCurrentParams = s.pCurrentParams)
    cases hr : (NewEPM.SelectParams env network s).1 with
    | error e =>
      refine ⟨fun hsel => ?_, fun _ => ?_⟩
      · rw [Call.selected_error] at hsel
        cases hsel
      · rw [SelectParams_failed env s network e hr]
    | ok u =>
      refine ⟨fun _ => ?_, fun hsel => ?_⟩
      · obtain ⟨_, r, _, hcur, _⟩ := SelectParams_ok env s network hr
        exact ⟨r, hcur⟩
      · cases hsel
  | UpdateRegtestBIP9Parameters d a b c e =>
    exact ⟨fun hsel => (by cases hsel), fun _ => rfl⟩
  | UpdateRegtestDIP3Parameters a b =>
    exact ⟨fun hsel => (by cases hsel), fun _ => rfl⟩
  | UpdateRegtestBudgetParameters a b c =>
    exact ⟨fun hsel => (by cases hsel), fun _ => rfl⟩
  | UpdateDevnetSubsidyAndDiffParams a b c =>
    refine ⟨fun hsel => ?_, fun _ => ?_⟩
    · cases hr : (Call.run env (Call.UpdateDevnetSubsidyAndDiffParams a b c) s).1 with
      | error e => rw [hr, Call.selected_error] at hsel; cases hsel
      | ok u => rw [hr] at hsel; cases hsel
    · show (NewEPM.UpdateDevnetSubsidyAndDiffParams a b c s).2.pCurrentParams = s.pCurrentParams
      unfold NewEPM.UpdateDevnetSubsidyAndDiffParams
      cases s.devNetParams <;> rfl
  | UpdateDevnetLLMQChainLocks t =>
    refine ⟨fun hsel => ?_, fun _ => ?_⟩
    · cases hr : (Call.run env (Call.UpdateDevnetLLMQChainLocks t) s).1 with
      | error e => rw [hr, Call.selected_error] at hsel; cases hsel
      | ok u => rw [hr] at hsel; cases hsel
    · show (NewEPM.UpdateDevnetLLMQChainLocks t s).2.pCurrentParams = s.pCurrentParams
      unfold NewEPM.UpdateDevnetLLMQChainLocks
      cases s.devNetParams <;> rfl

/-- Along a history, `pCurrentParams` is null at the end exactly when it was null
at the start and no `SelectParams` of the history returned. -/
theorem runCalls_pCurrentParams (env : Backend) :
    ∀ (calls : List Call) (s : Registry),
      (runCalls env s calls).1.pCurrentParams = none ↔
        (s.pCurrentParams = none ∧ ∀ b ∈ (runCalls env s calls).2, b = false) := by
  intro calls
  induction calls with
  | nil =>
    intro s
    simp [runCalls]
  | cons c cs ih =>
    intro s
    have hstep := Call.run_pCurrentParams env c s
    cases hrun : c.run env s with
    | mk r s1 =>
      rw [hrun] at hstep
      simp only at hstep
      cases r with
      | ok u =>
        have hrc : runCalls env s (c :: cs) =
            ((runCalls env s1 cs).1, c.selected (Except.ok u) :: (runCalls env s1 cs).2) := by
          simp only [runCalls, hrun]
        rw [hrc]
        simp only [List.mem_cons, forall_eq_or_imp]
        rw [ih s1]
        cases hsel : c.selected (Except.ok u) with
        | true =>
          obtain ⟨r, hr⟩ := hstep.1 hsel
          rw [hr]
          simp
        | false =>
          rw [hstep.2 hsel]
          simp
      | error e =>
        have hsel : c.selected (Except.error e) = false := Call.selected_error c e
        have hcur := hstep.2 hsel
        cases e with
        | runtime_error what =>
          have hrc : runCalls env s (c :: cs) =
              ((runCalls env s1 cs).1, false :: (runCalls env s1 cs).2) := by
            simp only [runCalls, hrun]
          rw [hrc]
          simp only [List.mem_cons, forall_eq_or_imp]
          rw [ih s1, hcur]
          simp
        | assertion site =>
          have hrc : runCalls env s (c :: cs) = (s1, [false]) := by
            simp only [runCalls, hrun]
          rw [hrc]
          simp only [List.mem_singleton, forall_eq]
          rw [hcur]
          simp
        | nontermination =>
          have hrc : runCalls env s (c :: cs) = (s1, [false]) := by
            simp only [runCalls, hrun]
          rw [hrc]
          simp only [List.mem_singleton, forall_eq]
          rw [hcur]
          simp

/-- The dev constructor names its profile "dev". -/
theorem CDevNetParams_strNetworkID (env : Backend) (d : CChainParams)
    (h : CDevNetParams env = Except.ok d) : d.strNetworkID = CBaseChainParams.DEVNET := by
  obtain ⟨_, _, devnetGenesis, _, hd⟩ := CDevNetParams_ok env d h
  rw [hd]
  rfl

/-- The state the static initialisers leave has every profile under its own
identifier. -/
theorem NetworkIDsIntact_StaticInit (env : Backend) (s : Registry)
    (h : StaticInit env = Except.ok s) : NetworkIDsIntact s := by
  unfold StaticInit at h
  cases hm : CMainParams env with
  | error e => rw [hm] at h; cases h
  | ok m =>
    cases ht : CTestNetParams env with
    | error e => rw [hm, ht] at h; cases h
    | ok t =>
      rw [hm, ht] at h
      cases h
      obtain ⟨hmp, _, _⟩ := CMainParams_ok env m hm
      obtain ⟨_, nNonce, _, htp⟩ := CTestNetParams_ok env t ht
      subst hmp
      subst htp
      exact ⟨rfl, rfl, rfl, fun d hd => by cases hd⟩

/-- Every call keeps every profile under its own identifier. -/
theorem NetworkIDsIntact_run (env : Backend) (c : Call) (s : Registry)
    (h : NetworkIDsIntact s) : NetworkIDsIntact (c.run env s).2 := by
  obtain ⟨h1, h2, h3, h4⟩ := h
  cases c with
  | SelectParams network =>
    show NetworkIDsIntact (SelectParams env network s).2
    cases hr : (SelectParams env network s).1 with
    | error e =>
      rw [SelectParams_failed env s network e hr]
      exact ⟨h1, h2, h3, h4⟩
    | ok u =>
      obtain ⟨_, r, _, _, hm, ht, hg, hnd, hd⟩ := SelectParams_ok env s network hr
      refine ⟨by rw [hm]; exact h1, by rw [ht]; exact h2, by rw [hg]; exact h3, ?_⟩
      intro d hdev
      by_cases hn : network = CBaseChainParams.DEVNET
      · obtain ⟨d2, hcons, hslot⟩ := hd hn
        rw [hslot] at hdev
        cases hdev
        exact CDevNetParams_strNetworkID env d hcons
      · rw [hnd hn] at hdev
        exact h4 d hdev
  | UpdateRegtestBIP9Parameters d a b c e => exact ⟨h1, h2, h3, h4⟩
  | UpdateRegtestDIP3Parameters a b => exact ⟨h1, h2, h3, h4⟩
  | UpdateRegtestBudgetParameters a b c => exact ⟨h1, h2, h3, h4⟩
  | UpdateDevnetSubsidyAndDiffParams a b c =>
    show NetworkIDsIntact (UpdateDevnetSubsidyAndDiffParams a b c s).2
    unfold UpdateDevnetSubsidyAndDiffParams
    cases hd : s.devNetParams with
    | none => exact ⟨h1, h2, h3, fun d h => by rw [hd] at h; cases h⟩
    | some d0 =>
      refine ⟨h1, h2, h3, ?_⟩
      intro d hdev
      cases hdev
      exact h4 d0 hd
  | UpdateDevnetLLMQChainLocks t =>
    show NetworkIDsIntact (UpdateDevnetLLMQChainLocks t s).2
    unfold UpdateDevnetLLMQChainLocks
    cases hd : s.devNetParams with
    | none => exact ⟨h1, h2, h3, fun d h => by rw [hd] at h; cases h⟩
    | some d0 =>
      refine ⟨h1, h2, h3, ?_⟩
      intro d hdev
      cases hdev
      exact h4 d0 hd

/-- Every history keeps every profile under its own identifier. -/
theorem NetworkIDsIntact_runCalls (env : Backend) :
    ∀ (calls : List Call) (s : Registry), NetworkIDsIntact s →
      NetworkIDsIntact (runCalls env s calls).1 := by
  intro calls
  induction calls with
  | nil =>
    intro s h
    exact h
  | cons c cs ih =>
    intro s h
    have hstep := NetworkIDsIntact_run env c s h
    cases hrun : c.run env s with
    | mk r s1 =>
      rw [hrun] at hstep
      cases r with
      | ok u =>
        have hrc : (runCalls env s (c :: cs)).1 = (runCalls env s1 cs).1 := by
          simp only [runCalls, hrun]
        rw [hrc]
        exact ih s1 hstep
      | error e =>
        cases e with
        | runtime_error what =>
          have hrc : (runCalls env s (c :: cs)).1 = (runCalls env s1 cs).1 := by
            simp only [runCalls, hrun]
          rw [hrc]
          exact ih s1 hstep
        | assertion site =>
          have hrc : (runCalls env s (c :: cs)).1 = s1 := by
            simp only [runCalls, hrun]
          rw [hrc]
          exact hstep
        | nontermination =>
          have hrc : (runCalls env s (c :: cs)).1 = s1 := by
            simp only [runCalls, hrun]
          rw [hrc]
          exact hstep

/-- The reference `Params(chain)` returns points at the profile of that
network. -/
theorem Params_chain_deref (s : Registry) (network : String) (r : ChainRef)
    (hwf : NetworkIDsIntact s) (h : Params_chain s network = Except.ok r) :
    ∃ p, s.deref r = some p ∧ p.strNetworkID = network := by
  obtain ⟨h1, h2, h3, h4⟩ := hwf
  by_cases hmem : network ∈ networkIDs
  · rcases Params_chain_known s network hmem with
      ⟨hn, hp⟩ | ⟨hn, hp⟩ | ⟨hn, hp⟩ | ⟨hn, hd, hp⟩ | ⟨hn, _, hp⟩
    · rw [hp] at h
      cases h
      exact ⟨s.mainParams, rfl, by rw [hn]; exact h1⟩
    · rw [hp] at h
      cases h
      exact ⟨s.testNetParams, rfl, by rw [hn]; exact h2⟩
    · rw [hp] at h
      cases h
      exact ⟨s.regTestParams, rfl, by rw [hn]; exact h3⟩
    · rw [hp] at h
      cases h
      cases hslot : s.devNetParams with
      | none => exact absurd hslot hd
      | some d =>
        refine ⟨d, ?_, by rw [hn]; exact h4 d hslot⟩
        unfold Registry.deref
        exact hslot
    · rw [hp] at h
      cases h
  · rw [Params_chain_unknown s network hmem] at h
    cases h

/-! ## Claims on the registry -/

/-- C6: for every string outside the closed set main / test / dev / regtest,
`Params(chain)` throws the "Unknown chain" runtime error and
`SelectParams(network)` fails with a runtime error, leaving the whole state, so
also the active-profile pointer, as it was; for every string inside the set
`Params(chain)` does not throw a runtime error, and it returns a reference when
the dev profile has been constructed. -/
theorem unknown_network_rejected (env : Backend) (s : Registry) (network : String) :
    (network ∉ networkIDs →
      Params_chain s network =
        Except.error (Failure.runtime_error ("Params: Unknown chain " ++ network ++ ".")) ∧
      (∃ what, (SelectParams env network s).1 = Except.error (Failure.runtime_error what)) ∧
      (SelectParams env network s).2 = s ∧
      (SelectParams env network s).2.pCurrentParams = s.pCurrentParams) ∧
    (network ∈ networkIDs →
      (∀ what, Params_chain s network ≠ Except.error (Failure.runtime_error what)) ∧
      (s.devNetParams ≠ none → ∃ r, Params_chain s network = Except.ok r)) := by
  constructor
  · intro h
    have hs := SelectParams_unknown env s network h
    refine ⟨Params_chain_unknown s network h, ⟨_, by rw [hs]⟩, by rw [hs], by rw [hs]⟩
  · intro h
    rcases Params_chain_known s network h with
      ⟨_, hp⟩ | ⟨_, hp⟩ | ⟨_, hp⟩ | ⟨_, _, hp⟩ | ⟨_, hd, hp⟩
    · exact ⟨fun what hw => (by rw [hp] at hw; cases hw), fun _ => ⟨_, hp⟩⟩
    · exact ⟨fun what hw => (by rw [hp] at hw; cases hw), fun _ => ⟨_, hp⟩⟩
    · exact ⟨fun what hw => (by rw [hp] at hw; cases hw), fun _ => ⟨_, hp⟩⟩
    · exact ⟨fun what hw => (by rw [hp] at hw; cases hw), fun _ => ⟨_, hp⟩⟩
    · exact ⟨fun what hw => (by rw [hp] at hw; cases hw), fun hne => absurd hd hne⟩

/-- Witness of C6: "bogus" is outside the set and is rejected without a change
of state; "main" is inside the set and `Params("main")` throws nothing. -/
theorem unknown_network_rejected_witness :
    ("bogus" ∉ networkIDs ∧
      Params_chain sampleRegistry "bogus" =
        Except.error (Failure.runtime_error "Params: Unknown chain bogus.") ∧
      (SelectParams sampleMainBackend "bogus" sampleRegistry).2 = sampleRegistry) ∧
    ("main" ∈ networkIDs ∧
      ∀ what, Params_chain sampleRegistry "main" ≠
        Except.error (Failure.runtime_error what)) :=
  have hout : "bogus" ∉ networkIDs := by decide
  have hin : "main" ∈ networkIDs := by decide
  ⟨⟨hout,
    ((unknown_network_rejected sampleMainBackend sampleRegistry "bogus").1 hout).1,
    ((unknown_network_rejected sampleMainBackend sampleRegistry "bogus").1 hout).2.2.1⟩,
   ⟨hin, ((unknown_network_rejected sampleMainBackend sampleRegistry "main").2 hin).1⟩⟩

/-- C7: along every history from a state with a null `pCurrentParams`,
`Params()` fails its `assert` at the end exactly when no `SelectParams` call of
the history has returned; and right after a `SelectParams(n)` that returned,
`Params()` returns a reference to the profile whose `strNetworkID` is `n`. -/
theorem Params_current_contract (env : Backend) (s0 : Registry) (calls : List Call)
    (s : Registry) (n : String) :
    (s0.pCurrentParams = none →
      (Params (runCalls env s0 calls).1 =
          Except.error (Failure.assertion AssertSite.currentParamsSet) ↔
        ∀ b ∈ (runCalls env s0 calls).2, b = false)) ∧
    (NetworkIDsIntact s → (SelectParams env n s).1 = Except.ok () →
      ∃ r p, Params (SelectParams env n s).2 = Except.ok r ∧
        (SelectParams env n s).2.deref r = some p ∧ p.strNetworkID = n) := by
  constructor
  · intro h0
    rw [Params_fails_iff, runCalls_pCurrentParams env calls s0]
    constructor
    · intro h
      exact h.2
    · intro h
      exact ⟨h0, h⟩
  · intro hwf hsel
    obtain ⟨_, r, hp, hcur, _⟩ := SelectParams_ok env s n hsel
    have hwf2 : NetworkIDsIntact (SelectParams env n s).2 :=
      NetworkIDsIntact_run env (Call.SelectParams n) s hwf
    obtain ⟨p, hderef, hid⟩ := Params_chain_deref (SelectParams env n s).2 n r hwf2 hp
    refine ⟨r, p, ?_, hderef, hid⟩
    unfold Params
    rw [hcur]

/-- Every profile of `sampleRegistry` is under its own identifier. -/
theorem NetworkIDsIntact_sampleRegistry : NetworkIDsIntact sampleRegistry :=
  ⟨rfl, rfl, rfl, fun d hd => by cases hd⟩

/-- Witness of C7: after a rejected `SelectParams("bogus")` alone, `Params()`
fails its `assert`; after `SelectParams("main")`, `Params()` returns the
reference to the main profile. -/
theorem Params_current_contract_witness :
    Params (runCalls sampleMainBackend sampleRegistry [Call.SelectParams "bogus"]).1 =
        Except.error (Failure.assertion AssertSite.currentParamsSet) ∧
    (∃ r p, Params (SelectParams sampleMainBackend "main" sampleRegistry).2 = Except.ok r ∧
      (SelectParams sampleMainBackend "main" sampleRegistry).2.deref r = some p ∧
      p.strNetworkID = "main") :=
  ⟨((Params_current_contract sampleMainBackend sampleRegistry [Call.SelectParams "bogus"]
      sampleRegistry "main").1 rfl).2
      (fun b hb => by
        have hlog : (runCalls sampleMainBackend sampleRegistry
            [Call.SelectParams "bogus"]).2 = [false] := rfl
        rw [hlog] at hb
        simpa using hb),
   (Params_current_contract sampleMainBackend sampleRegistry [] sampleRegistry "main").2
      NetworkIDsIntact_sampleRegistry rfl⟩

/-- C8, as stated, fails: in the state the static initialisers leave (nothing
selected, `devNetParams` null) `Params("dev")` fails `assert(devNetParams)` and
returns no profile. -/
theorem Params_chain_dev_before_construction :
    CBaseChainParams.DEVNET ∈ networkIDs ∧
    StaticInit sampleMainBackend = Except.ok sampleRegistry ∧
    Params_chain sampleRegistry CBaseChainParams.DEVNET =
      Except.error (Failure.assertion AssertSite.devNetParamsSet) ∧
    ¬ ∃ r, Params_chain sampleRegistry CBaseChainParams.DEVNET = Except.ok r := by
  refine ⟨by decide, rfl, rfl, ?_⟩
  rintro ⟨r, hr⟩
  have hfail : Params_chain sampleRegistry CBaseChainParams.DEVNET =
      Except.error (Failure.assertion AssertSite.devNetParamsSet) := rfl
  rw [hfail] at hr
  cases hr

/-- C8, amended: in every state whose profiles are under their own identifiers
(every reachable state), `Params(n)` returns a reference to the profile whose
`strNetworkID` is `n` for `n` among main, test and regtest, and for `n` = dev
whenever `devNetParams` is not null; with `devNetParams` null `Params("dev")`
fails `assert(devNetParams)`. `Params(n)` only reads the state: it has no
resulting state, so `pCurrentParams` is as before. -/
theorem Params_chain_returns_profile (s : Registry) (n : String)
    (hwf : NetworkIDsIntact s) (hn : n ∈ networkIDs)
    (hdev : n = CBaseChainParams.DEVNET → s.devNetParams ≠ none) :
    (∃ r p, Params_chain s n = Except.ok r ∧ s.deref r = some p ∧ p.strNetworkID = n) ∧
    ∀ s2 : Registry, s2.devNetParams = none →
      Params_chain s2 CBaseChainParams.DEVNET =
        Except.error (Failure.assertion AssertSite.devNetParamsSet) := by
  constructor
  · have hret : ∃ r, Params_chain s n = Except.ok r := by
      rcases Params_chain_known s n hn with
        ⟨_, hp⟩ | ⟨_, hp⟩ | ⟨_, hp⟩ | ⟨_, _, hp⟩ | ⟨hnd, hd, _⟩
      · exact ⟨_, hp⟩
      · exact ⟨_, hp⟩
      · exact ⟨_, hp⟩
      · exact ⟨_, hp⟩
      · exact absurd hd (hdev hnd)
    obtain ⟨r, hr⟩ := hret
    obtain ⟨p, hderef, hid⟩ := Params_chain_deref s n r hwf hr
    exact ⟨r, p, hr, hderef, hid⟩
  · intro s2 hnone
    rcases Params_chain_known s2 CBaseChainParams.DEVNET (by decide) with
      ⟨hx, _⟩ | ⟨hx, _⟩ | ⟨hx, _⟩ | ⟨_, hd, _⟩ | ⟨_, _, hp⟩
    · exact absurd hx (by decide)
    · exact absurd hx (by decide)
    · exact absurd hx (by decide)
    · exact absurd hnone hd
    · exact hp

/-- Under `sampleDevBackend`, `SelectParams("dev")` builds the dev profile and
makes it active. -/
theorem SelectParams_dev_sampleDevBackend :
    SelectParams sampleDevBackend CBaseChainParams.DEVNET sampleRegistry =
      (Except.ok (),
        { sampleRegistry with
          devNetParams := some (CDevNetParams_assign sampleDevBackend sampleDevnetGenesis),
          pCurrentParams := some ChainRef.devNetParams }) := by
  rw [SelectParams_dev, CDevNetParams_sampleDevBackend]

/-- Witness of C8, amended: once `SelectParams("dev")` has built the dev profile,
`Params("dev")` returns it. -/
theorem Params_chain_returns_profile_witness :
    ∃ r p,
      Params_chain (SelectParams sampleDevBackend CBaseChainParams.DEVNET sampleRegistry).2
        "dev" = Except.ok r ∧
      (SelectParams sampleDevBackend CBaseChainParams.DEVNET sampleRegistry).2.deref r =
        some p ∧
      p.strNetworkID = "dev" :=
  (Params_chain_returns_profile
    (SelectParams sampleDevBackend CBaseChainParams.DEVNET sampleRegistry).2 "dev"
    (NetworkIDsIntact_run sampleDevBackend (Call.SelectParams CBaseChainParams.DEVNET)
      sampleRegistry NetworkIDsIntact_sampleRegistry)
    (by decide)
    (fun _ => by rw [SelectParams_dev_sampleDevBackend]; exact Option.some_ne_none _)).1

/-! ## Claims on the quorum override of dev -/

/-- The keys of the quorum map the dev constructor fills. -/
theorem CDevNetParams_assign_llmqs_contains (env : Backend) (devnetGenesis : CBlock)
    (t : Consensus.LLMQType) :
    (CDevNetParams_assign env devnetGenesis).consensus.llmqs.contains t = true ↔
      (t = Consensus.LLMQType.LLMQ_50_60 ∨ t = Consensus.LLMQType.LLMQ_400_60 ∨
        t = Consensus.LLMQType.LLMQ_400_85) := by
  cases t <;>
    simp [CDevNetParams_assign, Consensus.LLMQMap.contains, Consensus.LLMQMap.set,
      Consensus.LLMQMap.empty]

/-- With a dev profile in place, `UpdateDevnetLLMQChainLocks` returns and stores
the profile with `llmqChainLocks` overwritten. -/
theorem UpdateDevnetLLMQChainLocks_some (s : Registry) (d : CChainParams)
    (t : Consensus.LLMQType) (hd : s.devNetParams = some d) :
    UpdateDevnetLLMQChainLocks t s =
      (Except.ok (), { s with devNetParams := some (CDevNetParams_UpdateLLMQChainLocks d t) }) := by
  unfold UpdateDevnetLLMQChainLocks
  rw [hd]

/-- Without a dev profile, `UpdateDevnetLLMQChainLocks` fails `assert(devNetParams)`. -/
theorem UpdateDevnetLLMQChainLocks_none (s : Registry) (t : Consensus.LLMQType)
    (hd : s.devNetParams = none) :
    UpdateDevnetLLMQChainLocks t s =
      (Except.error (Failure.assertion AssertSite.devNetParamsSet), s) := by
  unfold UpdateDevnetLLMQChainLocks
  rw [hd]

/-- The state `sampleDevRegistry` is the one `SelectParams("dev")` leaves. -/
theorem sampleDevRegistry_selected :
    (SelectParams sampleDevBackend CBaseChainParams.DEVNET sampleRegistry).2 =
      sampleDevRegistry := by
  rw [SelectParams_dev_sampleDevBackend]
  rfl

/-- The member function of lines 744-746 is a bare assignment: with a dev
profile in place, `UpdateDevnetLLMQChainLocks(t)` returns for every quorum type
`t` and sets `llmqChainLocks` to `t` without looking at the `llmqs` map, which it
leaves as it is; the keys of the map the dev constructor fills are `LLMQ_50_60`,
`LLMQ_400_60` and `LLMQ_400_85`. The one failure of the call is
`assert(devNetParams)`, when no dev profile has been constructed. -/
theorem UpdateDevnetLLMQChainLocks_sets_unchecked (env : Backend) (s : Registry)
    (d : CChainParams) (t : Consensus.LLMQType) (devnetGenesis : CBlock)
    (hd : s.devNetParams = some d) :
    (UpdateDevnetLLMQChainLocks t s).1 = Except.ok () ∧
    (∃ d2, (UpdateDevnetLLMQChainLocks t s).2.devNetParams = some d2 ∧
      d2.consensus.llmqChainLocks = t ∧
      d2.consensus.llmqs = d.consensus.llmqs ∧
      (d2.consensus.llmqs.contains d2.consensus.llmqChainLocks = true ↔
        d.consensus.llmqs.contains t = true)) ∧
    ((CDevNetParams_assign env devnetGenesis).consensus.llmqs.contains t = true ↔
      (t = Consensus.LLMQType.LLMQ_50_60 ∨ t = Consensus.LLMQType.LLMQ_400_60 ∨
        t = Consensus.LLMQType.LLMQ_400_85)) ∧
    (∀ s2 : Registry, s2.devNetParams = none →
      (UpdateDevnetLLMQChainLocks t s2).1 =
        Except.error (Failure.assertion AssertSite.devNetParamsSet)) := by
  refine ⟨?_, ?_, CDevNetParams_assign_llmqs_contains env devnetGenesis t, ?_⟩
  · rw [UpdateDevnetLLMQChainLocks_some s d t hd]
  · rw [UpdateDevnetLLMQChainLocks_some s d t hd]
    exact ⟨_, rfl, rfl, rfl, Iff.rfl⟩
  · intro s2 h2
    rw [UpdateDevnetLLMQChainLocks_none s2 t h2]

/-- Thresholds are within windows in the table of main. -/
theorem CMainParams_vDeployments_threshold (d : Consensus.DeploymentPos) :
    (CMainParams_vDeployments d).nThreshold ≤ (CMainParams_vDeployments d).nWindowSize := by
  cases d <;> decide

/-- Thresholds are within windows in the table of test. -/
theorem CTestNetParams_vDeployments_threshold (d : Consensus.DeploymentPos) :
    (CTestNetParams_vDeployments d).nThreshold ≤ (CTestNetParams_vDeployments d).nWindowSize := by
  cases d <;> decide

/-- Thresholds are within windows in the table of dev. -/
theorem CDevNetParams_vDeployments_threshold (d : Consensus.DeploymentPos) :
    (CDevNetParams_vDeployments d).nThreshold ≤ (CDevNetParams_vDeployments d).nWindowSize := by
  cases d <;> decide

/-- Thresholds are within windows in the table of regtest. -/
theorem CRegTestParams_vDeployments_threshold (d : Consensus.DeploymentPos) :
    (CRegTestParams_vDeployments d).nThreshold ≤ (CRegTestParams_vDeployments d).nWindowSize := by
  cases d <;> decide

/-- C12: for every deployment identifier in each of the four profiles as
constructed, `nThreshold <= nWindowSize`; a field the constructor does not
assign holds 0. -/
theorem profiles_deployment_thresholds (env : Backend) (p : CChainParams)
    (h : CMainParams env = Except.ok p ∨ CTestNetParams env = Except.ok p ∨
      CDevNetParams env = Except.ok p ∨ CRegTestParams env = p) :
    DeploymentThresholdsWithinWindow p := by
  rcases h with h | h | h | h
  · obtain ⟨hp, _, _⟩ := CMainParams_ok env p h
    subst hp
    exact CMainParams_vDeployments_threshold
  · obtain ⟨_, nNonce, _, hp⟩ := CTestNetParams_ok env p h
    subst hp
    exact CTestNetParams_vDeployments_threshold
  · obtain ⟨_, _, devnetGenesis, _, hp⟩ := CDevNetParams_ok env p h
    subst hp
    exact CDevNetParams_vDeployments_threshold
  · subst h
    exact CRegTestParams_vDeployments_threshold

/-- Witness of C12: each of the four constructors returns under a sample
backend, and the thresholds of the profile it returns are within the windows. -/
theorem profiles_deployment_thresholds_witness :
    DeploymentThresholdsWithinWindow (CMainParams_assign sampleMainBackend) ∧
      DeploymentThresholdsWithinWindow (CTestNetParams_assign sampleMainBackend 0) ∧
      DeploymentThresholdsWithinWindow
        (CDevNetParams_assign sampleDevBackend sampleDevnetGenesis) ∧
      DeploymentThresholdsWithinWindow (CRegTestParams sampleMainBackend) :=
  ⟨profiles_deployment_thresholds sampleMainBackend _ (Or.inl CMainParams_sampleMainBackend),
   profiles_deployment_thresholds sampleMainBackend _
     (Or.inr (Or.inl CTestNetParams_sampleMainBackend)),
   profiles_deployment_thresholds sampleDevBackend _
     (Or.inr (Or.inr (Or.inl CDevNetParams_sampleDevBackend))),
   profiles_deployment_thresholds sampleMainBackend _ (Or.inr (Or.inr (Or.inr rfl)))⟩

/-- The four tables give every deployment the same bit. -/
theorem vDeployments_bits (d : Consensus.DeploymentPos) :
    (CTestNetParams_vDeployments d).bit = (CMainParams_vDeployments d).bit ∧
      (CDevNetParams_vDeployments d).bit = (CMainParams_vDeployments d).bit ∧
      (CRegTestParams_vDeployments d).bit = (CMainParams_vDeployments d).bit := by
  cases d <;> decide

/-- The bits of the table of main are in the range 0..28. -/
theorem CMainParams_vDeployments_bit_range (d : Consensus.DeploymentPos) :
    0 ≤ (CMainParams_vDeployments d).bit ∧ (CMainParams_vDeployments d).bit ≤ 28 := by
  cases d <;> decide

/-- No two distinct deployments of the table of main share a bit. -/
theorem CMainParams_vDeployments_bit_injective (d1 d2 : Consensus.DeploymentPos)
    (h : d1 ≠ d2) : (CMainParams_vDeployments d1).bit ≠ (CMainParams_vDeployments d2).bit := by
  revert h
  cases d1 <;> cases d2 <;> decide

/-- A table with the bits of the table of main has them in range and distinct. -/
theorem DeploymentBitsDistinct_of_bits (p : CChainParams)
    (h : ∀ d, (p.consensus.vDeployments d).bit = (CMainParams_vDeployments d).bit) :
    DeploymentBitsDistinct p := by
  constructor
  · intro d
    rw [h d]
    exact CMainParams_vDeployments_bit_range d
  · intro d1 d2 hne
    rw [h d1, h d2]
    exact CMainParams_vDeployments_bit_injective d1 d2 hne

/-- C13: in each of the four profiles as constructed, every signaling bit is in
the range 0..28 and no two distinct deployments share a bit; in particular two
distinct deployments whose intervals `[nStartTime, nTimeout)` overlap have
different bits. -/
theorem profiles_deployment_bits (env : Backend) (p : CChainParams)
    (h : CMainParams env = Except.ok p ∨ CTestNetParams env = Except.ok p ∨
      CDevNetParams env = Except.ok p ∨ CRegTestParams env = p) :
    DeploymentBitsDistinct p ∧
    ∀ d1 d2, d1 ≠ d2 →
      DeploymentsOverlap (p.consensus.vDeployments d1) (p.consensus.vDeployments d2) →
      (p.consensus.vDeployments d1).bit ≠ (p.consensus.vDeployments d2).bit := by
  have hbits : DeploymentBitsDistinct p := by
    rcases h with h | h | h | h
    · obtain ⟨hp, _, _⟩ := CMainParams_ok env p h
      subst hp
      exact DeploymentBitsDistinct_of_bits _ (fun d => rfl)
    · obtain ⟨_, nNonce, _, hp⟩ := CTestNetParams_ok env p h
      subst hp
      exact DeploymentBitsDistinct_of_bits _ (fun d => (vDeployments_bits d).1)
    · obtain ⟨_, _, devnetGenesis, _, hp⟩ := CDevNetParams_ok env p h
      subst hp
      exact DeploymentBitsDistinct_of_bits _ (fun d => (vDeployments_bits d).2.1)
    · subst h
      exact DeploymentBitsDistinct_of_bits _ (fun d => (vDeployments_bits d).2.2)
  exact ⟨hbits, fun d1 d2 hne _ => hbits.2 d1 d2 hne⟩

/-- Witness of C13: each of the four constructors returns under a sample
backend, and the bits of the profile it returns are in range and distinct. -/
theorem profiles_deployment_bits_witness :
    DeploymentBitsDistinct (CMainParams_assign sampleMainBackend) ∧
      DeploymentBitsDistinct (CTestNetParams_assign sampleMainBackend 0) ∧
      DeploymentBitsDistinct (CDevNetParams_assign sampleDevBackend sampleDevnetGenesis) ∧
      DeploymentBitsDistinct (CRegTestParams sampleMainBackend) :=
  ⟨(profiles_deployment_bits sampleMainBackend _ (Or.inl CMainParams_sampleMainBackend)).1,
   (profiles_deployment_bits sampleMainBackend _
     (Or.inr (Or.inl CTestNetParams_sampleMainBackend))).1,
   (profiles_deployment_bits sampleDevBackend _
     (Or.inr (Or.inr (Or.inl CDevNetParams_sampleDevBackend)))).1,
   (profiles_deployment_bits sampleMainBackend _ (Or.inr (Or.inr (Or.inr rfl)))).1⟩

/-! ## Claims on the checkpoints -/

/-- In the profiles of main, test and dev as constructed, the checkpoint heights
are strictly increasing and the checkpoint at height 0 is the genesis hash: main
and dev record a literal the constructor's `assert` has compared with the
genesis hash, test records the genesis hash itself. -/
theorem checkpoints_anchored_of_checked (env : Backend) (p : CChainParams)
    (h : CMainParams env = Except.ok p ∨ CTestNetParams env = Except.ok p ∨
      CDevNetParams env = Except.ok p) :
    CheckpointHeightsIncreasing p ∧ CheckpointZeroIsGenesis p := by
  rcases h with h | h | h
  · obtain ⟨hp, hhash, _⟩ := CMainParams_ok env p h
    subst hp
    constructor
    · show List.Pairwise (fun a b => a < b) [(0 : Int), 1, 77, 1451, 2134, 2979, 3663, 4305, 5019]
      decide
    · show some mainGenesisHash = some (env.GetHash
        (CreateGenesisBlock env 1575878400 427681 0x1e0ffff0 1 (50 * COIN) false))
      rw [hhash]
  · obtain ⟨_, nNonce, _, hp⟩ := CTestNetParams_ok env p h
    subst hp
    constructor
    · show List.Pairwise (fun a b => a < b) [(0 : Int)]
      decide
    · rfl
  · obtain ⟨hhash, _, devnetGenesis, _, hp⟩ := CDevNetParams_ok env p h
    subst hp
    constructor
    · show List.Pairwise (fun a b => a < b) [(0 : Int), 1]
      decide
    · show some devGenesisHash = some (env.GetHash (devBaseGenesis env))
      rw [hhash]

/-- The checkpoint at height 0 of regtest is the literal of line 858, and it is
the genesis hash of regtest exactly when the comparison of the commented-out
`assert` of line 834 holds. -/
theorem CRegTestParams_checkpoint_zero (env : Backend) :
    (CRegTestParams env).checkpointData.lookup 0 = some devGenesisHash ∧
    (CheckpointZeroIsGenesis (CRegTestParams env) ↔
      env.GetHash (CreateGenesisBlock env 1417713337 1096447 0x207fffff 1 (50 * COIN) false) =
        devGenesisHash) := by
  refine ⟨rfl, ?_⟩
  show some devGenesisHash = some (env.GetHash
      (CreateGenesisBlock env 1417713337 1096447 0x207fffff 1 (50 * COIN) false)) ↔ _
  constructor
  · intro h
    exact (Option.some.inj h).symm
  · intro h
    rw [h]

/-- C14, at the failing input: the regtest constructor records the literal
`0x000008ca...3d2e` as the checkpoint at height 0 and never compares it with the
genesis hash it computes (the `assert`s are commented out); the heights are
strictly increasing, but the checkpoint equals `consensus.hashGenesisBlock` only
for a backend under which the commented-out comparison holds, and under a
backend under which main's `assert`s hold it does not. -/
theorem CRegTestParams_checkpoint_zero_unchecked :
    (∀ env : Backend, CheckpointHeightsIncreasing (CRegTestParams env)) ∧
    (∀ env : Backend,
      (CheckpointZeroIsGenesis (CRegTestParams env) ↔
        env.GetHash
          (CreateGenesisBlock env 1417713337 1096447 0x207fffff 1 (50 * COIN) false) =
          devGenesisHash)) ∧
    (CRegTestParams sampleMainBackend).checkpointData.lookup 0 = some devGenesisHash ∧
    (CRegTestParams sampleMainBackend).consensus.hashGenesisBlock = mainGenesisHash ∧
    ¬ CheckpointZeroIsGenesis (CRegTestParams sampleMainBackend) := by
  refine ⟨?_, fun env => (CRegTestParams_checkpoint_zero env).2, rfl, rfl, ?_⟩
  · intro env
    show List.Pairwise (fun a b => a < b) [(0 : Int)]
    decide
  · rw [(CRegTestParams_checkpoint_zero sampleMainBackend).2]
    show mainGenesisHash ≠ devGenesisHash
    decide

/-! ## Claims on the regtest overrides -/

/-- `SelectParams("regtest")` always returns, and changes `pCurrentParams` only. -/
theorem SelectParams_regtest (env : Backend) (s : Registry) :
    SelectParams env CBaseChainParams.REGTEST s =
      (Except.ok (), { s with pCurrentParams := some ChainRef.regTestParams }) := by
  rw [SelectParams_not_dev env s CBaseChainParams.REGTEST (by decide)]
  rfl

/-- C15: `SelectParams("regtest")` returns and makes the regtest profile active;
then `UpdateRegtestDIP3Parameters(a, e)` returns, the regtest profile becomes the
old one with `DIP0003Height` set to `a` and `DIP0003EnforcementHeight` set to `e`
and nothing else changed (so all six deployments are as before), the main, test
and dev profiles are as before, and `Params()` returns the reference to the
updated regtest profile. -/
theorem UpdateRegtestDIP3Parameters_frame (env : Backend) (s0 : Registry) (a e : Int) :
    (SelectParams env CBaseChainParams.REGTEST s0).1 = Except.ok () ∧
    (UpdateRegtestDIP3Parameters a e (SelectParams env CBaseChainParams.REGTEST s0).2).1 =
      Except.ok () ∧
    (UpdateRegtestDIP3Parameters a e (SelectParams env CBaseChainParams.REGTEST s0).2).2 =
      { s0 with
        regTestParams :=
          { s0.regTestParams with
            consensus :=
              { s0.regTestParams.consensus with
                DIP0003Height := a, DIP0003EnforcementHeight := e } }
        pCurrentParams := some ChainRef.regTestParams } ∧
    (UpdateRegtestDIP3Parameters a e
      (SelectParams env CBaseChainParams.REGTEST s0).2).2.regTestParams.consensus.vDeployments =
      s0.regTestParams.consensus.vDeployments ∧
    (UpdateRegtestDIP3Parameters a e
      (SelectParams env CBaseChainParams.REGTEST s0).2).2.mainParams = s0.mainParams ∧
    (UpdateRegtestDIP3Parameters a e
      (SelectParams env CBaseChainParams.REGTEST s0).2).2.testNetParams = s0.testNetParams ∧
    (UpdateRegtestDIP3Parameters a e
      (SelectParams env CBaseChainParams.REGTEST s0).2).2.devNetParams = s0.devNetParams ∧
    ∃ p,
      Params (UpdateRegtestDIP3Parameters a e
        (SelectParams env CBaseChainParams.REGTEST s0).2).2 =
        Except.ok ChainRef.regTestParams ∧
      (UpdateRegtestDIP3Parameters a e
        (SelectParams env CBaseChainParams.REGTEST s0).2).2.deref ChainRef.regTestParams =
        some p ∧
      p.consensus.DIP0003Height = a ∧ p.consensus.DIP0003EnforcementHeight = e ∧
      p.strNetworkID = s0.regTestParams.strNetworkID := by
  rw [SelectParams_regtest]
  exact ⟨rfl, rfl, rfl, rfl, rfl, rfl, rfl, _, rfl, rfl, rfl, rfl, rfl⟩

/-- C16: `UpdateRegtestBIP9Parameters(d, s, t, w, h)` returns; in the regtest
profile deployment `d` gets `nStartTime = s` and `nTimeout = t`, gets
`nWindowSize = w` exactly when `w != -1` and `nThreshold = h` exactly when
`h != -1` (each keeps its previous value otherwise) and keeps its bit; every other
deployment of regtest, every other field of the regtest profile, and the main,
test and dev profiles with all their deployments are as before. -/
theorem UpdateRegtestBIP9Parameters_frame (st : Registry) (d : Consensus.DeploymentPos)
    (s t w h : Int) :
    (UpdateRegtestBIP9Parameters d s t w h st).1 = Except.ok () ∧
    ((UpdateRegtestBIP9Parameters d s t w h st).2.regTestParams.consensus.vDeployments d) =
      { bit := (st.regTestParams.consensus.vDeployments d).bit
        nStartTime := s
        nTimeout := t
        nWindowSize :=
          if w = -1 then (st.regTestParams.consensus.vDeployments d).nWindowSize else w
        nThreshold :=
          if h = -1 then (st.regTestParams.consensus.vDeployments d).nThreshold else h } ∧
    (∀ d2, d2 ≠ d →
      (UpdateRegtestBIP9Parameters d s t w h st).2.regTestParams.consensus.vDeployments d2 =
        st.regTestParams.consensus.vDeployments d2) ∧
    (UpdateRegtestBIP9Parameters d s t w h st).2.regTestParams =
      { st.regTestParams with
        consensus :=
          { st.regTestParams.consensus with
            vDeployments :=
              (UpdateRegtestBIP9Parameters d s t w h
                st).2.regTestParams.consensus.vDeployments } } ∧
    (UpdateRegtestBIP9Parameters d s t w h st).2.mainParams = st.mainParams ∧
    (UpdateRegtestBIP9Parameters d s t w h st).2.testNetParams = st.testNetParams ∧
    (UpdateRegtestBIP9Parameters d s t w h st).2.devNetParams = st.devNetParams ∧
    (UpdateRegtestBIP9Parameters d s t w h st).2.pCurrentParams = st.pCurrentParams := by
  refine ⟨rfl, ?_, ?_, rfl, rfl, rfl, rfl, rfl⟩
  · show Function.update st.regTestParams.consensus.vDeployments d _ d = _
    rw [Function.update_same]
    by_cases hw : w = -1 <;> by_cases hh : h = -1 <;> simp [hw, hh]
  · intro d2 hne
    show Function.update st.regTestParams.consensus.vDeployments d _ d2 = _
    rw [Function.update_noteq hne]

/-- Witness of C16: a call on `DEPLOYMENT_DIP0003` with a window and no
threshold leaves `DEPLOYMENT_CSV` of regtest as it was. -/
theorem UpdateRegtestBIP9Parameters_frame_witness :
    (UpdateRegtestBIP9Parameters Consensus.DeploymentPos.DEPLOYMENT_DIP0003 5 10 144 (-1)
        sampleRegistry).2.regTestParams.consensus.vDeployments
        Consensus.DeploymentPos.DEPLOYMENT_CSV =
      sampleRegistry.regTestParams.consensus.vDeployments
        Consensus.DeploymentPos.DEPLOYMENT_CSV :=
  (UpdateRegtestBIP9Parameters_frame sampleRegistry
    Consensus.DeploymentPos.DEPLOYMENT_DIP0003 5 10 144 (-1)).2.2.1
    Consensus.DeploymentPos.DEPLOYMENT_CSV (by decide)

/-- One `UpdateBIP9Parameters` that passes no window and no threshold, or both
with the threshold within the window, keeps the thresholds within the windows. -/
theorem CRegTestParams_UpdateBIP9Parameters_keeps (p : CChainParams) (u : BIP9Update)
    (hp : DeploymentThresholdsWithinWindow p) (hu : u.keepsThreshold) :
    DeploymentThresholdsWithinWindow
      (CRegTestParams_UpdateBIP9Parameters p u.d u.nStartTime u.nTimeout u.nWindowSize
        u.nThreshold) := by
  intro d
  show (Function.update p.consensus.vDeployments u.d _ d).nThreshold ≤
    (Function.update p.consensus.vDeployments u.d _ d).nWindowSize
  by_cases hd : d = u.d
  · subst hd
    rw [Function.update_same]
    rcases hu with ⟨hw, hh⟩ | ⟨hw, hh, hle⟩
    · simp only [hw, hh, ne_eq, not_true_eq_false, if_false]
      exact hp u.d
    · simp only [ne_eq, hw, hh, not_false_eq_true, if_true]
      exact hle
  · rw [Function.update_noteq hd]
    exact hp d

/-- C17, as stated, fails: from the constructed regtest profile, where every
threshold is within its window, the single call
`UpdateRegtestBIP9Parameters(DEPLOYMENT_DIP0003, 0, 999999999999, 10, 20)` leaves
`nThreshold = 20` above `nWindowSize = 10`. -/
theorem applyBIP9Updates_breaks_threshold :
    DeploymentThresholdsWithinWindow sampleRegistry.regTestParams ∧
    ((applyBIP9Updates sampleRegistry
        [{ d := Consensus.DeploymentPos.DEPLOYMENT_DIP0003, nStartTime := 0,
           nTimeout := 999999999999, nWindowSize := 10, nThreshold := 20 }]
      ).regTestParams.consensus.vDeployments
        Consensus.DeploymentPos.DEPLOYMENT_DIP0003).nThreshold = 20 ∧
    ((applyBIP9Updates sampleRegistry
        [{ d := Consensus.DeploymentPos.DEPLOYMENT_DIP0003, nStartTime := 0,
           nTimeout := 999999999999, nWindowSize := 10, nThreshold := 20 }]
      ).regTestParams.consensus.vDeployments
        Consensus.DeploymentPos.DEPLOYMENT_DIP0003).nWindowSize = 10 ∧
    ¬ DeploymentThresholdsWithinWindow
      (applyBIP9Updates sampleRegistry
        [{ d := Consensus.DeploymentPos.DEPLOYMENT_DIP0003, nStartTime := 0,
           nTimeout := 999999999999, nWindowSize := 10, nThreshold := 20 }]).regTestParams := by
  refine ⟨CRegTestParams_vDeployments_threshold, rfl, rfl, ?_⟩
  intro hall
  have h := hall Consensus.DeploymentPos.DEPLOYMENT_DIP0003
  have h2 : ¬ ((20 : Int) ≤ 10) := by decide
  exact h2 h

/-- C17, amended: `nThreshold <= nWindowSize` holds for every regtest deployment
after any sequence of `UpdateRegtestBIP9Parameters` calls each of which passes -1
for both the window and the threshold or passes both with the threshold within
the window, starting from a profile where it holds, as the constructed one; the
function does not check its arguments. -/
theorem applyBIP9Updates_keeps_threshold (s : Registry) (us : List BIP9Update)
    (hs : DeploymentThresholdsWithinWindow s.regTestParams)
    (hus : ∀ u ∈ us, u.keepsThreshold) :
    DeploymentThresholdsWithinWindow (applyBIP9Updates s us).regTestParams ∧
    ∀ env : Backend, DeploymentThresholdsWithinWindow (CRegTestParams env) := by
  refine ⟨?_, fun env => CRegTestParams_vDeployments_threshold⟩
  induction us generalizing s with
  | nil => exact hs
  | cons u us ih =>
    apply ih
    · exact CRegTestParams_UpdateBIP9Parameters_keeps s.regTestParams u hs
        (hus u (List.mem_cons_self u us))
    · intro v hv
      exact hus v (List.mem_cons_of_mem u hv)

/-- Witness of C17, amended: a call that sets window 100 and threshold 50 and a
call that sets neither keep every threshold of regtest within its window. -/
theorem applyBIP9Updates_keeps_threshold_witness :
    DeploymentThresholdsWithinWindow
      (applyBIP9Updates sampleRegistry
        [{ d := Consensus.DeploymentPos.DEPLOYMENT_DIP0003, nStartTime := 0,
           nTimeout := 999999999999, nWindowSize := 100, nThreshold := 50 },
         { d := Consensus.DeploymentPos.DEPLOYMENT_CSV, nStartTime := 5,
           nTimeout := 10, nWindowSize := -1, nThreshold := -1 }]).regTestParams :=
  (applyBIP9Updates_keeps_threshold sampleRegistry _ CRegTestParams_vDeployments_threshold
    (fun u hu => by
      simp only [List.mem_cons, List.mem_singleton, List.mem_nil_iff, or_false] at hu
      rcases hu with rfl | rfl
      · exact Or.inr ⟨by decide, by decide, by decide⟩
      · exact Or.inl ⟨rfl, rfl⟩)).1

/-! ## Claims on the genesis builder -/

/-- C18: the Merkle root of the block `CreateGenesisBlock` builds is the root over
its sole coinbase transaction, which the message, the output script and the
reward determine: two calls that differ in `nTime`, `nNonce`, `nBits` or
`nVersion` only return the same `hashMerkleRoot` and the same sole transaction.
The same holds of the overload that takes `fTestnet`. -/
theorem CreateGenesisBlock_root_of_coinbase (env : Backend) (pszTimestamp : String)
    (genesisOutputScript : CScript) (genesisReward : CAmount) (nTime nNonce nBits : Nat)
    (nVersion : Int) (nTime2 nNonce2 nBits2 : Nat) (nVersion2 : Int) (fTestnet : Bool) :
    (CreateGenesisBlock_script env pszTimestamp genesisOutputScript nTime nNonce nBits nVersion
        genesisReward).hashMerkleRoot =
      (CreateGenesisBlock_script env pszTimestamp genesisOutputScript nTime2 nNonce2 nBits2
        nVersion2 genesisReward).hashMerkleRoot ∧
    (CreateGenesisBlock_script env pszTimestamp genesisOutputScript nTime nNonce nBits nVersion
        genesisReward).vtx =
      (CreateGenesisBlock_script env pszTimestamp genesisOutputScript nTime2 nNonce2 nBits2
        nVersion2 genesisReward).vtx ∧
    (CreateGenesisBlock_script env pszTimestamp genesisOutputScript nTime nNonce nBits nVersion
        genesisReward).hashMerkleRoot =
      env.ComputeMerkleRoot
        (CreateGenesisBlock_script env pszTimestamp genesisOutputScript nTime nNonce nBits
          nVersion genesisReward).vtx ∧
    (CreateGenesisBlock_script env pszTimestamp genesisOutputScript nTime nNonce nBits nVersion
        genesisReward).vtx.length = 1 ∧
    (CreateGenesisBlock env nTime nNonce nBits nVersion genesisReward fTestnet).hashMerkleRoot =
      (CreateGenesisBlock env nTime2 nNonce2 nBits2 nVersion2 genesisReward
        fTestnet).hashMerkleRoot ∧
    (CreateGenesisBlock env nTime nNonce nBits nVersion genesisReward fTestnet).vtx =
      (CreateGenesisBlock env nTime2 nNonce2 nBits2 nVersion2 genesisReward fTestnet).vtx :=
  ⟨rfl, rfl, rfl, rfl, rfl, rfl⟩

/-- C19: `CreateGenesisBlock` returns a block whose header carries the given
`nTime`, `nBits`, `nNonce` and `nVersion` and a null previous-block hash, and
whose transactions are exactly one transaction of version 1 with exactly one
input, of null previous output and `scriptSig` = push of 486604799, push of the
script number 4, push of the message bytes, and exactly one output, of `nValue`
the reward and `scriptPubKey` the given script. -/
theorem CreateGenesisBlock_contents (env : Backend) (pszTimestamp : String)
    (genesisOutputScript : CScript) (nTime nNonce nBits : Nat) (nVersion : Int)
    (genesisReward : CAmount) :
    (CreateGenesisBlock_script env pszTimestamp genesisOutputScript nTime nNonce nBits nVersion
        genesisReward).nTime = nTime ∧
    (CreateGenesisBlock_script env pszTimestamp genesisOutputScript nTime nNonce nBits nVersion
        genesisReward).nBits = nBits ∧
    (CreateGenesisBlock_script env pszTimestamp genesisOutputScript nTime nNonce nBits nVersion
        genesisReward).nNonce = nNonce ∧
    (CreateGenesisBlock_script env pszTimestamp genesisOutputScript nTime nNonce nBits nVersion
        genesisReward).nVersion = nVersion ∧
    (CreateGenesisBlock_script env pszTimestamp genesisOutputScript nTime nNonce nBits nVersion
        genesisReward).hashPrevBlock = 0 ∧
    (CreateGenesisBlock_script env pszTimestamp genesisOutputScript nTime nNonce nBits nVersion
        genesisReward).vtx =
      [{ nVersion := 1
         vin :=
           [{ prevout := { hash := 0, n := 4294967295 }
              scriptSig :=
                [ScriptElem.pushInt 486604799, ScriptElem.pushScriptNum 4,
                 ScriptElem.pushData (strBytes pszTimestamp)]
              nSequence := 4294967295 }]
         vout := [{ nValue := genesisReward, scriptPubKey := genesisOutputScript }]
         nLockTime := 0 }] :=
  ⟨rfl, rfl, rfl, rfl, rfl, rfl⟩

/-! ## Claims on the genesis mining of test -/

/-- What the mining loop of the test constructor leaves when it ends: the block
it stops at has a hash within powLimit, and either the loop body never ran and
the state is the initial one, or the first test failed and the block is the one
built at the final nonce. -/
theorem CTestNetParams_loop_spec (env : Backend) :
    ∀ (fuel : Nat) (genesis : CBlock) (nNonce : Nat) (g : CBlock) (n : Nat),
      CTestNetParams_loop env fuel genesis nNonce = some (g, n) →
      env.GetHash g ≤ testPowLimit ∧
      ((g = genesis ∧ n = nNonce ∧ env.GetHash genesis ≤ testPowLimit) ∨
        (testPowLimit < env.GetHash genesis ∧
          g = CreateGenesisBlock env 1573325000 n 0x1f00ffff 1 (0 * COIN) true)) := by
  intro fuel
  induction fuel with
  | zero =>
    intro genesis nNonce g n h
    simp [CTestNetParams_loop] at h
  | succ fuel ih =>
    intro genesis nNonce g n h
    rw [CTestNetParams_loop] at h
    by_cases hgt : env.GetHash genesis > testPowLimit
    · rw [if_pos hgt] at h
      obtain ⟨hle, hor⟩ := ih _ _ g n h
      refine ⟨hle, Or.inr ⟨hgt, ?_⟩⟩
      rcases hor with ⟨hg, hn, _⟩ | ⟨_, hg⟩
      · rw [hg, hn]
      · exact hg
    · rw [if_neg hgt] at h
      cases h
      exact ⟨Nat.le_of_not_lt hgt, Or.inl ⟨rfl, rfl, Nat.le_of_not_lt hgt⟩⟩

/-- The compact target of the difficulty bits of the test genesis, and its place
below the powLimit of test. -/
theorem SetCompact_test :
    SetCompact 0x1f00ffff =
        0x0000ffff00000000000000000000000000000000000000000000000000000000 ∧
      SetCompact 0x1f00ffff < testPowLimit := by
  decide

/-- Under `gapBackend` the mining loop of the test constructor ends at nonce 1. -/
theorem CTestNetParams_gapBackend :
    CTestNetParams gapBackend = Except.ok (CTestNetParams_assign gapBackend 1) := by
  rfl

/-- C20, as stated, fails: under a hash that lies between the target of the bits
`0x1f00ffff` and powLimit, the mining loop of the test constructor runs, ends at
nonce 1, and the hash of the resulting genesis block is above the target its own
bits encode. -/
theorem CTestNetParams_genesis_above_bits_target :
    CTestNetParams gapBackend = Except.ok (CTestNetParams_assign gapBackend 1) ∧
    (CTestNetParams_assign gapBackend 1).genesis.nBits = 0x1f00ffff ∧
    gapBackend.GetHash (CTestNetParams_assign gapBackend 1).genesis ≤ testPowLimit ∧
    SetCompact (CTestNetParams_assign gapBackend 1).genesis.nBits <
      gapBackend.GetHash (CTestNetParams_assign gapBackend 1).genesis ∧
    ¬ gapBackend.GetHash (CTestNetParams_assign gapBackend 1).genesis ≤
      0x0000ffff00000000000000000000000000000000000000000000000000000000 := by
  refine ⟨CTestNetParams_gapBackend, rfl, ?_, ?_, ?_⟩ <;> decide

/-- C20, amended: when the test constructor returns and the body of its mining
loop has run (the null block the loop first tests is above powLimit), the hash of
the resulting genesis block is at most the powLimit of the test profile, which
is what the loop compares with; the block carries the bits `0x1f00ffff`, whose
target `0x0000ffff00...00` is below powLimit. -/
theorem CTestNetParams_genesis_within_powLimit (env : Backend) (p : CChainParams)
    (h : CTestNetParams env = Except.ok p) (hran : testPowLimit < env.GetHash {}) :
    env.GetHash p.genesis ≤ p.consensus.powLimit ∧
    p.consensus.hashGenesisBlock ≤ p.consensus.powLimit ∧
    p.consensus.powLimit =
      0x0000fffff0000000000000000000000000000000000000000000000000000000 ∧
    p.genesis.nBits = 0x1f00ffff ∧
    SetCompact p.genesis.nBits < p.consensus.powLimit := by
  obtain ⟨g, n, hloop, hp⟩ := CTestNetParams_ok env p h
  obtain ⟨hle, hor⟩ := CTestNetParams_loop_spec env _ _ _ g n hloop
  have hg : g = CreateGenesisBlock env 1573325000 n 0x1f00ffff 1 (0 * COIN) true := by
    rcases hor with ⟨_, _, hnull⟩ | ⟨_, hg⟩
    · exact absurd hnull (Nat.not_le.mpr hran)
    · exact hg
  subst hp
  have hgen : (CTestNetParams_assign env n).genesis = g := by rw [hg]; rfl
  have hhash : env.GetHash (CTestNetParams_assign env n).genesis ≤ testPowLimit := by
    rw [hgen]
    exact hle
  exact ⟨hhash, hhash, rfl, rfl, SetCompact_test.2⟩

/-- Witness of C20, amended: under `gapBackend` the loop body runs, the
constructor returns, and the genesis hash is within powLimit. -/
theorem CTestNetParams_genesis_within_powLimit_witness :
    testPowLimit < gapBackend.GetHash {} ∧
    gapBackend.GetHash (CTestNetParams_assign gapBackend 1).genesis ≤
      (CTestNetParams_assign gapBackend 1).consensus.powLimit :=
  have hran : testPowLimit < gapBackend.GetHash {} := by decide
  ⟨hran, (CTestNetParams_genesis_within_powLimit gapBackend _ CTestNetParams_gapBackend hran).1⟩

/-! ## Claims on re-selection and on the subsidy override -/

/-- `SelectParams("main")` always returns, and changes `pCurrentParams` only. -/
theorem SelectParams_main (env : Backend) (s : Registry) :
    SelectParams env CBaseChainParams.MAIN s =
      (Except.ok (), { s with pCurrentParams := some ChainRef.mainParams }) := by
  rw [SelectParams_not_dev env s CBaseChainParams.MAIN (by decide)]
  rfl

/-- `SelectParams("test")` always returns, and changes `pCurrentParams` only. -/
theorem SelectParams_test (env : Backend) (s : Registry) :
    SelectParams env CBaseChainParams.TESTNET s =
      (Except.ok (), { s with pCurrentParams := some ChainRef.testNetParams }) := by
  rw [SelectParams_not_dev env s CBaseChainParams.TESTNET (by decide)]
  rfl

/-- C21, as stated, fails: after `SelectParams("main")` has returned, `Params()`
returns the main profile; a later `SelectParams("test")` returns too, and then
`Params()` returns the test profile. -/
theorem SelectParams_reselects :
    (SelectParams sampleMainBackend "main" sampleRegistry).1 = Except.ok () ∧
    Params (SelectParams sampleMainBackend "main" sampleRegistry).2 =
      Except.ok ChainRef.mainParams ∧
    (SelectParams sampleMainBackend "test"
      (SelectParams sampleMainBackend "main" sampleRegistry).2).1 = Except.ok () ∧
    Params (SelectParams sampleMainBackend "test"
      (SelectParams sampleMainBackend "main" sampleRegistry).2).2 =
      Except.ok ChainRef.testNetParams ∧
    Params (SelectParams sampleMainBackend "test"
      (SelectParams sampleMainBackend "main" sampleRegistry).2).2 ≠
      Params (SelectParams sampleMainBackend "main" sampleRegistry).2 := by
  refine ⟨rfl, rfl, rfl, rfl, ?_⟩
  intro h
  have h1 : Params (SelectParams sampleMainBackend "test"
      (SelectParams sampleMainBackend "main" sampleRegistry).2).2 =
      Except.ok ChainRef.testNetParams := rfl
  have h2 : Params (SelectParams sampleMainBackend "main" sampleRegistry).2 =
      Except.ok ChainRef.mainParams := rfl
  rw [h1, h2] at h
  cases h

/-- C21, amended: `SelectParams` does not guard against a second selection. In a
state with a profile selected, a later `SelectParams(b)` that returns makes
`Params()` return the profile whose `strNetworkID` is `b`; one that fails leaves
the state, and so what `Params()` returns, as it was; and after either,
`pCurrentParams` is still set. -/
theorem SelectParams_again (env : Backend) (s : Registry) (b : String) (r0 : ChainRef)
    (hsel : s.pCurrentParams = some r0) (hwf : NetworkIDsIntact s) :
    ((SelectParams env b s).1 = Except.ok () →
      ∃ r p, Params (SelectParams env b s).2 = Except.ok r ∧
        (SelectParams env b s).2.deref r = some p ∧ p.strNetworkID = b) ∧
    (∀ e, (SelectParams env b s).1 = Except.error e →
      (SelectParams env b s).2 = s ∧ Params (SelectParams env b s).2 = Except.ok r0) ∧
    (SelectParams env b s).2.pCurrentParams ≠ none := by
  have hP : Params s = Except.ok r0 := by
    unfold Params
    rw [hsel]
  refine ⟨?_, ?_, ?_⟩
  · intro hok
    obtain ⟨_, r, hp, hcur, _⟩ := SelectParams_ok env s b hok
    have hwf2 : NetworkIDsIntact (SelectParams env b s).2 :=
      NetworkIDsIntact_run env (Call.SelectParams b) s hwf
    obtain ⟨p, hderef, hid⟩ := Params_chain_deref (SelectParams env b s).2 b r hwf2 hp
    refine ⟨r, p, ?_, hderef, hid⟩
    unfold Params
    rw [hcur]
  · intro e he
    rw [SelectParams_failed env s b e he]
    exact ⟨rfl, hP⟩
  · cases hr : (SelectParams env b s).1 with
    | error e =>
      rw [SelectParams_failed env s b e hr, hsel]
      exact Option.some_ne_none r0
    | ok u =>
      obtain ⟨_, r, _, hcur, _⟩ := SelectParams_ok env s b hr
      rw [hcur]
      exact Option.some_ne_none r

/-- Witness of C21, amended: with main selected, `SelectParams("regtest")`
returns and `Params()` then returns the regtest profile. -/
theorem SelectParams_again_witness :
    ∃ r p,
      Params (SelectParams sampleMainBackend "regtest"
        (SelectParams sampleMainBackend "main" sampleRegistry).2).2 = Except.ok r ∧
      (SelectParams sampleMainBackend "regtest"
        (SelectParams sampleMainBackend "main" sampleRegistry).2).2.deref r = some p ∧
      p.strNetworkID = "regtest" :=
  (SelectParams_again sampleMainBackend (SelectParams sampleMainBackend "main" sampleRegistry).2
    "regtest" ChainRef.mainParams rfl
    (NetworkIDsIntact_run sampleMainBackend (Call.SelectParams "main") sampleRegistry
      NetworkIDsIntact_sampleRegistry)).1 rfl

/-- C22: `UpdateDevnetSubsidyAndDiffParams(m, b, f)` fails `assert(devNetParams)`,
leaving the state as it was, when no dev profile has been constructed; otherwise
it returns and the dev profile becomes the old one with
`nMinimumDifficultyBlocks = m`, `nHighSubsidyBlocks = b`, `nHighSubsidyFactor = f`
and nothing else changed, the main, test and regtest profiles and
`pCurrentParams` being as before. -/
theorem UpdateDevnetSubsidyAndDiffParams_frame (s : Registry) (m b f : Int) :
    (s.devNetParams = none →
      UpdateDevnetSubsidyAndDiffParams m b f s =
        (Except.error (Failure.assertion AssertSite.devNetParamsSet), s)) ∧
    (∀ d, s.devNetParams = some d →
      UpdateDevnetSubsidyAndDiffParams m b f s =
        (Except.ok (),
          { s with
            devNetParams :=
              some { d with
                consensus :=
                  { d.consensus with
                    nMinimumDifficultyBlocks := m
                    nHighSubsidyBlocks := b
                    nHighSubsidyFactor := f } } }) ∧
      (UpdateDevnetSubsidyAndDiffParams m b f s).2.mainParams = s.mainParams ∧
      (UpdateDevnetSubsidyAndDiffParams m b f s).2.testNetParams = s.testNetParams ∧
      (UpdateDevnetSubsidyAndDiffParams m b f s).2.regTestParams = s.regTestParams ∧
      (UpdateDevnetSubsidyAndDiffParams m b f s).2.pCurrentParams = s.pCurrentParams) := by
  constructor
  · intro hd
    unfold UpdateDevnetSubsidyAndDiffParams
    rw [hd]
  · intro d hd
    have heq : UpdateDevnetSubsidyAndDiffParams m b f s =
        (Except.ok (),
          { s with
            devNetParams :=
              some { d with
                consensus :=
                  { d.consensus with
                    nMinimumDifficultyBlocks := m
                    nHighSubsidyBlocks := b
                    nHighSubsidyFactor := f } } }) := by
      unfold UpdateDevnetSubsidyAndDiffParams
      rw [hd]
      rfl
    rw [heq]
    exact ⟨rfl, rfl, rfl, rfl, rfl⟩

/-- Witness of C22: before any selection the call fails its `assert`; with the
dev profile constructed it returns and stores the three values. -/
theorem UpdateDevnetSubsidyAndDiffParams_frame_witness :
    UpdateDevnetSubsidyAndDiffParams 1000 500 10 sampleRegistry =
        (Except.error (Failure.assertion AssertSite.devNetParamsSet), sampleRegistry) ∧
    (UpdateDevnetSubsidyAndDiffParams 1000 500 10 sampleDevRegistry).2.mainParams =
      sampleDevRegistry.mainParams :=
  ⟨(UpdateDevnetSubsidyAndDiffParams_frame sampleRegistry 1000 500 10).1 rfl,
   ((UpdateDevnetSubsidyAndDiffParams_frame sampleDevRegistry 1000 500 10).2
     (CDevNetParams_assign sampleDevBackend sampleDevnetGenesis) rfl).2.1⟩

/-! ## Claims on the devnet genesis and on the builders -/

/-- When the devnet builder returns, the block is the one lines 53-69 assemble. -/
theorem CreateDevNetGenesisBlock_ok (env : Backend) (prevBlockHash : uint256)
    (devNetName : String) (nTime nNonce nBits : Nat) (reward : CAmount) (block : CBlock)
    (h : CreateDevNetGenesisBlock env prevBlockHash devNetName nTime nNonce nBits reward =
      Except.ok block) :
    devNetName.data ≠ [] ∧
    block.nVersion = 4 ∧ block.hashPrevBlock = prevBlockHash ∧ block.nTime = nTime ∧
    block.nBits = nBits ∧ block.nNonce = nNonce ∧
    block.vtx =
      [{ nVersion := 1
         vin := [{ scriptSig := [ScriptElem.pushInt 1,
                                 ScriptElem.pushData (strBytes devNetName)] }]
         vout := [{ nValue := reward,
                    scriptPubKey := [ScriptElem.pushOp opcodetype.OP_RETURN] }] }] ∧
    block.hashMerkleRoot = env.ComputeMerkleRoot block.vtx := by
  unfold CreateDevNetGenesisBlock at h
  split at h
  · cases h
  · rename_i hne
    cases h
    exact ⟨hne, rfl, rfl, rfl, rfl, rfl, rfl, rfl⟩

/-- C23: in the dev profile as constructed, the devnet genesis chains from the
base genesis: its previous-block hash is `consensus.hashGenesisBlock`, its time
is the base genesis time plus 1, its bits are the base genesis bits, its version
is 4, its sole transaction has the sole output of the reward (50 coins) to an
`OP_RETURN` script, `consensus.hashDevnetGenesisBlock` is its hash, and the
checkpoint at height 1 is that hash. -/
theorem CDevNetParams_devnetGenesis_chains (env : Backend) (p : CChainParams)
    (h : CDevNetParams env = Except.ok p) :
    p.devnetGenesis.hashPrevBlock = p.consensus.hashGenesisBlock ∧
    p.devnetGenesis.nTime = p.genesis.nTime + 1 ∧
    p.devnetGenesis.nBits = p.genesis.nBits ∧
    p.devnetGenesis.nVersion = 4 ∧
    (∃ tx, p.devnetGenesis.vtx = [tx] ∧
      tx.vout = [{ nValue := 50 * COIN,
                   scriptPubKey := [ScriptElem.pushOp opcodetype.OP_RETURN] }]) ∧
    p.consensus.hashDevnetGenesisBlock = env.GetHash p.devnetGenesis ∧
    p.checkpointData.lookup 1 = some (env.GetHash p.devnetGenesis) := by
  obtain ⟨_, _, devnetGenesis, hfind, hp⟩ := CDevNetParams_ok env p h
  obtain ⟨candidate, hc, hl⟩ :=
    FindDevNetGenesisBlock_ok env (devBaseGenesis env) (50 * COIN) devnetGenesis hfind
  have hspec := FindDevNetGenesisBlock_loop_spec env (SetCompact candidate.nBits)
    (UINT32_MAX - 0) candidate 0 rfl
  rw [hl] at hspec
  obtain ⟨m, _, _, hm3, _, _⟩ := hspec
  obtain ⟨_, hver, hprev, htime, hbits, _, hvtx, _⟩ :=
    CreateDevNetGenesisBlock_ok env _ _ _ _ _ _ candidate hc
  subst hp
  subst hm3
  refine ⟨hprev, ?_, hbits, hver, ⟨_, hvtx, rfl⟩, rfl, rfl⟩
  have hbase : (devBaseGenesis env).nTime = 1417713337 := rfl
  show candidate.nTime = 1417713337 + 1
  rw [htime, hbase]
  norm_num

/-- Witness of C23: under `sampleDevBackend` the dev constructor returns, and
the devnet genesis of its profile has the base genesis hash as previous hash. -/
theorem CDevNetParams_devnetGenesis_chains_witness :
    (CDevNetParams_assign sampleDevBackend sampleDevnetGenesis).devnetGenesis.hashPrevBlock =
      (CDevNetParams_assign sampleDevBackend sampleDevnetGenesis).consensus.hashGenesisBlock :=
  (CDevNetParams_devnetGenesis_chains sampleDevBackend _ CDevNetParams_sampleDevBackend).1

/-- C24: the genesis builders have no failure on non-empty input.
`CreateGenesisBlock` has no `assert` and no `throw`: it is a total function, and
for every input, an empty message and script included, its value is a block
with one transaction. `CreateDevNetGenesisBlock` returns a block for every
non-empty devnet name, and fails, at its `assert`, exactly when the name is
empty. -/
theorem genesis_builders_total (env : Backend) (pszTimestamp : String)
    (genesisOutputScript : CScript) (prevBlockHash : uint256) (devNetName : String)
    (nTime nNonce nBits : Nat) (nVersion : Int) (reward : CAmount) (fTestnet : Bool) :
    (∃ block : CBlock,
      CreateGenesisBlock_script env pszTimestamp genesisOutputScript nTime nNonce nBits nVersion
        reward = block ∧ block.vtx.length = 1) ∧
    (∃ block : CBlock,
      CreateGenesisBlock env nTime nNonce nBits nVersion reward fTestnet = block ∧
        block.vtx.length = 1) ∧
    (devNetName.data ≠ [] →
      ∃ block, CreateDevNetGenesisBlock env prevBlockHash devNetName nTime nNonce nBits reward =
        Except.ok block) ∧
    (devNetName.data = [] →
      CreateDevNetGenesisBlock env prevBlockHash devNetName nTime nNonce nBits reward =
        Except.error (Failure.assertion AssertSite.devNetNameNotEmpty)) ∧
    (∀ e, CreateDevNetGenesisBlock env prevBlockHash devNetName nTime nNonce nBits reward =
        Except.error e →
      devNetName.data = [] ∧ e = Failure.assertion AssertSite.devNetNameNotEmpty) := by
  refine ⟨⟨_, rfl, rfl⟩, ⟨_, rfl, rfl⟩, ?_, ?_, ?_⟩
  · intro hne
    unfold CreateDevNetGenesisBlock
    rw [if_neg hne]
    exact ⟨_, rfl⟩
  · intro he
    unfold CreateDevNetGenesisBlock
    rw [if_pos he]
  · intro e he
    unfold CreateDevNetGenesisBlock at he
    split at he
    · rename_i hempty
      cases he
      exact ⟨hempty, rfl⟩
    · cases he

/-- Witness of C24: the devnet builder returns for the name "devnet" and fails
its `assert` for the empty name. -/
theorem genesis_builders_total_witness :
    (∃ block, CreateDevNetGenesisBlock sampleDevBackend 0 "devnet" 1 0 0x207fffff (50 * COIN) =
      Except.ok block) ∧
    CreateDevNetGenesisBlock sampleDevBackend 0 "" 1 0 0x207fffff (50 * COIN) =
      Except.error (Failure.assertion AssertSite.devNetNameNotEmpty) :=
  ⟨(genesis_builders_total sampleDevBackend "" [] 0 "devnet" 1 0 0x207fffff 1 (50 * COIN)
      false).2.2.1 (by decide),
   (genesis_builders_total sampleDevBackend "" [] 0 "" 1 0 0x207fffff 1 (50 * COIN)
      false).2.2.2.1 rfl⟩

/-- Under `nullPassBackend` the mining loop of the test constructor ends at its
first test, on the null block, and the constructor stores the block of nonce 0. -/
theorem CTestNetParams_nullPassBackend :
    CTestNetParams nullPassBackend = Except.ok (CTestNetParams_assign nullPassBackend 0) := by
  rfl

/-- C25, at the failing input: under a hash that is within powLimit on the null
block and above it elsewhere, the mining loop of the test constructor ends
without running its body (its first test is on the null block the member
`genesis` still is), the stored genesis is
`CreateGenesisBlock(1573325000, 0, 0x1f00ffff, 1, 0, true)`, and the hash of the
stored genesis is above powLimit. -/
theorem CTestNetParams_stores_unchecked_genesis :
    nullPassBackend.GetHash {} ≤ testPowLimit ∧
    CTestNetParams_loop nullPassBackend (2 ^ 32 + 1) {} 0 = some ({}, 0) ∧
    CTestNetParams nullPassBackend = Except.ok (CTestNetParams_assign nullPassBackend 0) ∧
    (CTestNetParams_assign nullPassBackend 0).genesis =
      CreateGenesisBlock nullPassBackend 1573325000 0 0x1f00ffff 1 (0 * COIN) true ∧
    (CTestNetParams_assign nullPassBackend 0).consensus.powLimit <
      nullPassBackend.GetHash (CTestNetParams_assign nullPassBackend 0).genesis ∧
    ¬ nullPassBackend.GetHash (CTestNetParams_assign nullPassBackend 0).genesis ≤
      (CTestNetParams_assign nullPassBackend 0).consensus.powLimit := by
  refine ⟨by decide, rfl, CTestNetParams_nullPassBackend, rfl, by decide, by decide⟩

/-! ## Claims on targets, failed selections and quorum maps -/

/-- The compact target of the difficulty bits of the main genesis. -/
theorem SetCompact_main :
    SetCompact 0x1e0ffff0 =
      0x00000ffff0000000000000000000000000000000000000000000000000000000 := by
  decide

/-- C26: in each of the four profiles as constructed, the target decoded from the
compact bits of the genesis block is at most the powLimit of the profile:
`0x1e0ffff0` against the powLimit of main, `0x1f00ffff` against that of test,
`0x207fffff` against that of dev and of regtest. -/
theorem profiles_genesis_target_within_powLimit (env : Backend) (p : CChainParams)
    (h : CMainParams env = Except.ok p ∨ CTestNetParams env = Except.ok p ∨
      CDevNetParams env = Except.ok p ∨ CRegTestParams env = p) :
    GenesisTargetWithinPowLimit p ∧
    SetCompact 0x1e0ffff0 ≤
      0x00000fffffffffffffffffffffffffffffffffffffffffffffffffffffffffff ∧
    SetCompact 0x1f00ffff ≤
      0x0000fffff0000000000000000000000000000000000000000000000000000000 ∧
    SetCompact 0x207fffff ≤
      0x7fffffffffffffffffffffffffffffffffffffffffffffffffffffffffffffff := by
  have hmain : SetCompact 0x1e0ffff0 ≤
      0x00000fffffffffffffffffffffffffffffffffffffffffffffffffffffffffff := by decide
  have htest : SetCompact 0x1f00ffff ≤
      0x0000fffff0000000000000000000000000000000000000000000000000000000 := by decide
  have hdev : SetCompact 0x207fffff ≤
      0x7fffffffffffffffffffffffffffffffffffffffffffffffffffffffffffffff := by decide
  refine ⟨?_, hmain, htest, hdev⟩
  rcases h with h | h | h | h
  · obtain ⟨hp, _, _⟩ := CMainParams_ok env p h
    subst hp
    exact hmain
  · obtain ⟨_, nNonce, _, hp⟩ := CTestNetParams_ok env p h
    subst hp
    exact htest
  · obtain ⟨_, _, devnetGenesis, _, hp⟩ := CDevNetParams_ok env p h
    subst hp
    exact hdev
  · subst h
    exact hdev

/-- Witness of C26: each of the four constructors returns under a sample
backend, and the genesis target of the profile it returns is within powLimit. -/
theorem profiles_genesis_target_within_powLimit_witness :
    GenesisTargetWithinPowLimit (CMainParams_assign sampleMainBackend) ∧
      GenesisTargetWithinPowLimit (CTestNetParams_assign sampleMainBackend 0) ∧
      GenesisTargetWithinPowLimit (CDevNetParams_assign sampleDevBackend sampleDevnetGenesis) ∧
      GenesisTargetWithinPowLimit (CRegTestParams sampleMainBackend) :=
  ⟨(profiles_genesis_target_within_powLimit sampleMainBackend _
      (Or.inl CMainParams_sampleMainBackend)).1,
   (profiles_genesis_target_within_powLimit sampleMainBackend _
     (Or.inr (Or.inl CTestNetParams_sampleMainBackend))).1,
   (profiles_genesis_target_within_powLimit sampleDevBackend _
     (Or.inr (Or.inr (Or.inl CDevNetParams_sampleDevBackend)))).1,
   (profiles_genesis_target_within_powLimit sampleMainBackend _
     (Or.inr (Or.inr (Or.inr rfl)))).1⟩

/-- C27: a `SelectParams(network)` that fails because `network` is outside the
closed set leaves the state as it was: `pCurrentParams` keeps its value, null or
not, and the dev profile slot is not touched. -/
theorem SelectParams_unknown_atomic (env : Backend) (s : Registry) (network : String)
    (h : network ∉ networkIDs) :
    (∃ what, (SelectParams env network s).1 = Except.error (Failure.runtime_error what)) ∧
    (SelectParams env network s).2 = s ∧
    (SelectParams env network s).2.pCurrentParams = s.pCurrentParams ∧
    (SelectParams env network s).2.devNetParams = s.devNetParams ∧
    Params (SelectParams env network s).2 = Params s := by
  have hs := SelectParams_unknown env s network h
  rw [hs]
  exact ⟨⟨_, rfl⟩, rfl, rfl, rfl, rfl⟩

/-- Witness of C27: with dev selected, `SelectParams("bogus")` fails and leaves
the state, its active profile and its dev profile as they were. -/
theorem SelectParams_unknown_atomic_witness :
    (SelectParams sampleDevBackend "bogus" sampleDevRegistry).2 = sampleDevRegistry ∧
    (SelectParams sampleMainBackend "bogus" sampleRegistry).2.pCurrentParams = none :=
  ⟨(SelectParams_unknown_atomic sampleDevBackend sampleDevRegistry "bogus" (by decide)).2.1,
   (SelectParams_unknown_atomic sampleMainBackend sampleRegistry "bogus" (by decide)).2.2.1⟩

/-- The entries of the quorum map of main and dev. -/
theorem llmqs_main_dev (k : Consensus.LLMQType) (q : Consensus.LLMQParams)
    (h : Consensus.LLMQMap.set
      (Consensus.LLMQMap.set
        (Consensus.LLMQMap.set Consensus.LLMQMap.empty .LLMQ_50_60 llmq50_60)
        .LLMQ_400_60 llmq400_60)
      .LLMQ_400_85 llmq400_85 k = some q) :
    q.type = k ∧ (q = llmq50_60 ∨ q = llmq400_60 ∨ q = llmq400_85) := by
  cases k <;> simp [Consensus.LLMQMap.set, Consensus.LLMQMap.empty] at h <;> subst h <;>
    simp [llmq50_60, llmq400_60, llmq400_85]

/-- The entries of the quorum map of test. -/
theorem llmqs_test (k : Consensus.LLMQType) (q : Consensus.LLMQParams)
    (h : Consensus.LLMQMap.set Consensus.LLMQMap.empty .LLMQ_5_60 llmq5_60 k = some q) :
    q.type = k ∧ q = llmq5_60 := by
  cases k <;> simp [Consensus.LLMQMap.set, Consensus.LLMQMap.empty] at h
  subst h
  simp [llmq5_60]

/-- The entries of the quorum map of regtest. -/
theorem llmqs_regtest (k : Consensus.LLMQType) (q : Consensus.LLMQParams)
    (h : Consensus.LLMQMap.set
      (Consensus.LLMQMap.set Consensus.LLMQMap.empty .LLMQ_5_60 llmq5_60)
      .LLMQ_50_60 llmq50_60 k = some q) :
    q.type = k ∧ (q = llmq5_60 ∨ q = llmq50_60) := by
  cases k <;> simp [Consensus.LLMQMap.set, Consensus.LLMQMap.empty] at h <;> subst h <;>
    simp [llmq5_60, llmq50_60]

/-- C28: in each of the four profiles as constructed, every entry of
`consensus.llmqs` is stored under its own type: for every key `k` present,
`llmqs[k].type == k`. -/
theorem profiles_quorums_under_own_type (env : Backend) (p : CChainParams)
    (h : CMainParams env = Except.ok p ∨ CTestNetParams env = Except.ok p ∨
      CDevNetParams env = Except.ok p ∨ CRegTestParams env = p) :
    QuorumsUnderOwnType p := by
  rcases h with h | h | h | h
  · obtain ⟨hp, _, _⟩ := CMainParams_ok env p h
    subst hp
    exact fun k q hq => (llmqs_main_dev k q hq).1
  · obtain ⟨_, nNonce, _, hp⟩ := CTestNetParams_ok env p h
    subst hp
    exact fun k q hq => (llmqs_test k q hq).1
  · obtain ⟨_, _, devnetGenesis, _, hp⟩ := CDevNetParams_ok env p h
    subst hp
    exact fun k q hq => (llmqs_main_dev k q hq).1
  · subst h
    exact fun k q hq => (llmqs_regtest k q hq).1

/-- Witness of C28: each of the four constructors returns under a sample
backend, and the quorums of the profile it returns are under their own types. -/
theorem profiles_quorums_under_own_type_witness :
    QuorumsUnderOwnType (CMainParams_assign sampleMainBackend) ∧
      QuorumsUnderOwnType (CTestNetParams_assign sampleMainBackend 0) ∧
      QuorumsUnderOwnType (CDevNetParams_assign sampleDevBackend sampleDevnetGenesis) ∧
      QuorumsUnderOwnType (CRegTestParams sampleMainBackend) :=
  ⟨profiles_quorums_under_own_type sampleMainBackend _ (Or.inl CMainParams_sampleMainBackend),
   profiles_quorums_under_own_type sampleMainBackend _
     (Or.inr (Or.inl CTestNetParams_sampleMainBackend)),
   profiles_quorums_under_own_type sampleDevBackend _
     (Or.inr (Or.inr (Or.inl CDevNetParams_sampleDevBackend))),
   profiles_quorums_under_own_type sampleMainBackend _ (Or.inr (Or.inr (Or.inr rfl)))⟩

/-! ## Claims on timing constants -/

/-- C29, at the failing input: main registers `llmq50_60` and test registers
`llmq5_60`, both with `dkgInterval = 24` and the comment "one DKG per hour", at
a block spacing of 60 seconds: 24 blocks are 1440 seconds, not 3600. Dev and
regtest, at a spacing of 150 seconds, do run these quorums hourly. -/
theorem hourly_quorums_not_hourly_on_main_and_test (env : Backend) (nNonce : Nat)
    (devnetGenesis : CBlock) :
    (CMainParams_assign env).consensus.llmqs Consensus.LLMQType.LLMQ_50_60 = some llmq50_60 ∧
    llmq50_60.dkgInterval * (CMainParams_assign env).consensus.nPowTargetSpacing = 1440 ∧
    ¬ HourlyQuorumsRunHourly (CMainParams_assign env) ∧
    (CTestNetParams_assign env nNonce).consensus.llmqs Consensus.LLMQType.LLMQ_5_60 =
      some llmq5_60 ∧
    llmq5_60.dkgInterval * (CTestNetParams_assign env nNonce).consensus.nPowTargetSpacing =
      1440 ∧
    ¬ HourlyQuorumsRunHourly (CTestNetParams_assign env nNonce) ∧
    HourlyQuorumsRunHourly (CDevNetParams_assign env devnetGenesis) ∧
    HourlyQuorumsRunHourly (CRegTestParams env) := by
  have h1440 : ¬ ((24 : Int) * (1 * 60) = 3600) := by decide
  have h1440t : ¬ ((24 : Int) * 60 = 3600) := by decide
  have h3600 : (24 : Int) * 150 = 3600 := by decide
  refine ⟨rfl, rfl, ?_, rfl, rfl, ?_, ?_, ?_⟩
  · intro hall
    exact h1440 (hall Consensus.LLMQType.LLMQ_50_60 llmq50_60 rfl (Or.inr rfl))
  · intro hall
    exact h1440t (hall Consensus.LLMQType.LLMQ_5_60 llmq5_60 rfl (Or.inl rfl))
  · intro k q hq hor
    rcases hor with rfl | rfl
    · exact h3600
    · exact h3600
  · intro k q hq hor
    rcases hor with rfl | rfl
    · exact h3600
    · exact h3600

/-- C30: in the profiles of test, dev and regtest as constructed, the rule-change
activation threshold is exactly 75% of the miner confirmation window:
`nRuleChangeActivationThreshold * 4 == nMinerConfirmationWindow * 3`. -/
theorem testchains_threshold_three_quarters (env : Backend) (p : CChainParams)
    (h : CTestNetParams env = Except.ok p ∨ CDevNetParams env = Except.ok p ∨
      CRegTestParams env = p) :
    RuleChangeThresholdThreeQuarters p := by
  have h2016 : (1512 : Int) * 4 = 2016 * 3 := by decide
  have h144 : (108 : Int) * 4 = 144 * 3 := by decide
  rcases h with h | h | h
  · obtain ⟨_, nNonce, _, hp⟩ := CTestNetParams_ok env p h
    subst hp
    exact h2016
  · obtain ⟨_, _, devnetGenesis, _, hp⟩ := CDevNetParams_ok env p h
    subst hp
    exact h2016
  · subst h
    exact h144

/-- Witness of C30: each of the three constructors returns under a sample
backend, and the threshold of the profile it returns is 75% of the window. -/
theorem testchains_threshold_three_quarters_witness :
    RuleChangeThresholdThreeQuarters (CTestNetParams_assign sampleMainBackend 0) ∧
      RuleChangeThresholdThreeQuarters
        (CDevNetParams_assign sampleDevBackend sampleDevnetGenesis) ∧
      RuleChangeThresholdThreeQuarters (CRegTestParams sampleMainBackend) :=
  ⟨testchains_threshold_three_quarters sampleMainBackend _
      (Or.inl CTestNetParams_sampleMainBackend),
   testchains_threshold_three_quarters sampleDevBackend _
     (Or.inr (Or.inl CDevNetParams_sampleDevBackend)),
   testchains_threshold_three_quarters sampleMainBackend _ (Or.inr (Or.inr rfl))⟩

/-! ## Claims on the wire identity of the networks -/

/-- C31: the four profiles as constructed are pairwise distinguishable on the
wire: their 4-byte `pchMessageStart` values are pairwise distinct, and their
`nDefaultPort` values are pairwise distinct. -/
theorem profiles_distinct_on_wire (envMain envTest envDev envRegTest : Backend)
    (m t d : CChainParams) (hm : CMainParams envMain = Except.ok m)
    (ht : CTestNetParams envTest = Except.ok t) (hd : CDevNetParams envDev = Except.ok d) :
    List.Pairwise (fun a b => a ≠ b)
      [m.pchMessageStart, t.pchMessageStart, d.pchMessageStart,
       (CRegTestParams envRegTest).pchMessageStart] ∧
    List.Pairwise (fun a b => a ≠ b)
      [m.nDefaultPort, t.nDefaultPort, d.nDefaultPort,
       (CRegTestParams envRegTest).nDefaultPort] ∧
    m.pchMessageStart.length = 4 ∧ t.pchMessageStart.length = 4 ∧
    d.pchMessageStart.length = 4 ∧ (CRegTestParams envRegTest).pchMessageStart.length = 4 := by
  obtain ⟨hmp, _, _⟩ := CMainParams_ok envMain m hm
  obtain ⟨_, nNonce, _, htp⟩ := CTestNetParams_ok envTest t ht
  obtain ⟨_, _, devnetGenesis, _, hdp⟩ := CDevNetParams_ok envDev d hd
  subst hmp
  subst htp
  subst hdp
  refine ⟨?_, ?_, rfl, rfl, rfl, rfl⟩
  · show List.Pairwise (fun a b => a ≠ b)
      [[0xba, 0xc3, 0xe9, 0x7d], [0x22, 0x44, 0x66, 0x88], [0xe2, 0xca, 0xff, 0xce],
       ([0xfc, 0xc1, 0xb7, 0xdc] : List Nat)]
    decide
  · show List.Pairwise (fun a b => a ≠ b) [(1505 : Int), 29999, 19999, 19994]
    decide

/-- Witness of C31: the constructors return under the sample backends, and the
message starts and ports of the profiles they return are pairwise distinct. -/
theorem profiles_distinct_on_wire_witness :
    List.Pairwise (fun a b => a ≠ b)
      [(CMainParams_assign sampleMainBackend).pchMessageStart,
       (CTestNetParams_assign sampleMainBackend 0).pchMessageStart,
       (CDevNetParams_assign sampleDevBackend sampleDevnetGenesis).pchMessageStart,
       (CRegTestParams sampleMainBackend).pchMessageStart] ∧
    List.Pairwise (fun a b => a ≠ b)
      [(CMainParams_assign sampleMainBackend).nDefaultPort,
       (CTestNetParams_assign sampleMainBackend 0).nDefaultPort,
       (CDevNetParams_assign sampleDevBackend sampleDevnetGenesis).nDefaultPort,
       (CRegTestParams sampleMainBackend).nDefaultPort] :=
  ⟨(profiles_distinct_on_wire sampleMainBackend sampleMainBackend sampleDevBackend
      sampleMainBackend _ _ _ CMainParams_sampleMainBackend CTestNetParams_sampleMainBackend
      CDevNetParams_sampleDevBackend).1,
   (profiles_distinct_on_wire sampleMainBackend sampleMainBackend sampleDevBackend
      sampleMainBackend _ _ _ CMainParams_sampleMainBackend CTestNetParams_sampleMainBackend
      CDevNetParams_sampleDevBackend).2.1⟩

end NewEPM
